import Mathlib

/-!
# xdg-desktop-portal-dde: the screencast capture-to-stream pipeline

A shallow embedding of `src/wayland/screencast.h`, `src/wayland/screencast.cpp`,
`src/wayland/screencastframe.cpp`, `src/wayland/fpslimit.cpp`, the portal methods of
`src/wayland/portalwaylandcontext.cpp` and the sessions of `src/session.cpp`, followed by
the properties of the pipeline that were checked against it.

Conventions of the embedding

* `int32_t` values are `Int`, `uint32_t`/`uint64_t` values are `Nat`; every place where the
  C++ arithmetic wraps is written with an explicit reduction (`u32`, `i32`, `u64`).
* A `(pointer, count)` pair is a `List`.
* Calls into the collaborators (PipeWire stream, screencopy manager, GBM) are appended to
  the `calls` field of the session, in program order.
* `Q_ASSERT` is the release build's no-op; an out-of-range `QList::operator[]`, a write
  past a metadata block or a call through a null pointer has no defined result and is
  `none`.
* `double` arithmetic is IEEE 754 binary64, rounded to nearest with ties to even.
-/

namespace Xdpd

/-! ## Machine integers -/

/-- Conversion to `uint32_t`: reduction modulo 2^32. -/
def u32 (i : Int) : Nat := (i % 4294967296).toNat

/-- Conversion to `int32_t` of a 32-bit pattern (two's complement). -/
def i32 (n : Nat) : Int :=
  if n % 4294967296 < 2147483648 then (n % 4294967296 : Nat) else ((n % 4294967296 : Nat) : Int) - 4294967296

/-- Conversion to `uint64_t`: reduction modulo 2^64. -/
def u64 (i : Int) : Nat := (i % 18446744073709551616).toNat

/-- Conversion to `int64_t` of a 64-bit pattern (two's complement). -/
def i64 (n : Nat) : Int :=
  if n % 18446744073709551616 < 9223372036854775808 then (n % 18446744073709551616 : Nat)
  else ((n % 18446744073709551616 : Nat) : Int) - 18446744073709551616

/-! ## Damage rectangles (`screencast.h`) -/

/-- The struct `XdpdFrameDamage`: `int32_t x, y; uint32_t width, height`. -/
structure XdpdFrameDamage where
  x : Int
  y : Int
  width : Nat
  height : Nat
deriving DecidableEq, Repr

/-- The inline function `mergeDamage` of `screencast.h`. The minima are signed comparisons;
`x + width` is computed and compared in `uint32_t` (usual arithmetic conversions), and so is
`x0 - damage.x`. -/
def mergeDamage (damage1 damage2 : XdpdFrameDamage) : XdpdFrameDamage :=
  let x := if damage1.x < damage2.x then damage1.x else damage2.x
  let y := if damage1.y < damage2.y then damage1.y else damage2.y
  let x0 := if u32 (damage1.x + damage1.width) < u32 (damage2.x + damage2.width)
    then u32 (damage2.x + damage2.width) else u32 (damage1.x + damage1.width)
  let y0 := if u32 (damage1.y + damage1.height) < u32 (damage2.y + damage2.height)
    then u32 (damage2.y + damage2.height) else u32 (damage1.y + damage1.height)
  { x := x, y := y, width := u32 (x0 - x), height := u32 (y0 - y) }

/-! ## Pixel formats -/

/-- The enumerators of `enum spa_video_format` that the source names; `other` stands for
every enumerator it does not name. -/
inductive spa_video_format where
  | UNKNOWN | BGRA | BGRx | ABGR | xBGR | RGBA | RGBx | ARGB | xRGB | NV12
  | xRGB_210LE | xBGR_210LE | RGBx_102LE | BGRx_102LE
  | ARGB_210LE | ABGR_210LE | RGBA_102LE | BGRA_102LE | RGB | BGR
  | other (code : Nat)
deriving DecidableEq, Repr

/-- The macro `fourcc_code(a, b, c, d)` of `drm_fourcc.h`. -/
def fourcc_code (a b c d : Char) : Nat :=
  a.toNat + b.toNat * 256 + c.toNat * 65536 + d.toNat * 16777216

def DRM_FORMAT_ARGB8888 : Nat := fourcc_code 'A' 'R' '2' '4'
def DRM_FORMAT_XRGB8888 : Nat := fourcc_code 'X' 'R' '2' '4'
def DRM_FORMAT_RGBA8888 : Nat := fourcc_code 'R' 'A' '2' '4'
def DRM_FORMAT_RGBX8888 : Nat := fourcc_code 'R' 'X' '2' '4'
def DRM_FORMAT_ABGR8888 : Nat := fourcc_code 'A' 'B' '2' '4'
def DRM_FORMAT_XBGR8888 : Nat := fourcc_code 'X' 'B' '2' '4'
def DRM_FORMAT_BGRA8888 : Nat := fourcc_code 'B' 'A' '2' '4'
def DRM_FORMAT_BGRX8888 : Nat := fourcc_code 'B' 'X' '2' '4'
def DRM_FORMAT_NV12 : Nat := fourcc_code 'N' 'V' '1' '2'
def DRM_FORMAT_XRGB2101010 : Nat := fourcc_code 'X' 'R' '3' '0'
def DRM_FORMAT_XBGR2101010 : Nat := fourcc_code 'X' 'B' '3' '0'
def DRM_FORMAT_RGBX1010102 : Nat := fourcc_code 'R' 'X' '3' '0'
def DRM_FORMAT_BGRX1010102 : Nat := fourcc_code 'B' 'X' '3' '0'
def DRM_FORMAT_ARGB2101010 : Nat := fourcc_code 'A' 'R' '3' '0'
def DRM_FORMAT_ABGR2101010 : Nat := fourcc_code 'A' 'B' '3' '0'
def DRM_FORMAT_RGBA1010102 : Nat := fourcc_code 'R' 'A' '3' '0'
def DRM_FORMAT_BGRA1010102 : Nat := fourcc_code 'B' 'A' '3' '0'
def DRM_FORMAT_BGR888 : Nat := fourcc_code 'B' 'G' '2' '4'
def DRM_FORMAT_RGB888 : Nat := fourcc_code 'R' 'G' '2' '4'

/-- The constant `DRM_FORMAT_MOD_INVALID` of `drm_fourcc.h` (0x00ffffffffffffff). -/
def DRM_FORMAT_MOD_INVALID : Nat := 72057594037927935

/-- The constant `DRM_FORMAT_MOD_LINEAR` of `drm_fourcc.h`. -/
def DRM_FORMAT_MOD_LINEAR : Nat := 0

/-- The function `xdpd_format_pw_strip_alpha` of `screencast.cpp`. -/
def xdpd_format_pw_strip_alpha : spa_video_format → spa_video_format
  | .BGRA => .BGRx
  | .ABGR => .xBGR
  | .RGBA => .RGBx
  | .ARGB => .xRGB
  | .ARGB_210LE => .xRGB_210LE
  | .ABGR_210LE => .xBGR_210LE
  | .RGBA_102LE => .RGBx_102LE
  | .BGRA_102LE => .BGRx_102LE
  | _ => .UNKNOWN

/-- The function `xdpd_format_pw_from_drm_fourcc` of `screencast.cpp`. -/
def xdpd_format_pw_from_drm_fourcc (format : Nat) : spa_video_format :=
  if format = DRM_FORMAT_ARGB8888 then .BGRA
  else if format = DRM_FORMAT_XRGB8888 then .BGRx
  else if format = DRM_FORMAT_RGBA8888 then .ABGR
  else if format = DRM_FORMAT_RGBX8888 then .xBGR
  else if format = DRM_FORMAT_ABGR8888 then .RGBA
  else if format = DRM_FORMAT_XBGR8888 then .RGBx
  else if format = DRM_FORMAT_BGRA8888 then .ARGB
  else if format = DRM_FORMAT_BGRX8888 then .xRGB
  else if format = DRM_FORMAT_NV12 then .NV12
  else if format = DRM_FORMAT_XRGB2101010 then .xRGB_210LE
  else if format = DRM_FORMAT_XBGR2101010 then .xBGR_210LE
  else if format = DRM_FORMAT_RGBX1010102 then .RGBx_102LE
  else if format = DRM_FORMAT_BGRX1010102 then .BGRx_102LE
  else if format = DRM_FORMAT_ARGB2101010 then .ARGB_210LE
  else if format = DRM_FORMAT_ABGR2101010 then .ABGR_210LE
  else if format = DRM_FORMAT_RGBA1010102 then .RGBA_102LE
  else if format = DRM_FORMAT_BGRA1010102 then .BGRA_102LE
  else if format = DRM_FORMAT_BGR888 then .RGB
  else if format = DRM_FORMAT_RGB888 then .BGR
  else .UNKNOWN

/-! ## Parameter objects published to the transport

The `spa_pod` objects are built with the SPA pod builder; the embedding keeps the properties
and values the builder calls add, in the order of the calls. -/

/-- The flag `SPA_POD_PROP_FLAG_MANDATORY` (`1 << 3`). -/
def SPA_POD_PROP_FLAG_MANDATORY : Nat := 8

/-- The flag `SPA_POD_PROP_FLAG_DONT_FIXATE` (`1 << 4`). -/
def SPA_POD_PROP_FLAG_DONT_FIXATE : Nat := 16

/-- The value of the property `SPA_FORMAT_VIDEO_format`: `SPA_POD_Id(f)` or
`SPA_POD_CHOICE_ENUM_Id(n, ...)` with its `n` values. -/
inductive video_format_value where
  | Id (format : spa_video_format)
  | CHOICE_ENUM_Id (values : List spa_video_format)
deriving DecidableEq, Repr

/-- The value of the property `SPA_FORMAT_VIDEO_modifier`: one `spa_pod_builder_long`, or an
enumerated choice (`spa_pod_builder_push_choice(.., SPA_CHOICE_Enum, 0)`) holding the longs
pushed into it, the first one being the default. Modifiers are kept as their 64-bit
pattern. -/
inductive modifier_value where
  | Long (modifier : Nat)
  | CHOICE_Enum (values : List Nat)
deriving DecidableEq, Repr

/-- The property `SPA_FORMAT_VIDEO_modifier` with the flags given to
`spa_pod_builder_prop`. -/
structure modifier_prop where
  flags : Nat
  value : modifier_value
deriving DecidableEq, Repr

structure spa_rectangle where
  width : Nat
  height : Nat
deriving DecidableEq, Repr

structure spa_fraction where
  num : Nat
  denom : Nat
deriving DecidableEq, Repr

/-- The metadata types the source asks for. -/
inductive spa_meta_type where
  | Header | VideoTransform | VideoDamage
deriving DecidableEq, Repr

/-- The value of `SPA_PARAM_META_size`: `SPA_POD_Int` or `SPA_POD_CHOICE_RANGE_Int`. -/
inductive meta_size_value where
  | Int (size : Nat)
  | CHOICE_RANGE_Int (default min max : Nat)
deriving DecidableEq, Repr

/-- The three kinds of object the source builds: a format proposal
(`SPA_TYPE_OBJECT_Format`), the buffer parameters (`SPA_TYPE_OBJECT_ParamBuffers`) and a
metadata request (`SPA_TYPE_OBJECT_ParamMeta`). A format proposal always has media type
video and media subtype raw, framerate `0/1` and the range `(framerate/1, 1/1, framerate/1)`
as maximal framerate; `maxFramerate` keeps the `framerate` argument. -/
inductive spa_pod where
  | Format (format : video_format_value) (modifier : Option modifier_prop)
      (size : spa_rectangle) (framerate : spa_fraction) (maxFramerate : Nat)
  | ParamBuffers (buffers : Nat × Nat × Nat) (blocks : Nat) (size : Option Nat)
      (stride : Option Nat) (align : Nat) (dataType : Nat)
  | ParamMeta (type : spa_meta_type) (size : meta_size_value)
deriving DecidableEq, Repr

def XDPW_PWR_BUFFERS : Nat := 2
def XDPW_PWR_BUFFERS_MIN : Nat := 2
def XDPW_PWR_ALIGN : Nat := 16

/-- The function `build_buffer` of `screencast.cpp`. -/
def build_buffer (blocks size stride datatype : Nat) : spa_pod :=
  .ParamBuffers (XDPW_PWR_BUFFERS, XDPW_PWR_BUFFERS_MIN, 32) blocks
    (if size > 0 then some size else none)
    (if stride > 0 then some stride else none)
    XDPW_PWR_ALIGN datatype

/-- The loop of `build_format` over the modifier array: every modifier is pushed once, the
first one twice (`if (c++ == 0)`). -/
def push_modifiers : List Nat → List Nat
  | [] => []
  | m :: rest => m :: m :: rest

/-- The function `build_format` of `screencast.cpp`; `modifiers` is the array with its
`modifier_count` entries (`nullptr, 0` is the empty list). -/
def build_format (format : spa_video_format) (width height framerate : Nat)
    (modifiers : List Nat) : spa_pod :=
  let modifier_count := modifiers.length
  let format_without_alpha := xdpd_format_pw_strip_alpha format
  let fmt : video_format_value :=
    if modifier_count > 0 ∨ format_without_alpha = .UNKNOWN then .Id format
    else .CHOICE_ENUM_Id [format, format, format_without_alpha]
  let mods : Option modifier_prop :=
    if modifier_count > 0 then
      some { flags := SPA_POD_PROP_FLAG_MANDATORY ||| SPA_POD_PROP_FLAG_DONT_FIXATE,
             value := .CHOICE_Enum (push_modifiers modifiers) }
    else none
  .Format fmt mods { width := width, height := height } { num := 0, denom := 1 } framerate

/-- The function `fixate_format` of `screencast.cpp`; `modifier` is `none` for a null
pointer. -/
def fixate_format (format : spa_video_format) (width height framerate : Nat)
    (modifier : Option Nat) : spa_pod :=
  let format_without_alpha := xdpd_format_pw_strip_alpha format
  let fmt : video_format_value :=
    if modifier.isSome ∨ format_without_alpha = .UNKNOWN then .Id format
    else .CHOICE_ENUM_Id [format, format, format_without_alpha]
  let mods : Option modifier_prop :=
    match modifier with
    | some m => some { flags := SPA_POD_PROP_FLAG_MANDATORY, value := .Long m }
    | none => none
  .Format fmt mods { width := width, height := height } { num := 0, denom := 1 } framerate

/-! ## GBM, as far as the source calls it -/

def GBM_BO_USE_RENDERING : Nat := 4
def GBM_BO_USE_LINEAR : Nat := 16

/-- What the source reads from a `gbm_bo`: `gbm_bo_get_modifier`, `gbm_bo_get_plane_count`
and, per plane, `gbm_bo_get_stride_for_plane`, `gbm_bo_get_offset` and
`gbm_bo_get_fd_for_plane`. -/
structure gbm_bo where
  handle : Nat
  modifier : Nat
  plane_count : Int
  stride_for_plane : List Nat
  offset : List Nat
  fd_for_plane : List Int
deriving DecidableEq, Repr

/-- The GBM device `ctx->gbm`: the library is not part of the repository, its three entry
points are parameters of the embedding. -/
structure gbm_device where
  gbm_bo_create_with_modifiers2 :
    (width height format : Nat) → (modifiers : List Nat) → (flags : Nat) → Option gbm_bo
  gbm_bo_create : (width height format flags : Nat) → Option gbm_bo
  gbm_device_get_format_modifier_plane_count : (format modifier : Nat) → Int

/-! ## Buffers -/

/-- The enum `BufferType`. Its third enumerator `BufferTypeCount` is the number of transport
types (the length of `screencopyFrameInfo`); no assignment in the source stores it. -/
inductive BufferType where
  | WL_SHM | DMABUF
deriving DecidableEq, Repr

structure ScreenCopyFrameInfo where
  width : Nat
  height : Nat
  size : Nat
  stride : Nat
  format : Nat
deriving DecidableEq, Repr

/-- The struct `XdpdBuffer`; the arrays `fd`, `size`, `stride`, `offset` hold the entries that
were written (one per plane). `buffer` is the `wl_buffer` handle. -/
structure XdpdBuffer where
  buffer_type : BufferType
  width : Nat
  height : Nat
  format : Nat
  plane_count : Int
  fd : List Int
  size : List Nat
  stride : List Nat
  offset : List Nat
  bo : Option gbm_bo
  buffer : Nat
deriving DecidableEq, Repr

structure spa_chunk where
  offset : Nat
  size : Nat
  stride : Int
  flags : Nat
deriving DecidableEq, Repr

/-- The struct `spa_data` (its `data` pointer is only ever set to null). -/
structure spa_data where
  type : Nat
  flags : Nat
  fd : Int
  mapoffset : Nat
  maxsize : Nat
  chunk : spa_chunk
deriving DecidableEq, Repr

structure spa_point where
  x : Int
  y : Int
deriving DecidableEq, Repr

structure spa_region where
  position : spa_point
  size : spa_rectangle
deriving DecidableEq, Repr

/-- The macro `SPA_REGION(x, y, width, height)`. -/
def SPA_REGION (x y : Int) (width height : Nat) : spa_region :=
  { position := { x := x, y := y }, size := { width := width, height := height } }

structure spa_meta_header where
  flags : Nat
  offset : Nat
  pts : Int
  dts_offset : Int
  seq : Nat
deriving DecidableEq, Repr

/-- A transport buffer (`pw_buffer` with its `spa_buffer`). `id` is its address. `header`,
`videotransform` and `damage` are what `spa_buffer_find_meta_data`/`spa_buffer_find_meta`
find for `SPA_META_Header`, `SPA_META_VideoTransform` and `SPA_META_VideoDamage` (`none`
when the buffer carries no such metadata); `damage` lists the `spa_meta_region` slots that
fit into the metadata block, so its length is the capacity of the block. `datas` has
`n_datas` entries. -/
structure pw_buffer where
  id : Nat
  user_data : Option XdpdBuffer
  header : Option spa_meta_header
  videotransform : Option Nat
  damage : Option (List spa_region)
  datas : List spa_data
deriving DecidableEq, Repr

def SPA_META_HEADER_FLAG_CORRUPTED : Nat := 2
def SPA_CHUNK_FLAG_NONE : Nat := 0
def SPA_CHUNK_FLAG_CORRUPTED : Nat := 1
def SPA_DATA_MemFd : Nat := 2
def SPA_DATA_DmaBuf : Nat := 3

/-! ## The session -/

/-- A call into a collaborator, as recorded in `ScreenCast.calls`. -/
inductive Call where
  | pw_stream_update_params (params : List spa_pod)
  | pw_stream_queue_buffer (buffer : pw_buffer)
  | pw_stream_dequeue_buffer
  | capture_output (overlay_cursor : Int) (output : Nat)
  | gbm_bo_create_with_modifiers2 (width height format : Nat) (modifiers : List Nat)
      (flags : Nat)
  | gbm_bo_create (width height format flags : Nat)
  | gbm_bo_destroy (handle : Nat)
  | shm_open
  | shm_unlink
  | ftruncate (fd : Int) (size : Nat)
  | close (fd : Int)
  | wl_buffer_destroy (buffer : Nat)
  | QTimer_singleShot (delay_ns : Nat)
deriving DecidableEq, Repr

structure XdpdFrame where
  yInverted : Bool
  tv_sec : Nat
  tv_nsec : Nat
  transformation : Nat
  damages : List XdpdFrameDamage
  damageCount : Nat
  xdpdBuffer : Option XdpdBuffer
  pwBuffer : Option pw_buffer
deriving DecidableEq, Repr

inductive xdpd_frame_state where
  | XDPD_FRAME_STATE_NONE
  | XDPD_FRAME_STATE_STARTED
  | XDPD_FRAME_STATE_RENEG
  | XDPD_FRAME_STATE_FAILED
  | XDPD_FRAME_STATE_SUCCESS
deriving DecidableEq, Repr

structure spa_video_info_raw where
  format : spa_video_format
  modifier : Nat
  size : spa_rectangle
  max_framerate : spa_fraction
deriving DecidableEq, Repr

structure timespec where
  tv_sec : Int
  tv_nsec : Int
deriving DecidableEq, Repr

structure fps_limit_state where
  frame_last_time : timespec
  fps_last_time : timespec
  fps_frame_count : Nat
deriving DecidableEq, Repr

/-- The struct `ScreenCastTarget`; `output` is the `wl_output` handle. -/
structure ScreenCastTarget where
  output : Nat
  with_cursor : Bool
deriving DecidableEq, Repr

/-- The struct `ScreenCast`. `screencopyFrameInfo` is split into its two entries; `appId`,
`castId` and the Qt wrapper `castFrame` are left out; `stream` and
`ctx->screencopyManager` are represented by the calls made on them, recorded in `calls`. -/
structure ScreenCast where
  pwrStreamState : Bool
  avoidDmabufs : Bool
  screencopyFrameInfo_WL_SHM : ScreenCopyFrameInfo
  screencopyFrameInfo_DMABUF : ScreenCopyFrameInfo
  framerate : Nat
  formatModifierPairs : List (Nat × Nat)
  nodeId : Nat
  currentFrame : XdpdFrame
  frameState : xdpd_frame_state
  err : Int
  quit : Bool
  initialized : Bool
  seq : Nat
  bufferType : BufferType
  pwrFormat : spa_video_info_raw
  bufferList : List XdpdBuffer
  fps_limit : fps_limit_state
  target : ScreenCastTarget
  calls : List Call
deriving DecidableEq, Repr

/-- The array access `cast->screencopyFrameInfo[t]`. -/
def ScreenCast.screencopyFrameInfo (cast : ScreenCast) : BufferType → ScreenCopyFrameInfo
  | .WL_SHM => cast.screencopyFrameInfo_WL_SHM
  | .DMABUF => cast.screencopyFrameInfo_DMABUF

/-- The struct `ScreenCastContext` with the configuration it points to: the GBM device,
`state->config.forceModLinear`, and whether `screencopyManager` is non-null. -/
structure ScreenCastContext where
  gbm : gbm_device
  forceModLinear : Bool
  screencopyManager : Bool

/-! ## Format proposals (`screencast.cpp`) -/

/-- The test both loops of `wlr_query_dmabuf_modifiers` apply to an entry of
`formatModifierPairs`. -/
def modifier_usable (gbm : gbm_device) (drm_format : Nat) (pair : Nat × Nat) : Bool :=
  decide (pair.1 = drm_format ∧
    (pair.2 = DRM_FORMAT_MOD_INVALID ∨
      gbm.gbm_device_get_format_modifier_plane_count pair.1 pair.2 > 0))

/-- The function `wlr_query_dmabuf_modifiers`: `none` is the result `false`; otherwise the
entries written to `modifiers` and the value stored in `*max_modifiers`. -/
def wlr_query_dmabuf_modifiers (gbm : gbm_device) (cast : ScreenCast) (drm_format : Nat)
    (num_modifiers : Nat) : Option (List Nat × Nat) :=
  if cast.formatModifierPairs.isEmpty then none
  else if num_modifiers = 0 then
    some ([], (cast.formatModifierPairs.filter (modifier_usable gbm drm_format)).length)
  else
    some (((cast.formatModifierPairs.filter (modifier_usable gbm drm_format)).map
      Prod.snd).take num_modifiers, num_modifiers)

/-- The function `build_modifier_list`: the returned flag, `*modifiers` and
`*modifier_count`. -/
def build_modifier_list (gbm : gbm_device) (cast : ScreenCast) (drm_format : Nat) :
    Bool × List Nat × Nat :=
  match wlr_query_dmabuf_modifiers gbm cast drm_format 0 with
  | none => (false, [], 0)
  | some (_, modifier_count) =>
    if modifier_count = 0 then (true, [], modifier_count)
    else
      match wlr_query_dmabuf_modifiers gbm cast drm_format modifier_count with
      | none => (false, [], modifier_count)
      | some (modifiers, modifier_count2) => (true, modifiers, modifier_count2)

/-- The function `build_formats`: the entries `params[0 .. param_count - 1]`. -/
def build_formats (gbm : gbm_device) (cast : ScreenCast) : List spa_pod :=
  let ml := build_modifier_list gbm cast cast.screencopyFrameInfo_DMABUF.format
  if !cast.avoidDmabufs && ml.1 && decide (ml.2.2 > 0) then
    [ build_format (xdpd_format_pw_from_drm_fourcc cast.screencopyFrameInfo_DMABUF.format)
        cast.screencopyFrameInfo_DMABUF.width cast.screencopyFrameInfo_DMABUF.height
        cast.framerate ml.2.1,
      build_format (xdpd_format_pw_from_drm_fourcc cast.screencopyFrameInfo_WL_SHM.format)
        cast.screencopyFrameInfo_WL_SHM.width cast.screencopyFrameInfo_WL_SHM.height
        cast.framerate [] ]
  else
    [ build_format (xdpd_format_pw_from_drm_fourcc cast.screencopyFrameInfo_WL_SHM.format)
        cast.screencopyFrameInfo_WL_SHM.width cast.screencopyFrameInfo_WL_SHM.height
        cast.framerate [] ]

/-- The function `pwr_update_stream_param`. -/
def pwr_update_stream_param (ctx : ScreenCastContext) (cast : ScreenCast) : ScreenCast :=
  { cast with calls := cast.calls ++ [.pw_stream_update_params (build_formats ctx.gbm cast)] }

/-! ## Enqueue (`xdpd_pwr_enqueue_buffer`) -/

/-- An assignment `*dRegion = value`: the slot holds `value` whatever it held before. -/
def store (_old value : spa_region) : spa_region := value

/-- The body of the `do ... while` loop of `xdpd_pwr_enqueue_buffer`, at one region slot:
the slot is zeroed when `damageCounter >= damageCount`; then, in every case,
`damages[damageCounter]` is read and stored into the slot. -/
def damage_slot (frame : XdpdFrame) (damageCounter : Nat) (dRegion : spa_region) :
    Option spa_region :=
  let dRegion1 :=
    if damageCounter ≥ frame.damageCount then store dRegion (SPA_REGION 0 0 0 0) else dRegion
  match frame.damages[damageCounter]? with
  | none => none
  | some fdamage =>
    some (store dRegion1 (SPA_REGION fdamage.x fdamage.y fdamage.width fdamage.height))

/-- The `do ... while (spa_meta_check(dRegion + 1, damage) && dRegion++)` loop over the
slots of the damage metadata, starting at the first slot. The loop does not change
`damageCounter`. The body runs before the first check, so with no slot at all it writes
past the block. -/
def damage_do_while (frame : XdpdFrame) (damageCounter : Nat) :
    List spa_region → Option (List spa_region)
  | [] => none
  | [dRegion] => (damage_slot frame damageCounter dRegion).map (fun r => [r])
  | dRegion :: next :: rest =>
    match damage_slot frame damageCounter dRegion with
    | none => none
    | some r => (damage_do_while frame damageCounter (next :: rest)).map (fun rs => r :: rs)

/-- The loop `for (; damageCounter < damageCount; damageCounter++) fdamage =
mergeDamage(&fdamage, &damages[damageCounter])`, with `n` iterations left. -/
def merge_loop (damages : List XdpdFrameDamage) :
    (n : Nat) → (damageCounter : Nat) → XdpdFrameDamage → Option XdpdFrameDamage
  | 0, _, fdamage => some fdamage
  | n + 1, damageCounter, fdamage =>
    match damages[damageCounter]? with
    | none => none
    | some d => merge_loop damages n (damageCounter + 1) (mergeDamage fdamage d)

/-- The damage block of `xdpd_pwr_enqueue_buffer`, for a buffer that carries damage
metadata with the given slots: the slots after the block has run. -/
def write_damage (frame : XdpdFrame) (slots : List spa_region) : Option (List spa_region) :=
  let damageCounter := 0
  match damage_do_while frame damageCounter slots with
  | none => none
  | some slots1 =>
    if damageCounter < frame.damageCount then
      match slots1.getLast? with
      | none => none
      | some dRegion =>
        match merge_loop frame.damages (frame.damageCount - damageCounter) damageCounter
            { x := dRegion.position.x, y := dRegion.position.y,
              width := dRegion.size.width, height := dRegion.size.height } with
        | none => none
        | some fdamage =>
          some (slots1.dropLast ++ [SPA_REGION fdamage.x fdamage.y fdamage.width fdamage.height])
    else some slots1

/-- The macro `SPA_TIMESPEC_TO_NSEC` applied to the frame (`uint64_t tv_sec`,
`uint32_t tv_nsec`), stored into the `int64_t` field `pts`. -/
def frame_pts (frame : XdpdFrame) : Int :=
  i64 (u64 (frame.tv_sec * 1000000000 + frame.tv_nsec))

/-- The function `xdpd_pwr_enqueue_buffer` (logging left out). -/
def xdpd_pwr_enqueue_buffer (cast : ScreenCast) : Option ScreenCast :=
  match cast.currentFrame.pwBuffer with
  | none =>
    some { cast with currentFrame := { cast.currentFrame with xdpdBuffer := none, pwBuffer := none } }
  | some pwBuf =>
    let bufferCorrupt : Bool :=
      decide (cast.frameState ≠ .XDPD_FRAME_STATE_SUCCESS) || cast.currentFrame.yInverted
    let err : Int := if cast.currentFrame.yInverted then 1 else cast.err
    let header := pwBuf.header.map (fun h =>
      { h with pts := frame_pts cast.currentFrame,
               flags := if bufferCorrupt then SPA_META_HEADER_FLAG_CORRUPTED else 0,
               seq := cast.seq,
               dts_offset := 0 })
    let seq := if pwBuf.header.isSome then (cast.seq + 1) % 4294967296 else cast.seq
    let vt := pwBuf.videotransform.map (fun _ => cast.currentFrame.transformation)
    let damage : Option (Option (List spa_region)) :=
      match pwBuf.damage with
      | none => some none
      | some slots => (write_damage cast.currentFrame slots).map some
    match damage with
    | none => none
    | some damage =>
      let datas := pwBuf.datas.map (fun d =>
        { d with chunk := { d.chunk with flags :=
            if bufferCorrupt then SPA_CHUNK_FLAG_CORRUPTED else SPA_CHUNK_FLAG_NONE } })
      let queued : pw_buffer :=
        { pwBuf with header := header, videotransform := vt, damage := damage, datas := datas }
      some { cast with
        err := err
        seq := seq
        calls := cast.calls ++ [.pw_stream_queue_buffer queued]
        currentFrame := { cast.currentFrame with xdpdBuffer := none, pwBuffer := none } }

/-! ## Capture requests -/

/-- The function `xdpd_wlr_sc_frame_capture`. -/
def xdpd_wlr_sc_frame_capture (cast : ScreenCast) : ScreenCast :=
  if cast.quit ∨ cast.err ≠ 0 then cast
  else if cast.initialized ∧ ¬ cast.pwrStreamState then
    { cast with frameState := .XDPD_FRAME_STATE_NONE }
  else
    { cast with
      frameState := .XDPD_FRAME_STATE_STARTED
      calls := cast.calls ++ [.capture_output 0 cast.target.output] }

/-- The function `xdpd_wlr_frame_capture`. -/
def xdpd_wlr_frame_capture (ctx : ScreenCastContext) (cast : ScreenCast) : ScreenCast :=
  if ctx.screencopyManager then xdpd_wlr_sc_frame_capture cast else cast

/-! ## Format negotiation (`pwr_handle_stream_param_changed`) -/

/-- The parameter id `SPA_PARAM_Format`. -/
def SPA_PARAM_Format : Nat := 4

/-- The format object the transport passes to the param-changed handler: what
`spa_format_video_raw_parse` reads from it, and its property `SPA_FORMAT_VIDEO_modifier` as
`spa_pod_find_prop` finds it (`none` when the object has no such property). -/
structure format_param where
  info : spa_video_info_raw
  prop_modifier : Option modifier_prop
deriving DecidableEq, Repr

/-- The loop of `pwr_handle_stream_param_changed` over the offered modifiers after the
allocation with modifiers failed: only `DRM_FORMAT_MOD_INVALID` and `DRM_FORMAT_MOD_LINEAR`
lead to a `gbm_bo_create`, every other modifier is skipped. Returns the calls made and the
first buffer object obtained. -/
def try_old_api (ctx : ScreenCastContext) (info : ScreenCopyFrameInfo) :
    List Nat → List Call × Option gbm_bo
  | [] => ([], none)
  | m :: rest =>
    if m = DRM_FORMAT_MOD_INVALID ∨ m = DRM_FORMAT_MOD_LINEAR then
      let flags :=
        if m = DRM_FORMAT_MOD_INVALID then
          (if ctx.forceModLinear then GBM_BO_USE_RENDERING ||| GBM_BO_USE_LINEAR
           else GBM_BO_USE_RENDERING)
        else GBM_BO_USE_RENDERING ||| GBM_BO_USE_LINEAR
      match ctx.gbm.gbm_bo_create info.width info.height info.format flags with
      | some bo => ([.gbm_bo_create info.width info.height info.format flags], some bo)
      | none =>
        let r := try_old_api ctx info rest
        (.gbm_bo_create info.width info.height info.format flags :: r.1, r.2)
    else try_old_api ctx info rest

/-- The allocation attempts of `pwr_handle_stream_param_changed` for a modifier list that
is not fixated yet: `gbm_bo_create_with_modifiers2` with the whole list, then, if that
fails, the loop `try_old_api`. Returns the calls made and the buffer object with which the
code jumps to `fixate_format:` (`none` when every attempt failed). -/
def allocate_offered (ctx : ScreenCastContext) (info : ScreenCopyFrameInfo)
    (modifiers : List Nat) : List Call × Option gbm_bo :=
  let flags := GBM_BO_USE_RENDERING
  match ctx.gbm.gbm_bo_create_with_modifiers2 info.width info.height info.format
      modifiers flags with
  | some bo =>
    ([.gbm_bo_create_with_modifiers2 info.width info.height info.format modifiers flags],
      some bo)
  | none =>
    let r := try_old_api ctx info modifiers
    (.gbm_bo_create_with_modifiers2 info.width info.height info.format modifiers flags :: r.1,
      r.2)

/-- The label `fixate_format:` of `pwr_handle_stream_param_changed`: the list handed to
`pw_stream_update_params`. -/
def fixate_params (ctx : ScreenCastContext) (cast : ScreenCast) (modifier : Nat) :
    List spa_pod :=
  fixate_format (xdpd_format_pw_from_drm_fourcc (cast.screencopyFrameInfo cast.bufferType).format)
    (cast.screencopyFrameInfo cast.bufferType).width
    (cast.screencopyFrameInfo cast.bufferType).height
    cast.framerate (some modifier) :: build_formats ctx.gbm cast

/-- The four objects published once a format is negotiated: buffer parameters and the three
metadata requests (`sizeof(spa_meta_header)` is 32, `sizeof(spa_meta_videotransform)` is 4,
`sizeof(spa_meta_region)` is 16). -/
def buffer_params (cast : ScreenCast) (blocks data_type : Nat) : List spa_pod :=
  [ build_buffer blocks (cast.screencopyFrameInfo cast.bufferType).size
      (cast.screencopyFrameInfo cast.bufferType).stride data_type,
    .ParamMeta .Header (.Int 32),
    .ParamMeta .VideoTransform (.Int 4),
    .ParamMeta .VideoDamage (.CHOICE_RANGE_Int (16 * 4) (16 * 1) (16 * 4)) ]

/-- The function `pwr_handle_stream_param_changed`. The result is `none` where the C++ has
no defined result: a division by a zero `max_framerate.denom`, or a property flagged
`SPA_POD_PROP_FLAG_DONT_FIXATE` that is not a choice with a default value. -/
def pwr_handle_stream_param_changed (ctx : ScreenCastContext) (cast : ScreenCast)
    (id : Nat) (param : Option format_param) : Option ScreenCast :=
  match param with
  | none => some cast
  | some param =>
    if id ≠ SPA_PARAM_Format then some cast
    else if param.info.max_framerate.denom = 0 then none
    else
      let cast : ScreenCast := { cast with
        pwrFormat := param.info
        framerate := (param.info.max_framerate.num / param.info.max_framerate.denom) % 4294967296 }
      match param.prop_modifier with
      | some prop_modifier =>
        let cast : ScreenCast := { cast with bufferType := .DMABUF }
        let data_type := 1 <<< SPA_DATA_DmaBuf
        if (prop_modifier.flags &&& SPA_POD_PROP_FLAG_DONT_FIXATE) > 0 then
          match prop_modifier.value with
          | .CHOICE_Enum (_ :: modifiers) =>
            let r := allocate_offered ctx (cast.screencopyFrameInfo cast.bufferType) modifiers
            let cast : ScreenCast := { cast with calls := cast.calls ++ r.1 }
            match r.2 with
            | some bo =>
              let cast : ScreenCast :=
                { cast with calls := cast.calls ++ [Call.gbm_bo_destroy bo.handle] }
              some { cast with calls := cast.calls ++
                [Call.pw_stream_update_params (fixate_params ctx cast bo.modifier)] }
            | none =>
              let cast : ScreenCast := { cast with avoidDmabufs := true }
              some { cast with calls := cast.calls ++
                [Call.pw_stream_update_params (build_formats ctx.gbm cast)] }
          | _ => none
        else
          let blocks :=
            if cast.pwrFormat.modifier = DRM_FORMAT_MOD_INVALID then 1
            else u32 (ctx.gbm.gbm_device_get_format_modifier_plane_count
              cast.screencopyFrameInfo_DMABUF.format cast.pwrFormat.modifier)
          some { cast with calls := cast.calls ++
            [Call.pw_stream_update_params (buffer_params cast blocks data_type)] }
      | none =>
        let cast : ScreenCast := { cast with bufferType := .WL_SHM }
        some { cast with calls := cast.calls ++
          [Call.pw_stream_update_params (buffer_params cast 1 (1 <<< SPA_DATA_MemFd))] }

/-! ## Buffer allocation (`xdpdBufferCreate`, `xdpdBufferDestroy`)

The outcomes of the system and Wayland calls of one allocation are inputs of the
embedding. -/

/-- The outcome of one `shm_open(name, O_RDWR | O_CREAT | O_EXCL, ..)`: a descriptor, the
error `EEXIST`, or another error. -/
inductive shm_open_result where
  | fd (fd : Nat)
  | EEXIST
  | error
deriving DecidableEq, Repr

/-- The outcomes met by one call of `xdpdBufferCreate`: the successive `shm_open` results,
the return value of `ftruncate`, the `wl_buffer` made by `wl_shm_pool_create_buffer` (or
null), whether `create_params` returns an object, and the `wl_buffer` made by
`zwp_linux_buffer_params_v1_create_immed` (or null). -/
structure alloc_world where
  shm_open : Nat → shm_open_result
  ftruncate : Int
  wl_shm_pool_create_buffer : Option Nat
  create_params : Bool
  create_immed : Option Nat

/-- The function `anonymous_shm_open`, with `retries` tries left before the decrement and
`attempt` calls of `shm_open` already made: the descriptor (or -1) and the calls made. -/
def anonymous_shm_open (shm_open : Nat → shm_open_result) :
    (retries : Nat) → (attempt : Nat) → Int × List Call
  | 0, _ => (-1, [])
  | retries + 1, attempt =>
    match shm_open attempt with
    | .fd fd => (fd, [.shm_open, .shm_unlink])
    | .EEXIST =>
      if retries > 0 then
        let r := anonymous_shm_open shm_open retries (attempt + 1)
        (r.1, .shm_open :: r.2)
      else (-1, [.shm_open])
    | .error => (-1, [.shm_open])

/-- The plane loop of the `DMABUF` case of `xdpdBufferCreate`, over the planes still to
do: the descriptors obtained, or the descriptors obtained before the plane whose
`gbm_bo_get_fd_for_plane` failed. -/
def plane_fds (bo : gbm_bo) : List Nat → List Int → Except (List Int) (List Int)
  | [], fds => .ok fds
  | plane :: rest, fds =>
    if bo.fd_for_plane.getD plane (-1) < 0 then .error fds
    else plane_fds bo rest (fds ++ [bo.fd_for_plane.getD plane (-1)])

/-- The function `xdpdBufferCreate`: the buffer (or null) and the calls made. -/
def xdpdBufferCreate (ctx : ScreenCastContext) (world : alloc_world) (cast : ScreenCast)
    (buffer_type : BufferType) (frame_info : ScreenCopyFrameInfo) :
    Option XdpdBuffer × List Call :=
  match buffer_type with
  | .WL_SHM =>
    let r := anonymous_shm_open world.shm_open 100 0
    if r.1 = -1 then (none, r.2)
    else if world.ftruncate < 0 then
      (none, r.2 ++ [.ftruncate r.1 frame_info.size, .close r.1])
    else
      match world.wl_shm_pool_create_buffer with
      | none => (none, r.2 ++ [.ftruncate r.1 frame_info.size, .close r.1])
      | some wl_buffer =>
        (some { buffer_type := buffer_type, width := frame_info.width,
                height := frame_info.height, format := frame_info.format,
                plane_count := 1, fd := [r.1], size := [frame_info.size],
                stride := [frame_info.stride], offset := [0], bo := none,
                buffer := wl_buffer },
         r.2 ++ [.ftruncate r.1 frame_info.size])
  | .DMABUF =>
    let flags0 := GBM_BO_USE_RENDERING
    let first : Option gbm_bo × Nat × List Call :=
      if cast.pwrFormat.modifier ≠ DRM_FORMAT_MOD_INVALID then
        (ctx.gbm.gbm_bo_create_with_modifiers2 frame_info.width frame_info.height
            frame_info.format [cast.pwrFormat.modifier] flags0,
          flags0,
          [.gbm_bo_create_with_modifiers2 frame_info.width frame_info.height
            frame_info.format [cast.pwrFormat.modifier] flags0])
      else
        let flags := if ctx.forceModLinear then flags0 ||| GBM_BO_USE_LINEAR else flags0
        (ctx.gbm.gbm_bo_create frame_info.width frame_info.height frame_info.format flags,
          flags,
          [.gbm_bo_create frame_info.width frame_info.height frame_info.format flags])
    let flags := first.2.1
    let second : Option gbm_bo × List Call :=
      if first.1 = none ∧ cast.pwrFormat.modifier = DRM_FORMAT_MOD_LINEAR then
        (ctx.gbm.gbm_bo_create frame_info.width frame_info.height frame_info.format
            (flags ||| GBM_BO_USE_LINEAR),
          first.2.2 ++ [.gbm_bo_create frame_info.width frame_info.height frame_info.format
            (flags ||| GBM_BO_USE_LINEAR)])
      else (first.1, first.2.2)
    match second.1 with
    | none => (none, second.2)
    | some bo =>
      if !world.create_params then (none, second.2 ++ [.gbm_bo_destroy bo.handle])
      else
        match plane_fds bo (List.range bo.plane_count.toNat) [] with
        | .error fds =>
          (none, second.2 ++ [.gbm_bo_destroy bo.handle] ++ fds.map Call.close)
        | .ok fds =>
          match world.create_immed with
          | none => (none, second.2 ++ [.gbm_bo_destroy bo.handle] ++ fds.map Call.close)
          | some wl_buffer =>
            (some { buffer_type := buffer_type, width := frame_info.width,
                    height := frame_info.height, format := frame_info.format,
                    plane_count := bo.plane_count, fd := fds,
                    size := (List.range bo.plane_count.toNat).map (fun _ => 0),
                    stride := (List.range bo.plane_count.toNat).map
                      (fun plane => bo.stride_for_plane.getD plane 0),
                    offset := (List.range bo.plane_count.toNat).map
                      (fun plane => bo.offset.getD plane 0),
                    bo := some bo, buffer := wl_buffer },
             second.2)

/-- The function `xdpdBufferDestroy`: the calls it makes (the buffer's list link is not part
of the embedding; a `DMABUF` buffer made by `xdpdBufferCreate` always has its `bo`). -/
def xdpdBufferDestroy (buffer : XdpdBuffer) : List Call :=
  [.wl_buffer_destroy buffer.buffer]
    ++ (if buffer.buffer_type = .DMABUF then
          (buffer.bo.map (fun bo => Call.gbm_bo_destroy bo.handle)).toList
        else [])
    ++ (buffer.fd.take buffer.plane_count.toNat).map Call.close

/-! ## Buffer pool handlers -/

/-- The function `pwr_handle_stream_add_buffer`: the session and the transport buffer after
the call. The result is `none` where the C++ reads `datas[0]` of a buffer without data
planes, or array entries of the `XdpdBuffer` that were never written (more data planes than
the buffer has planes). -/
def pwr_handle_stream_add_buffer (ctx : ScreenCastContext) (world : alloc_world)
    (cast : ScreenCast) (buffer : pw_buffer) : Option (ScreenCast × pw_buffer) :=
  match buffer.datas with
  | [] => none
  | d0 :: _ =>
    let t : Option Nat :=
      if (d0.type &&& (1 <<< SPA_DATA_MemFd)) > 0 then some SPA_DATA_MemFd
      else if (d0.type &&& (1 <<< SPA_DATA_DmaBuf)) > 0 then some SPA_DATA_DmaBuf
      else none
    match t with
    | none => some ({ cast with err := 1 }, buffer)
    | some t =>
      let r := xdpdBufferCreate ctx world cast cast.bufferType
        (cast.screencopyFrameInfo cast.bufferType)
      let cast : ScreenCast := { cast with calls := cast.calls ++ r.2 }
      match r.1 with
      | none => some ({ cast with err := 1 }, buffer)
      | some xdpdBuffer =>
        if buffer.datas.length > xdpdBuffer.fd.length then none
        else
          let datas := buffer.datas.enum.map (fun (pd : Nat × spa_data) =>
            let size := xdpdBuffer.size.getD pd.1 0
            { pd.2 with
              type := t
              maxsize := size
              mapoffset := 0
              flags := 0
              fd := xdpdBuffer.fd.getD pd.1 (-1)
              chunk := { size := if xdpdBuffer.buffer_type = .DMABUF ∧ size = 0 then 9 else size,
                         stride := i32 (xdpdBuffer.stride.getD pd.1 0),
                         offset := xdpdBuffer.offset.getD pd.1 0,
                         flags := pd.2.chunk.flags } })
          some ({ cast with bufferList := cast.bufferList ++ [xdpdBuffer] },
                { buffer with user_data := some xdpdBuffer, datas := datas })

/-- The function `pwr_handle_stream_remove_buffer`: the session and the transport buffer
after the call. Pointers to transport buffers are compared by address (`id`). -/
def pwr_handle_stream_remove_buffer (cast : ScreenCast) (buffer : pw_buffer) :
    ScreenCast × pw_buffer :=
  let cast : ScreenCast :=
    match buffer.user_data with
    | some xdpwBuffer => { cast with calls := cast.calls ++ xdpdBufferDestroy xdpwBuffer }
    | none => cast
  let cast : ScreenCast :=
    if cast.currentFrame.pwBuffer.map (fun b => b.id) = some buffer.id then
      { cast with currentFrame := { cast.currentFrame with pwBuffer := none } }
    else cast
  (cast, { buffer with
    user_data := none
    datas := buffer.datas.map (fun d => { d with fd := -1 }) })

/-! ## The capture cycle -/

/-- The function `xdpd_pwr_dequeue_buffer`; `dequeued` is what `pw_stream_dequeue_buffer`
returns. -/
def xdpd_pwr_dequeue_buffer (cast : ScreenCast) (dequeued : Option pw_buffer) : ScreenCast :=
  let cast : ScreenCast := { cast with calls := cast.calls ++ [Call.pw_stream_dequeue_buffer] }
  match dequeued with
  | none => { cast with currentFrame := { cast.currentFrame with pwBuffer := none } }
  | some b =>
    { cast with currentFrame :=
        { cast.currentFrame with pwBuffer := some b, xdpdBuffer := b.user_data } }

/-- The function `pwr_handle_stream_on_process`. `measure_end` is the call
`fps_limit_measure_end(&cast->fps_limit, cast->framerate)`: it reads the clock, so its
result (the limiter state after the call and the delay) is supplied by the caller. -/
def pwr_handle_stream_on_process (ctx : ScreenCastContext) (cast : ScreenCast)
    (dequeued : Option pw_buffer)
    (measure_end : fps_limit_state → Nat → fps_limit_state × Nat) : ScreenCast :=
  if !cast.pwrStreamState then cast
  else if cast.currentFrame.pwBuffer.isSome then cast
  else
    let cast := xdpd_pwr_dequeue_buffer cast dequeued
    if cast.currentFrame.pwBuffer.isNone then cast
    else if cast.seq > 0 then
      let r := measure_end cast.fps_limit cast.framerate
      let cast : ScreenCast := { cast with fps_limit := r.1 }
      if r.2 > 0 then { cast with calls := cast.calls ++ [Call.QTimer_singleShot r.2] }
      else xdpd_wlr_frame_capture ctx cast
    else xdpd_wlr_frame_capture ctx cast

/-- The states of `enum pw_stream_state`. -/
inductive pw_stream_state where
  | ERROR | UNCONNECTED | CONNECTING | PAUSED | STREAMING
deriving DecidableEq, Repr

/-- The function `pwr_handle_stream_state_changed`. -/
def pwr_handle_stream_state_changed (cast : ScreenCast) (old state : pw_stream_state) :
    Option ScreenCast :=
  match state with
  | .STREAMING => some { cast with pwrStreamState := true }
  | .PAUSED =>
    if old = .STREAMING then
      (xdpd_pwr_enqueue_buffer cast).map (fun c => { c with pwrStreamState := false })
    else some { cast with pwrStreamState := false }
  | _ => some { cast with pwrStreamState := false }

/-! ## Capture-protocol callbacks (`screencastframe.cpp`) -/

/-- The function `xdpd_format_drm_fourcc_from_wl_shm` (`WL_SHM_FORMAT_ARGB8888` is 0,
`WL_SHM_FORMAT_XRGB8888` is 1). -/
def xdpd_format_drm_fourcc_from_wl_shm (format : Nat) : Nat :=
  if format = 0 then DRM_FORMAT_ARGB8888
  else if format = 1 then DRM_FORMAT_XRGB8888
  else format

/-- The callback `ScreenCastFrame::zwlr_screencopy_frame_v1_buffer`. -/
def zwlr_screencopy_frame_v1_buffer (cast : ScreenCast) (format width height stride : Nat) :
    ScreenCast :=
  { cast with screencopyFrameInfo_WL_SHM :=
      { format := xdpd_format_drm_fourcc_from_wl_shm format, width := width, height := height,
        stride := stride, size := (stride * height) % 4294967296 } }

/-- The callback `ScreenCastFrame::zwlr_screencopy_frame_v1_flags` (`flags_y_invert` is 1). -/
def zwlr_screencopy_frame_v1_flags (cast : ScreenCast) (flags : Nat) : ScreenCast :=
  { cast with currentFrame := { cast.currentFrame with yInverted := decide (flags &&& 1 ≠ 0) } }

/-- The callback `ScreenCastFrame::zwlr_screencopy_frame_v1_damage`. -/
def zwlr_screencopy_frame_v1_damage (cast : ScreenCast) (x y width height : Nat) : ScreenCast :=
  { cast with currentFrame := { cast.currentFrame with
      damages := cast.currentFrame.damages ++
        [{ x := i32 x, y := i32 y, width := width, height := height }] } }

/-- The callback `ScreenCastFrame::zwlr_screencopy_frame_v1_linux_dmabuf`. -/
def zwlr_screencopy_frame_v1_linux_dmabuf (cast : ScreenCast) (format width height : Nat) :
    ScreenCast :=
  { cast with screencopyFrameInfo_DMABUF :=
      { cast.screencopyFrameInfo_DMABUF with format := format, width := width, height := height } }

/-- The function `ScreenCastFrame::frame_finish`. -/
def frame_finish (ctx : ScreenCastContext) (cast : ScreenCast) : Option ScreenCast :=
  if cast.quit ∨ cast.err ≠ 0 then some cast
  else if !cast.pwrStreamState then some { cast with frameState := .XDPD_FRAME_STATE_NONE }
  else
    let cast : ScreenCast :=
      if cast.frameState = .XDPD_FRAME_STATE_RENEG then pwr_update_stream_param ctx cast else cast
    let cast : Option ScreenCast :=
      if cast.frameState = .XDPD_FRAME_STATE_FAILED then xdpd_pwr_enqueue_buffer cast else some cast
    match cast with
    | none => none
    | some cast =>
      if cast.frameState = .XDPD_FRAME_STATE_SUCCESS then xdpd_pwr_enqueue_buffer cast
      else some cast

/-! ## Handler invocations -/

/-- One invocation of a handler of the session, with the inputs it receives from the
transport, the compositor and the system. `timer` is the expiry of a timer armed by the
on-process handler; the callbacks `ready`, `failed` and `buffer_done` have empty bodies. -/
inductive Event where
  | param_changed (id : Nat) (param : Option format_param)
  | add_buffer (buffer : pw_buffer) (world : alloc_world)
  | remove_buffer (buffer : pw_buffer)
  | on_process (dequeued : Option pw_buffer)
      (measure_end : fps_limit_state → Nat → fps_limit_state × Nat)
  | timer
  | state_changed (old state : pw_stream_state)
  | frame_buffer (format width height stride : Nat)
  | frame_flags (flags : Nat)
  | frame_ready
  | frame_failed
  | frame_damage (x y width height : Nat)
  | frame_linux_dmabuf (format width height : Nat)
  | frame_buffer_done
  | frame_finish
  | enqueue

/-- The session after one handler invocation (`none`: no defined result). -/
def handle (ctx : ScreenCastContext) (cast : ScreenCast) : Event → Option ScreenCast
  | .param_changed id param => pwr_handle_stream_param_changed ctx cast id param
  | .add_buffer buffer world => (pwr_handle_stream_add_buffer ctx world cast buffer).map Prod.fst
  | .remove_buffer buffer => some (pwr_handle_stream_remove_buffer cast buffer).1
  | .on_process dequeued measure_end =>
    some (pwr_handle_stream_on_process ctx cast dequeued measure_end)
  | .timer => some (xdpd_wlr_frame_capture ctx cast)
  | .state_changed old state => pwr_handle_stream_state_changed cast old state
  | .frame_buffer format width height stride =>
    some (zwlr_screencopy_frame_v1_buffer cast format width height stride)
  | .frame_flags flags => some (zwlr_screencopy_frame_v1_flags cast flags)
  | .frame_ready => some cast
  | .frame_failed => some cast
  | .frame_damage x y width height => some (zwlr_screencopy_frame_v1_damage cast x y width height)
  | .frame_linux_dmabuf format width height =>
    some (zwlr_screencopy_frame_v1_linux_dmabuf cast format width height)
  | .frame_buffer_done => some cast
  | .frame_finish => frame_finish ctx cast
  | .enqueue => xdpd_pwr_enqueue_buffer cast

/-- A run of handler invocations, in order. -/
def run (ctx : ScreenCastContext) : ScreenCast → List Event → Option ScreenCast
  | cast, [] => some cast
  | cast, e :: es =>
    match handle ctx cast e with
    | none => none
    | some cast1 => run ctx cast1 es

/-! ## Vocabulary of the properties -/

/-- Containment of the rectangle `r` in the rectangle `b`, over the integers. -/
def contained_in (r b : XdpdFrameDamage) : Prop :=
  b.x ≤ r.x ∧ b.y ≤ r.y ∧ r.x + r.width ≤ b.x + b.width ∧ r.y + r.height ≤ b.y + b.height

instance (r b : XdpdFrameDamage) : Decidable (contained_in r b) := by
  unfold contained_in; infer_instance

/-- A rectangle with non-negative origin whose right and bottom edges are below 2^32: the
32-bit sums of `mergeDamage` do not wrap on it. -/
def in_range (r : XdpdFrameDamage) : Prop :=
  0 ≤ r.x ∧ 0 ≤ r.y ∧ r.x + r.width < 4294967296 ∧ r.y + r.height < 4294967296

instance (r : XdpdFrameDamage) : Decidable (in_range r) := by
  unfold in_range; infer_instance

/-- The region entry holding a rectangle. -/
def region_of (d : XdpdFrameDamage) : spa_region := SPA_REGION d.x d.y d.width d.height

/-- The rectangle a region entry describes. -/
def rect_of (r : spa_region) : XdpdFrameDamage :=
  { x := r.position.x, y := r.position.y, width := r.size.width, height := r.size.height }

/-- The union bounding box in the spec's words (union of min/max extents), over the
integers: smallest left and top edge, largest right and bottom edge. -/
def union_bounding_box : List XdpdFrameDamage → Option XdpdFrameDamage
  | [] => none
  | d :: ds =>
    let left := ds.foldl (fun m r => min m r.x) d.x
    let top := ds.foldl (fun m r => min m r.y) d.y
    let right := ds.foldl (fun (m : Int) r => max m (r.x + (r.width : Int))) (d.x + d.width)
    let bottom := ds.foldl (fun (m : Int) r => max m (r.y + (r.height : Int))) (d.y + d.height)
    some { x := left, y := top, width := (right - left).toNat, height := (bottom - top).toNat }

/-- A session used in the examples: streaming, no error, nothing negotiated yet. -/
def example_cast : ScreenCast :=
  { pwrStreamState := true
    avoidDmabufs := false
    screencopyFrameInfo_WL_SHM :=
      { width := 1920, height := 1080, size := 8294400, stride := 7680,
        format := DRM_FORMAT_XRGB8888 }
    screencopyFrameInfo_DMABUF :=
      { width := 1920, height := 1080, size := 0, stride := 0, format := DRM_FORMAT_ARGB8888 }
    framerate := 30
    formatModifierPairs := []
    nodeId := 0
    currentFrame :=
      { yInverted := false, tv_sec := 0, tv_nsec := 0, transformation := 0, damages := [],
        damageCount := 0, xdpdBuffer := none, pwBuffer := none }
    frameState := .XDPD_FRAME_STATE_NONE
    err := 0
    quit := false
    initialized := true
    seq := 0
    bufferType := .WL_SHM
    pwrFormat :=
      { format := .BGRx, modifier := 0, size := { width := 1920, height := 1080 },
        max_framerate := { num := 30, denom := 1 } }
    bufferList := []
    fps_limit :=
      { frame_last_time := { tv_sec := 0, tv_nsec := 0 },
        fps_last_time := { tv_sec := 0, tv_nsec := 0 }, fps_frame_count := 0 }
    target := { output := 1, with_cursor := false }
    calls := [] }

/-- A transport buffer used in the examples: one data plane, header and transform metadata,
and damage metadata with `capacity` region slots. -/
def example_buffer (capacity : Nat) : pw_buffer :=
  { id := 1
    user_data := none
    header := some { flags := 0, offset := 0, pts := 0, dts_offset := 0, seq := 0 }
    videotransform := some 0
    damage := some (List.replicate capacity (SPA_REGION 0 0 0 0))
    datas := [{ type := 4, flags := 0, fd := 5, mapoffset := 0, maxsize := 8294400,
                chunk := { offset := 0, size := 8294400, stride := 7680, flags := 0 } }] }

/-- Ten damage rectangles of 5 by 5 pixels, at x = 0, 10, .., 90. -/
def ten_rectangles : List XdpdFrameDamage :=
  (List.range 10).map (fun i => { x := 10 * (i : Int), y := 0, width := 5, height := 5 })

/-- The session of the end-to-end scenario: a successful frame with ten recorded
rectangles (`damageCount` is 10) on a buffer whose damage metadata has four slots. -/
def ten_on_four : ScreenCast :=
  { example_cast with
    frameState := .XDPD_FRAME_STATE_SUCCESS
    currentFrame := { example_cast.currentFrame with
      damages := ten_rectangles, damageCount := 10, pwBuffer := some (example_buffer 4) } }

/-- Whether a call hands a buffer back to the transport. -/
def Call.is_queue : Call → Bool
  | .pw_stream_queue_buffer _ => true
  | _ => false

/-- Whether a parameter object is a GPU-shared format proposal: a format object that
carries a modifier property. -/
def spa_pod.has_modifier : spa_pod → Bool
  | .Format _ (some _) _ _ _ => true
  | _ => false

/-- The value advertised for `SPA_FORMAT_VIDEO_format` by a format proposal. -/
def spa_pod.video_format : spa_pod → Option video_format_value
  | .Format format _ _ _ _ => some format
  | _ => none

/-- The modifier property of a format proposal. -/
def spa_pod.modifier : spa_pod → Option modifier_prop
  | .Format _ modifier _ _ _ => modifier
  | _ => none

/-- Whether a call attempts a GPU buffer allocation or publishes a GPU-shared proposal. -/
def Call.is_gpu : Call → Bool
  | .gbm_bo_create_with_modifiers2 _ _ _ _ _ => true
  | .gbm_bo_create _ _ _ _ => true
  | .pw_stream_update_params params => params.any spa_pod.has_modifier
  | _ => false

/-- Whether a call attempts a GPU buffer allocation. -/
def Call.is_gbm_alloc : Call → Bool
  | .gbm_bo_create_with_modifiers2 _ _ _ _ _ => true
  | .gbm_bo_create _ _ _ _ => true
  | _ => false

/-- A GBM device on which no allocation succeeds. -/
def failing_gbm : gbm_device :=
  { gbm_bo_create_with_modifiers2 := fun _ _ _ _ _ => none
    gbm_bo_create := fun _ _ _ _ => none
    gbm_device_get_format_modifier_plane_count := fun _ _ => 0 }

/-- A GBM device that allocates with modifier 7 and with no other modifier: an allocation
with a modifier list succeeds when 7 is in the list, the implicit allocation fails. -/
def gbm_only_7 : gbm_device :=
  { gbm_bo_create_with_modifiers2 := fun _ _ _ modifiers _ =>
      if 7 ∈ modifiers then
        some { handle := 1, modifier := 7, plane_count := 1, stride_for_plane := [7680],
               offset := [0], fd_for_plane := [9] }
      else none
    gbm_bo_create := fun _ _ _ _ => none
    gbm_device_get_format_modifier_plane_count := fun _ modifier => if modifier = 7 then 1 else 0 }

/-- The context used in the examples, around a GBM device. -/
def example_ctx (gbm : gbm_device) : ScreenCastContext :=
  { gbm := gbm, forceModLinear := false, screencopyManager := true }

/-- The modifiers of the entries of `formatModifierPairs` that are usable for the
compositor's dma-buf format: entries for that format whose modifier is
`DRM_FORMAT_MOD_INVALID` or has a positive plane count on the GBM device. -/
def usable_modifiers (gbm : gbm_device) (cast : ScreenCast) : List Nat :=
  (cast.formatModifierPairs.filter
    (modifier_usable gbm cast.screencopyFrameInfo_DMABUF.format)).map Prod.snd

/-- The shared-memory proposal of a session: `build_format` on the `WL_SHM` frame
information, without modifiers. -/
def shm_proposal (cast : ScreenCast) : spa_pod :=
  build_format (xdpd_format_pw_from_drm_fourcc cast.screencopyFrameInfo_WL_SHM.format)
    cast.screencopyFrameInfo_WL_SHM.width cast.screencopyFrameInfo_WL_SHM.height
    cast.framerate []

/-- The GPU-shared proposal of a session for a list of modifiers: `build_format` on the
`DMABUF` frame information. -/
def dmabuf_proposal (cast : ScreenCast) (modifiers : List Nat) : spa_pod :=
  build_format (xdpd_format_pw_from_drm_fourcc cast.screencopyFrameInfo_DMABUF.format)
    cast.screencopyFrameInfo_DMABUF.width cast.screencopyFrameInfo_DMABUF.height
    cast.framerate modifiers

/-- A format chosen by the transport, as used in the examples: BGRA at 30/1 frames per
second with a modifier property flagged mandatory and not fixated, holding the given
choice values (the default first). -/
def offered_param (values : List Nat) : format_param :=
  { info := { format := .BGRA, modifier := 0, size := { width := 1920, height := 1080 },
              max_framerate := { num := 30, denom := 1 } }
    prop_modifier := some
      { flags := SPA_POD_PROP_FLAG_MANDATORY ||| SPA_POD_PROP_FLAG_DONT_FIXATE,
        value := .CHOICE_Enum values } }

/-- A format chosen by the transport without modifier property (shared memory). -/
def shm_param : format_param :=
  { info := { format := .BGRx, modifier := 0, size := { width := 1920, height := 1080 },
              max_framerate := { num := 30, denom := 1 } }
    prop_modifier := none }

/-- A handler invocation that is not a param-changed call with a format carrying a modifier
property. -/
def Event.no_modifier : Event → Prop
  | .param_changed _ (some param) => param.prop_modifier = none
  | _ => True

/-- The system outcomes used in the examples: the first `shm_open` succeeds with
descriptor 5, and every later step succeeds. -/
def example_world : alloc_world :=
  { shm_open := fun _ => .fd 5
    ftruncate := 0
    wl_shm_pool_create_buffer := some 1
    create_params := true
    create_immed := some 2 }

/-- The example session after the degradation: `avoidDmabufs` is set. -/
def degraded_cast : ScreenCast := { example_cast with avoidDmabufs := true }

/-- A run of handler invocations on a degraded session: shared memory is negotiated, a
buffer is added, dequeued and captured into, damage is reported, the frame is enqueued, and
a renegotiation republishes the proposals. -/
def degraded_run : List Event :=
  [ .param_changed SPA_PARAM_Format (some shm_param),
    .add_buffer (example_buffer 1) example_world,
    .on_process (some (example_buffer 1)) (fun s _ => (s, 0)),
    .frame_buffer 1 1920 1080 7680,
    .frame_damage 0 0 16 16,
    .enqueue,
    .frame_finish,
    .remove_buffer (example_buffer 1) ]

/-- A transport buffer whose data plane has the dma-buf bit (`1 << SPA_DATA_DmaBuf`) in its
type. -/
def dmabuf_buffer : pw_buffer :=
  { example_buffer 1 with
    datas := [{ type := 8, flags := 0, fd := -1, mapoffset := 0, maxsize := 0,
                chunk := { offset := 0, size := 0, stride := 0, flags := 0 } }] }

/-! ## Double-precision arithmetic, as far as the limiter uses it

The `double` values of `fps_limit_measure_end` are IEEE 754 binary64 numbers; the operations
round to nearest, ties to even. Only non-negative finite values occur on the path that
computes the period. The arithmetic is carried out on integers. -/

/-- The number of binary digits of `n`, found in at most `fuel` halvings. -/
def bit_length_steps : Nat → Nat → Nat
  | 0, _ => 0
  | fuel + 1, n => if n = 0 then 0 else bit_length_steps fuel (n / 2) + 1

/-- The number of binary digits of `n` (0 for 0). -/
def bit_length (n : Nat) : Nat := bit_length_steps n n

/-- The binary exponent of a positive quotient `n / d`: the integer `e` with
`2 ^ e <= n / d < 2 ^ (e + 1)`. -/
def floor_log2 (n d : Nat) : Int :=
  let e : Int := (bit_length n : Int) - (bit_length d : Int)
  if d * 2 ^ e.toNat ≤ n * 2 ^ (-e).toNat then e else e - 1

/-- A finite non-negative `double`, with the value `significand * 2 ^ exponent`. -/
structure binary64 where
  significand : Nat
  exponent : Int
deriving DecidableEq, Repr

/-- The rational number a `double` stands for. -/
def binary64.value (x : binary64) : ℚ := x.significand * 2 ^ x.exponent

/-- The integer nearest to `n / d`, a tie going to the even one. -/
def round_half_even (n d : Nat) : Nat :=
  let q := n / d
  let r := n % d
  if 2 * r < d then q
  else if d < 2 * r then q + 1
  else if q % 2 = 0 then q else q + 1

/-- The `double` nearest to the non-negative quotient `n / d`: a significand of 53 binary
digits at the exponent of the quotient, with gradual underflow below `2 ^ -1022`. The result
is `none` where the rounded value exceeds the largest finite `double` (an infinity). -/
def round_to_double (n d : Nat) : Option binary64 :=
  let e := max (floor_log2 n d) (-1022)
  let scaled_n := n * 2 ^ (52 - e).toNat
  let scaled_d := d * 2 ^ (e - 52).toNat
  let m := round_half_even scaled_n scaled_d
  if 1023 < e ∨ (e = 1023 ∧ 2 ^ 53 ≤ m) then none
  else some { significand := m, exponent := e - 52 }

/-- The `double` division `1.0 / y` for a finite `y > 0`; the exact quotient is
`y.den / y.num`. -/
def double_reciprocal (y : ℚ) : Option binary64 := round_to_double y.den y.num.natAbs

/-- The `double` product `x * k` for an integer `k` below 2^53, whose conversion to `double`
is exact. -/
def double_mul_long (x : binary64) (k : Nat) : Option binary64 :=
  round_to_double (x.significand * k * 2 ^ x.exponent.toNat) (2 ^ (-x.exponent).toNat)

/-- The conversion of a non-negative `double` to `int64_t`: the fraction is discarded; the
result is `none` where the value is not representable (no defined result). -/
def double_to_int64 (x : binary64) : Option Int :=
  let t := x.significand * 2 ^ x.exponent.toNat / 2 ^ (-x.exponent).toNat
  if 9223372036854775807 < t then none else some (t : Int)

/-! ## The frame-rate limiter (`fpslimit.cpp`)

`max_fps` is a `double` in the source. A finite `double` is a rational number; NaN and the
infinities are outside the embedding. The time read by `clock_gettime(CLOCK_MONOTONIC, ..)`
is the input `now`. -/

/-- The macro `TIMESPEC_NSEC_PER_SEC`. -/
def TIMESPEC_NSEC_PER_SEC : Int := 1000000000

/-- Modelled from the spec: `timespec_is_zero` is declared in `timespecutil.h` and its body
is not among the sources; both fields of the time are zero. -/
def timespec_is_zero (t : timespec) : Bool := decide (t.tv_sec = 0 ∧ t.tv_nsec = 0)

/-- Modelled from the spec: `timespec_diff_ns(t1, t2)` is declared in `timespecutil.h` and
its body is not among the sources; the time elapsed from `t2` to `t1`, in nanoseconds. -/
def timespec_diff_ns (t1 t2 : timespec) : Int :=
  (t1.tv_sec - t2.tv_sec) * TIMESPEC_NSEC_PER_SEC + (t1.tv_nsec - t2.tv_nsec)

/-- The function `measure_fps` (logging left out). The test `elapsed_sec <
FPS_MEASURE_PERIOD_SEC`, with `elapsed_sec = (double)elapsed_ns / 1e9` and the period 5.0,
holds exactly when `elapsed_ns` is below 5 * 10^9: the conversion and the division are
monotone and exact at 5 * 10^9. The average it computes is only logged. -/
def measure_fps (state : fps_limit_state) (now : timespec) : fps_limit_state :=
  if timespec_is_zero state.fps_last_time then { state with fps_last_time := now }
  else
    let state : fps_limit_state :=
      { state with fps_frame_count := (state.fps_frame_count + 1) % 18446744073709551616 }
    let elapsed_ns := timespec_diff_ns now state.fps_last_time
    if elapsed_ns < 5 * TIMESPEC_NSEC_PER_SEC then state
    else { state with fps_last_time := now, fps_frame_count := 0 }

/-- The function `fps_limit_measure_start`. -/
def fps_limit_measure_start (now : timespec) (state : fps_limit_state) (max_fps : ℚ) :
    fps_limit_state :=
  if max_fps ≤ 0 then state else { state with frame_last_time := now }

/-- The initialiser `int64_t target_ns = (1.0 / max_fps) * TIMESPEC_NSEC_PER_SEC` of
`fps_limit_measure_end`, reached with `max_fps > 0`: the quotient and the product are
`double` operations and the conversion discards the fraction. The result is `none` where an
operation yields an infinity or the value is not representable in `int64_t`. -/
def target_ns (max_fps : ℚ) : Option Int :=
  match double_reciprocal max_fps with
  | none => none
  | some period =>
    match double_mul_long period TIMESPEC_NSEC_PER_SEC.toNat with
    | none => none
    | some ns => double_to_int64 ns

/-- The function `fps_limit_measure_end`: the limiter state after the call and the value
returned. The assertion is compiled out (`NDEBUG`). The result is `none` where `target_ns`
has no defined value or the `int64_t` subtraction overflows. -/
def fps_limit_measure_end (now : timespec) (state : fps_limit_state) (max_fps : ℚ) :
    Option (fps_limit_state × Nat) :=
  if max_fps ≤ 0 then some (state, 0)
  else
    let elapsed_ns := timespec_diff_ns now state.frame_last_time
    let state := measure_fps state now
    match target_ns max_fps with
    | none => none
    | some target_ns =>
      let delay_ns := target_ns - elapsed_ns
      if delay_ns < -9223372036854775808 ∨ 9223372036854775807 < delay_ns then none
      else if delay_ns > 0 then some (state, delay_ns.toNat)
      else some (state, 0)

/-! ## Descriptors and buffer objects in the calls of an allocation -/

/-- Whether the shared-memory name of the session can exist after the given calls, `before`
saying whether it could exist before them: `shm_open` with `O_CREAT | O_EXCL` may create
the name, `shm_unlink` removes it. -/
def shm_name_linked (before : Bool) : List Call → Bool
  | [] => before
  | .shm_open :: rest => shm_name_linked true rest
  | .shm_unlink :: rest => shm_name_linked false rest
  | _ :: rest => shm_name_linked before rest

/-- The descriptors closed by the calls, in order. -/
def closed_fds (calls : List Call) : List Int :=
  calls.filterMap (fun c => match c with
    | .close fd => some fd
    | _ => none)

/-- The handles of the buffer objects destroyed by the calls, in order. -/
def destroyed_bos (calls : List Call) : List Nat :=
  calls.filterMap (fun c => match c with
    | .gbm_bo_destroy handle => some handle
    | _ => none)

/-- The GBM allocation at the head of the `DMABUF` case of `xdpdBufferCreate`: the buffer
object in `buffer->bo` when the `if (buffer->bo == nullptr)` test is reached. -/
def created_bo (ctx : ScreenCastContext) (cast : ScreenCast) (frame_info : ScreenCopyFrameInfo) :
    Option gbm_bo :=
  let flags0 := GBM_BO_USE_RENDERING
  let first : Option gbm_bo × Nat :=
    if cast.pwrFormat.modifier ≠ DRM_FORMAT_MOD_INVALID then
      (ctx.gbm.gbm_bo_create_with_modifiers2 frame_info.width frame_info.height
          frame_info.format [cast.pwrFormat.modifier] flags0, flags0)
    else
      let flags := if ctx.forceModLinear then flags0 ||| GBM_BO_USE_LINEAR else flags0
      (ctx.gbm.gbm_bo_create frame_info.width frame_info.height frame_info.format flags, flags)
  if first.1 = none ∧ cast.pwrFormat.modifier = DRM_FORMAT_MOD_LINEAR then
    ctx.gbm.gbm_bo_create frame_info.width frame_info.height frame_info.format
      (first.2 ||| GBM_BO_USE_LINEAR)
  else first.1

/-- The descriptors that one call of `xdpdBufferCreate` obtains: the descriptor returned by
`anonymous_shm_open` unless it is -1, or the descriptors returned by the calls of
`gbm_bo_get_fd_for_plane` before the first one that fails. -/
def opened_fds (ctx : ScreenCastContext) (world : alloc_world) (cast : ScreenCast)
    (buffer_type : BufferType) (frame_info : ScreenCopyFrameInfo) : List Int :=
  match buffer_type with
  | .WL_SHM =>
    let r := anonymous_shm_open world.shm_open 100 0
    if r.1 = -1 then [] else [r.1]
  | .DMABUF =>
    match created_bo ctx cast frame_info with
    | none => []
    | some bo =>
      if !world.create_params then []
      else
        match plane_fds bo (List.range bo.plane_count.toNat) [] with
        | .error fds => fds
        | .ok fds => fds

/-- The handles of the buffer objects that one call of `xdpdBufferCreate` creates. -/
def created_bos (ctx : ScreenCastContext) (cast : ScreenCast) (buffer_type : BufferType)
    (frame_info : ScreenCopyFrameInfo) : List Nat :=
  match buffer_type with
  | .WL_SHM => []
  | .DMABUF => ((created_bo ctx cast frame_info).map (fun bo => bo.handle)).toList

/-- A GBM device whose allocation with a modifier list yields a buffer object of two planes,
with plane descriptors 7 and 8. -/
def two_plane_gbm : gbm_device :=
  { gbm_bo_create_with_modifiers2 := fun _ _ _ _ _ =>
      some { handle := 3, modifier := 0, plane_count := 2, stride_for_plane := [7680, 3840],
             offset := [0, 8294400], fd_for_plane := [7, 8] }
    gbm_bo_create := fun _ _ _ _ => none
    gbm_device_get_format_modifier_plane_count := fun _ _ => 2 }

/-- System outcomes in which the import of the planes into a `wl_buffer` fails:
`zwp_linux_buffer_params_v1_create_immed` returns null. -/
def import_fails : alloc_world := { example_world with create_immed := none }

/-- The buffer that `xdpdBufferCreate` makes on `two_plane_gbm` for the dma-buf frame
information of the example session, when every step succeeds. -/
def two_plane_buffer : XdpdBuffer :=
  { buffer_type := .DMABUF, width := 1920, height := 1080, format := DRM_FORMAT_ARGB8888,
    plane_count := 2, fd := [7, 8], size := [0, 0], stride := [7680, 3840],
    offset := [0, 8294400],
    bo := some { handle := 3, modifier := 0, plane_count := 2, stride_for_plane := [7680, 3840],
                 offset := [0, 8294400], fd_for_plane := [7, 8] },
    buffer := 2 }

/-- The example session with `quit` set. -/
def quit_cast : ScreenCast := { example_cast with quit := true }

/-- The example session, initialized, while the transport is not streaming; the frame
state is left over from a frame that succeeded. -/
def paused_cast : ScreenCast :=
  { example_cast with
    pwrStreamState := false
    frameState := xdpd_frame_state.XDPD_FRAME_STATE_SUCCESS }

/-- The example session before it is initialized, the transport not yet streaming. -/
def uninitialized_cast : ScreenCast :=
  { example_cast with
    pwrStreamState := false
    initialized := false }

/-- The damage block of `xdpd_pwr_enqueue_buffer` stays inside its arrays: when the buffer
of the frame carries damage metadata, the block has at least one slot, at least one
rectangle is recorded, and `damageCount` does not exceed the number of recorded
rectangles. -/
def damage_block_defined (cast : ScreenCast) : Prop :=
  ∀ pwBuf slots, cast.currentFrame.pwBuffer = some pwBuf → pwBuf.damage = some slots →
    slots ≠ [] ∧ cast.currentFrame.damages ≠ [] ∧
      cast.currentFrame.damageCount ≤ cast.currentFrame.damages.length

/-- The corruption test of `xdpd_pwr_enqueue_buffer`: the frame did not succeed, or it is
y-inverted. -/
def frame_corrupt (cast : ScreenCast) : Prop :=
  cast.frameState ≠ .XDPD_FRAME_STATE_SUCCESS ∨ cast.currentFrame.yInverted = true

instance (cast : ScreenCast) : Decidable (frame_corrupt cast) := by
  unfold frame_corrupt
  infer_instance

/-- The example session with the dma-buf buffer type negotiated. -/
def gpu_cast : ScreenCast := { example_cast with bufferType := BufferType.DMABUF }

/-- System outcomes in which `shm_open` fails with an error other than `EEXIST`. -/
def shm_fails : alloc_world := { example_world with shm_open := fun _ => shm_open_result.error }

/-! ## The format tables: vocabulary -/

/-- The function `xdpd_format_wl_shm_from_drm_fourcc` of `screencast.cpp`
(`WL_SHM_FORMAT_ARGB8888` is 0, `WL_SHM_FORMAT_XRGB8888` is 1). -/
def xdpd_format_wl_shm_from_drm_fourcc (format : Nat) : Nat :=
  if format = DRM_FORMAT_ARGB8888 then 0
  else if format = DRM_FORMAT_XRGB8888 then 1
  else format

/-- The DRM fourcc codes that `xdpd_format_pw_from_drm_fourcc` has a case for, in the order
of its `switch`. -/
def supported_fourccs : List Nat :=
  [DRM_FORMAT_ARGB8888, DRM_FORMAT_XRGB8888, DRM_FORMAT_RGBA8888, DRM_FORMAT_RGBX8888,
   DRM_FORMAT_ABGR8888, DRM_FORMAT_XBGR8888, DRM_FORMAT_BGRA8888, DRM_FORMAT_BGRX8888,
   DRM_FORMAT_NV12, DRM_FORMAT_XRGB2101010, DRM_FORMAT_XBGR2101010, DRM_FORMAT_RGBX1010102,
   DRM_FORMAT_BGRX1010102, DRM_FORMAT_ARGB2101010, DRM_FORMAT_ABGR2101010,
   DRM_FORMAT_RGBA1010102, DRM_FORMAT_BGRA1010102, DRM_FORMAT_BGR888, DRM_FORMAT_RGB888]

/-- The eight supported fourcc codes with an alpha channel, each with the fourcc code of
the same layout without alpha. -/
def alpha_fourccs : List (Nat × Nat) :=
  [(DRM_FORMAT_ARGB8888, DRM_FORMAT_XRGB8888), (DRM_FORMAT_RGBA8888, DRM_FORMAT_RGBX8888),
   (DRM_FORMAT_ABGR8888, DRM_FORMAT_XBGR8888), (DRM_FORMAT_BGRA8888, DRM_FORMAT_BGRX8888),
   (DRM_FORMAT_ARGB2101010, DRM_FORMAT_XRGB2101010),
   (DRM_FORMAT_ABGR2101010, DRM_FORMAT_XBGR2101010),
   (DRM_FORMAT_RGBA1010102, DRM_FORMAT_RGBX1010102),
   (DRM_FORMAT_BGRA1010102, DRM_FORMAT_BGRX1010102)]

/-! ## Assertions of the source and the limiter call: vocabulary -/

/-- Whether a call is `pw_stream_dequeue_buffer`. -/
def Call.is_dequeue : Call → Bool
  | .pw_stream_dequeue_buffer => true
  | _ => false

/-- The assertion `Q_ASSERT(!cast->currentFrame.pwBuffer)` at the head of
`xdpd_pwr_dequeue_buffer`. -/
def dequeue_assertion (cast : ScreenCast) : Prop := cast.currentFrame.pwBuffer = none

/-- The assertion `assert(!timespec_is_zero(&state->frame_last_time))` of
`fps_limit_measure_end`. -/
def measure_end_assertion (state : fps_limit_state) : Prop :=
  timespec_is_zero state.frame_last_time = false

/-- The call `fps_limit_measure_end(&cast->fps_limit, cast->framerate)` of the on-process
handler, at the clock reading `now`: the limiter state after the call and the delay. The
`uint32_t` frame rate converts to `double` exactly. Where the call has no defined result
the pair stands for the state as it was and no delay. -/
def limiter_call (now : timespec) (state : fps_limit_state) (framerate : Nat) :
    fps_limit_state × Nat :=
  (fps_limit_measure_end now state (framerate : ℚ)).getD (state, 0)

/-- The limiter call of an on-process invocation leaves the cycle start `frame_last_time`
as it is (every other invocation makes no limiter call). -/
def Event.keeps_cycle_start : Event → Prop
  | .on_process _ measure_end =>
    ∀ state framerate, (measure_end state framerate).1.frame_last_time = state.frame_last_time
  | _ => True

/-- The first capture cycle of the example session, with the limiter of the source (clock
at 10 s): a buffer is dequeued (with `seq` still 0 the capture is
requested without consulting the limiter), the compositor reports one damage rectangle,
and the frame is enqueued. -/
def first_cycle : List Event :=
  [ .on_process (some (example_buffer 1))
      (limiter_call { tv_sec := 10, tv_nsec := 0 }),
    .frame_damage 0 0 16 16,
    .enqueue ]

/-- The first capture cycle of the example session followed by the start of the second
one: the next buffer is dequeued and, the limiter asking for no delay (the clock is at
20 s), the capture is requested. -/
def two_cycles : List Event :=
  first_cycle ++
    [ .on_process (some (example_buffer 1))
        (limiter_call { tv_sec := 20, tv_nsec := 0 }) ]

/-- A successful frame with two recorded damage rectangles (`damageCount` is 2) on a buffer
whose damage metadata has three slots. -/
def two_on_three : ScreenCast :=
  { example_cast with
    frameState := xdpd_frame_state.XDPD_FRAME_STATE_SUCCESS
    currentFrame := { example_cast.currentFrame with
      damages := [{ x := 0, y := 0, width := 5, height := 5 },
                  { x := 10, y := 0, width := 5, height := 5 }]
      damageCount := 2
      pwBuffer := some (example_buffer 3) } }

/-- The same frame with `damageCount` at 0, as the damage callback leaves it. -/
def two_on_three_uncounted : ScreenCast :=
  { two_on_three with
    currentFrame := { two_on_three.currentFrame with damageCount := 0 } }

/-- The interval, in nanoseconds, of the timer that `QTimer::singleShot(msec, functor)`
arms for an argument of type `quint64`: the first parameter of that Qt function is an `int`
number of milliseconds. -/
def QTimer_singleShot_interval_ns (argument : Nat) : Int :=
  i32 (argument % 4294967296) * 1000000

/-- The example session after one enqueued frame (`seq` is 1). -/
def second_cycle_cast : ScreenCast := { example_cast with seq := 1 }

/-! ## Frames of the examples -/

/-- The frame holds the `XdpdBuffer` of its buffer: once a buffer is present, the log lines
of `xdpd_pwr_enqueue_buffer` read `currentFrame.xdpdBuffer->width` and `->height`. -/
def frame_buffer_held (cast : ScreenCast) : Prop :=
  cast.currentFrame.pwBuffer ≠ none → cast.currentFrame.xdpdBuffer ≠ none

/-- A transport buffer with one damage slot whose `user_data` is its `XdpdBuffer`. -/
def held_buffer : pw_buffer := { example_buffer 1 with user_data := some two_plane_buffer }

/-- A frame whose capture failed, as the handlers leave it after one damage report
(`damageCount` is 0), holding its buffer and the `XdpdBuffer` of that buffer. -/
def failed_frame : ScreenCast :=
  { example_cast with
    frameState := xdpd_frame_state.XDPD_FRAME_STATE_FAILED
    currentFrame := { example_cast.currentFrame with
      damages := [{ x := 0, y := 0, width := 16, height := 16 }]
      xdpdBuffer := some two_plane_buffer
      pwBuffer := some held_buffer } }

/-- A frame that succeeded and is flagged y-inverted, as the handlers leave it after one
damage report, holding its buffer and the `XdpdBuffer` of that buffer. -/
def inverted_frame : ScreenCast :=
  { example_cast with
    frameState := xdpd_frame_state.XDPD_FRAME_STATE_SUCCESS
    currentFrame := { example_cast.currentFrame with
      yInverted := true
      damages := [{ x := 0, y := 0, width := 16, height := 16 }]
      xdpdBuffer := some two_plane_buffer
      pwBuffer := some held_buffer } }

/-- A frame whose capture failed before the compositor reported any damage: no rectangle is
recorded; the frame holds its buffer and the `XdpdBuffer` of that buffer. -/
def unrecorded_frame : ScreenCast :=
  { example_cast with
    frameState := xdpd_frame_state.XDPD_FRAME_STATE_FAILED
    currentFrame := { example_cast.currentFrame with
      xdpdBuffer := some two_plane_buffer
      pwBuffer := some held_buffer } }

/-- A capture cycle of the example session in which the compositor reports two damage
rectangles, (0, 0, 5, 5) and (10, 0, 5, 5), for a buffer whose damage metadata has one
slot. -/
def two_reports : List Event :=
  [ Event.on_process (some held_buffer) (limiter_call { tv_sec := 10, tv_nsec := 0 }),
    Event.frame_damage 0 0 5 5,
    Event.frame_damage 10 0 5 5 ]

/-- The example session dequeues a buffer and requests the capture, and the transport leaves
the streaming state before the compositor has reported any damage. -/
def paused_before_damage : List Event :=
  [ Event.on_process (some held_buffer) (limiter_call { tv_sec := 10, tv_nsec := 0 }),
    Event.state_changed pw_stream_state.STREAMING pw_stream_state.PAUSED ]

/-! ## Sessions (`session.h`, `session.cpp`, `portalwaylandcontext.cpp`) -/

/-- A `QVariant` as the sessions use it: invalid (default-constructed), holding a value
(`v` stands for the object it wraps), or holding the pointer to a `ScreenCast`
(`QVariant::fromValue(screencast)`). -/
inductive QVariant where
  | invalid
  | value (v : Nat)
  | screencast (cast : ScreenCast)
deriving DecidableEq, Repr

/-- The call `value<ScreenCast *>()` on a `QVariant`: the pointer it holds, null when it
holds no `ScreenCast` pointer. -/
def QVariant.value_ScreenCast : QVariant → Option ScreenCast
  | .screencast cast => some cast
  | _ => none

/-- The members of the class `Session`; a `QDBusObjectPath` is its path string. -/
structure Session where
  m_handle : String
  m_data : QVariant
deriving DecidableEq, Repr

/-- The constructor `Session::Session(handle, data, parent)`: its initialiser list is
`QDBusAbstractAdaptor(parent)` alone and its body is empty, so `m_handle` and `m_data` are
default-constructed (the empty path, the invalid variant). -/
def new_Session (_handle : String) (_data : QVariant) : Session :=
  { m_handle := "", m_data := QVariant.invalid }

/-- The accessor `Session::handle()`. -/
def Session.handle (session : Session) : String := session.m_handle

/-- The accessor `Session::data()`. -/
def Session.data (session : Session) : QVariant := session.m_data

/-- The method `PortalWaylandContext::createSession`: the list `m_sessions` after the call
and the session returned. -/
def createSession (m_sessions : List Session) (handle : String) (data : QVariant) :
    List Session × Session :=
  let session := new_Session handle data
  (m_sessions ++ [session], session)

/-- The method `PortalWaylandContext::findSession`: the first session of `m_sessions` whose
`handle()` equals `handle`, or null. -/
def findSession (m_sessions : List Session) (handle : String) : Option Session :=
  m_sessions.find? (fun session => decide (session.handle = handle))

/-- The list `m_sessions` of a context after the given `createSession` calls, in order. -/
def created_sessions (creations : List (String × QVariant)) : List Session :=
  creations.foldl (fun m_sessions p => (createSession m_sessions p.1 p.2).1) []

/-- An object path used in the examples. -/
def example_handle : String := "/org/freedesktop/portal/desktop/session/app/token"

/-! ## The portal methods (`portalwaylandcontext.cpp`)

`SelectSources` and `Start` look the session up with `findSession` and work on the
`ScreenCast` that its `data()` holds. The outcomes of the chooser dialog and of PipeWire are
inputs. A result `none` stands for an execution with no defined result: the call
`session->data()` on the null pointer that `findSession` returns for a handle it does not
find. -/

def XDPD_RESPONSE_SUCCESS : Nat := 0
def XDPD_RESPONSE_CANCELLED : Nat := 1
def XDPD_RESPONSE_ENDED : Nat := 2

/-- What the chooser dialog yields: `exec()` returns `QDialog::Rejected`, or it is accepted
and the selected screen has the `wl_output` handle `waylandScreen` (`none`: the
`dynamic_cast` to `QWaylandScreen` gives null). -/
inductive chooser_result where
  | Rejected
  | Accepted (waylandScreen : Option Nat)
deriving DecidableEq, Repr

/-- The method `PortalWaylandContext::CreateSession`: the list `m_sessions` after the call
and the value returned. `screenCopyManager` tells whether `screenCopyManager()` is non-null
and `screencast` is the object that `ScreenCast::create` makes. -/
def CreateSession (screenCopyManager : Bool) (m_sessions : List Session)
    (sessionHandle : String) (screencast : ScreenCast) : List Session × Nat :=
  if !screenCopyManager then (m_sessions, XDPD_RESPONSE_CANCELLED)
  else
    ((createSession m_sessions sessionHandle (QVariant.screencast screencast)).1,
      XDPD_RESPONSE_SUCCESS)

/-- The method `PortalWaylandContext::SelectSources`: the `ScreenCast` of the session after
the call (`none`: the session holds none) and the value returned. `types` and `cursor_mode`
are the entries of `options` (`none`: not valid); `availableSourceTypes()` is `Monitor` (1),
`Hidden` is 1 and `Embedded` is 2. The members `m_allowMultipleSelection` and
`m_persistMode` are not part of the embedding. -/
def SelectSources (m_sessions : List Session) (sessionHandle : String)
    (types cursor_mode : Option Nat) (chooser : chooser_result) :
    Option (Option ScreenCast × Nat) :=
  match findSession m_sessions sessionHandle with
  | none => none
  | some session =>
    match session.data.value_ScreenCast with
    | none => some (none, XDPD_RESPONSE_CANCELLED)
    | some cast =>
      let selectionTypes : Nat :=
        match types with
        | some t => (t % 4294967296) &&& 1
        | none => 1
      if selectionTypes = 0 then some (some cast, XDPD_RESPONSE_CANCELLED)
      else
        let m_cursorMode : Nat :=
          match cursor_mode with
          | some m => m % 4294967296
          | none => 1
        match chooser with
        | .Rejected => some (some cast, XDPD_RESPONSE_CANCELLED)
        | .Accepted none => some (some cast, XDPD_RESPONSE_CANCELLED)
        | .Accepted (some output) =>
          some (some { cast with
              target := { output := output, with_cursor := decide (m_cursorMode = 2) } },
            XDPD_RESPONSE_SUCCESS)

/-- The method `PortalWaylandContext::createPipewireStream`: the session after the call and
the value returned. `pw_stream_new` is `none` when `pw_stream_new` returns null, and
otherwise the node id that `pw_stream_get_node_id` reports for the new stream after
`pw_stream_connect`. -/
def createPipewireStream (pw_stream_new : Option Nat) (cast : ScreenCast) : ScreenCast × Nat :=
  match pw_stream_new with
  | none => (cast, 0)
  | some node_id =>
    let cast : ScreenCast := { cast with pwrStreamState := false }
    let cast : ScreenCast := { cast with nodeId := node_id }
    (cast, cast.nodeId)

/-- The method `PortalWaylandContext::Start`: the `ScreenCast` of the session after the call
(`none`: the session holds none) and the value returned. The value returned by
`createPipewireStream` is not used. -/
def Start (m_sessions : List Session) (sessionHandle : String) (pw_stream_new : Option Nat) :
    Option (Option ScreenCast × Nat) :=
  match findSession m_sessions sessionHandle with
  | none => none
  | some session =>
    match session.data.value_ScreenCast with
    | none => some (none, XDPD_RESPONSE_CANCELLED)
    | some cast =>
      let r := createPipewireStream pw_stream_new cast
      some (some r.1, r.1.nodeId)

/-- A session object that holds its handle and a `ScreenCast`, which no call of
`createSession` makes: the example session under the example handle. -/
def session_with_data : Session :=
  { m_handle := example_handle, m_data := QVariant.screencast example_cast }

/-- The `ScreenCast` of `session_with_data` after `SelectSources` with cursor mode
`Embedded` (2), the chooser accepted on the screen with output 7. -/
def embedded_cursor_cast : Option ScreenCast :=
  (SelectSources [session_with_data] example_handle none (some 2)
    (chooser_result.Accepted (some 7))).bind Prod.fst

/-! # Properties -/

set_option maxRecDepth 8192

/-! ## Damage merging: lemmas -/

theorem u32_of_lt (i : Int) (h0 : 0 ≤ i) (h1 : i < 4294967296) : u32 i = i.toNat := by
  unfold u32
  rw [Int.emod_eq_of_lt h0 h1]

theorem mergeDamage_absorb (b r : XdpdFrameDamage) (hb : in_range b) (hr : contained_in r b) :
    mergeDamage b r = b := by
  obtain ⟨bx, by_, bw, bh⟩ := b
  obtain ⟨rx, ry, rw, rh⟩ := r
  simp only [in_range, contained_in] at hb hr
  obtain ⟨hb1, hb2, hb3, hb4⟩ := hb
  obtain ⟨hr1, hr2, hr3, hr4⟩ := hr
  have e1 : u32 (bx + bw) = (bx + bw).toNat := u32_of_lt _ (by omega) hb3
  have e2 : u32 (rx + rw) = (rx + rw).toNat := u32_of_lt _ (by omega) (by omega)
  have e3 : u32 (by_ + bh) = (by_ + bh).toNat := u32_of_lt _ (by omega) hb4
  have e4 : u32 (ry + rh) = (ry + rh).toNat := u32_of_lt _ (by omega) (by omega)
  simp only [mergeDamage, e1, e2, e3, e4]
  have c1 : ¬ ((bx + bw).toNat < (rx + rw).toNat) := by omega
  have c2 : ¬ ((by_ + bh).toNat < (ry + rh).toNat) := by omega
  simp only [c1, c2, if_false]
  have x1 : (if bx < rx then bx else rx) = bx := by split <;> omega
  have y1 : (if by_ < ry then by_ else ry) = by_ := by split <;> omega
  rw [x1, y1]
  have w1 : u32 (((bx + bw).toNat : Int) - bx) = bw := by
    rw [u32_of_lt _ (by omega) (by omega)]; omega
  have h1 : u32 (((by_ + bh).toNat : Int) - by_) = bh := by
    rw [u32_of_lt _ (by omega) (by omega)]; omega
  rw [w1, h1]

theorem mergeDamage_self (r : XdpdFrameDamage) (hw : r.width < 4294967296)
    (hh : r.height < 4294967296) : mergeDamage r r = r := by
  obtain ⟨x, y, w, h⟩ := r
  simp only at hw hh
  have key : ∀ (p : Int) (s : Nat), s < 4294967296 → u32 ((u32 (p + s) : Int) - p) = s := by
    intro p s hs
    unfold u32
    omega
  simp only [mergeDamage, lt_self_iff_false, if_false, key x w hw, key y h hh]

theorem contained_in_trans {a b c : XdpdFrameDamage} (h1 : contained_in a b)
    (h2 : contained_in b c) : contained_in a c := by
  simp only [contained_in] at *
  omega

theorem mergeDamage_bbox (a b : XdpdFrameDamage) (ha : in_range a) (hb : in_range b) :
    in_range (mergeDamage a b) ∧ contained_in a (mergeDamage a b) ∧
      contained_in b (mergeDamage a b) := by
  obtain ⟨ax, ay, aw, ah⟩ := a
  obtain ⟨bx, by_, bw, bh⟩ := b
  simp only [in_range] at ha hb
  obtain ⟨ha1, ha2, ha3, ha4⟩ := ha
  obtain ⟨hb1, hb2, hb3, hb4⟩ := hb
  have e1 : u32 (ax + aw) = (ax + aw).toNat := u32_of_lt _ (by omega) ha3
  have e2 : u32 (bx + bw) = (bx + bw).toNat := u32_of_lt _ (by omega) hb3
  have e3 : u32 (ay + ah) = (ay + ah).toNat := u32_of_lt _ (by omega) ha4
  have e4 : u32 (by_ + bh) = (by_ + bh).toNat := u32_of_lt _ (by omega) hb4
  simp only [mergeDamage, e1, e2, e3, e4, in_range, contained_in]
  have key : ∀ (p q : Int) (s t : Nat), 0 ≤ p → 0 ≤ q → p + s < 4294967296 →
      q + t < 4294967296 →
      let m := if p < q then p else q
      let e := if (p + s).toNat < (q + t).toNat then (q + t).toNat else (p + s).toNat
      0 ≤ m ∧ m ≤ p ∧ m ≤ q ∧ m + (u32 ((e : Int) - m) : Int) < 4294967296 ∧
        p + s ≤ m + (u32 ((e : Int) - m) : Int) ∧ q + t ≤ m + (u32 ((e : Int) - m) : Int) := by
    intro p q s t hp hq hs ht
    simp only
    have hm : (0 : Int) ≤ (if p < q then p else q) ∧ (if p < q then p else q) ≤ p ∧
        (if p < q then p else q) ≤ q := by split <;> omega
    have he : ((if (p + s).toNat < (q + t).toNat then (q + t).toNat else (p + s).toNat : Nat) : Int)
        < 4294967296 ∧ p + s ≤ ((if (p + s).toNat < (q + t).toNat then (q + t).toNat
          else (p + s).toNat : Nat) : Int) ∧ q + t ≤ ((if (p + s).toNat < (q + t).toNat
          then (q + t).toNat else (p + s).toNat : Nat) : Int) := by split <;> omega
    generalize (if p < q then p else q) = m at hm ⊢
    generalize (if (p + s).toNat < (q + t).toNat then (q + t).toNat else (p + s).toNat) = e
      at he ⊢
    rw [u32_of_lt _ (by omega) (by omega)]
    omega
  have kx := key ax bx aw bw ha1 hb1 ha3 hb3
  have ky := key ay by_ ah bh ha2 hb2 ha4 hb4
  simp only at kx ky
  omega

theorem foldl_mergeDamage_bbox (l : List XdpdFrameDamage) :
    ∀ acc, in_range acc → (∀ r ∈ l, in_range r) →
      in_range (l.foldl mergeDamage acc) ∧ contained_in acc (l.foldl mergeDamage acc) ∧
        ∀ r ∈ l, contained_in r (l.foldl mergeDamage acc) := by
  induction l with
  | nil =>
    intro acc _ _
    refine ⟨by simpa, by simp [contained_in], by simp⟩
  | cons a l ih =>
    intro acc hacc hl
    have ha : in_range a := hl a (List.mem_cons_self _ _)
    obtain ⟨m1, m2, m3⟩ := mergeDamage_bbox acc a hacc ha
    obtain ⟨i1, i2, i3⟩ := ih (mergeDamage acc a) m1 (fun r hr => hl r (List.mem_cons_of_mem _ hr))
    refine ⟨by simpa using i1, ?_, ?_⟩
    · simpa using contained_in_trans m2 i2
    · intro r hr
      rcases List.mem_cons.mp hr with rfl | hr
      · simpa using contained_in_trans m3 i2
      · simpa using i3 r hr

theorem rect_of_region_of (d : XdpdFrameDamage) : rect_of (region_of d) = d := rfl

theorem damage_do_while_eq (frame : XdpdFrame) (damageCounter : Nat) (d : XdpdFrameDamage)
    (hd : frame.damages[damageCounter]? = some d) :
    ∀ slots, slots ≠ [] →
      damage_do_while frame damageCounter slots = some (slots.map (fun _ => region_of d)) := by
  intro slots
  induction slots with
  | nil => intro h; exact absurd rfl h
  | cons s rest ih =>
    intro _
    cases rest with
    | nil => simp [damage_do_while, damage_slot, hd, store, region_of]
    | cons s2 rest2 =>
      have := ih (by simp)
      simp [damage_do_while, damage_slot, hd, store, region_of] at this ⊢
      simp [this]

theorem merge_loop_eq (damages : List XdpdFrameDamage) :
    ∀ n i acc, i + n ≤ damages.length →
      merge_loop damages n i acc = some (((damages.drop i).take n).foldl mergeDamage acc) := by
  intro n
  induction n with
  | zero => intro i acc _; simp [merge_loop]
  | succ n ih =>
    intro i acc h
    have hi : i < damages.length := by omega
    have hget : damages[i]? = some damages[i] := List.getElem?_eq_getElem hi
    simp only [merge_loop, hget]
    rw [ih (i + 1) _ (by omega)]
    have hdrop : damages.drop i = damages[i] :: damages.drop (i + 1) := List.drop_eq_getElem_cons hi
    conv_rhs => rw [hdrop, List.take_succ_cons, List.foldl_cons]

/-- What the damage block writes: every slot gets rectangle 1; when `damageCount` is not
zero the last slot then gets rectangle 1 merged with the first `damageCount` rectangles. -/
theorem write_damage_eq (frame : XdpdFrame) (slots : List spa_region) (d0 : XdpdFrameDamage)
    (rest : List XdpdFrameDamage) (hd : frame.damages = d0 :: rest)
    (hcount : frame.damageCount ≤ frame.damages.length) (hcap : slots ≠ []) :
    write_damage frame slots =
      some (if 0 < frame.damageCount then
        (slots.map (fun _ => region_of d0)).dropLast ++
          [region_of ((frame.damages.take frame.damageCount).foldl mergeDamage d0)]
        else slots.map (fun _ => region_of d0)) := by
  have h0 : frame.damages[0]? = some d0 := by simp [hd]
  have hlast : (slots.map (fun _ => region_of d0)).getLast? = some (region_of d0) := by
    cases slots with
    | nil => exact absurd rfl hcap
    | cons s r =>
      rw [List.getLast?_eq_getLast _ (by simp)]
      congr 1
      have hm : ∀ x ∈ (s :: r).map (fun _ => region_of d0), x = region_of d0 := by
        intro x hx
        obtain ⟨_, _, rfl⟩ := List.mem_map.mp hx
        rfl
      exact hm _ (List.getLast_mem _)
  unfold write_damage
  by_cases hpos : 0 < frame.damageCount
  · simp only [damage_do_while_eq frame 0 d0 h0 slots hcap, hpos, if_true, hlast, Nat.sub_zero]
    rw [merge_loop_eq frame.damages frame.damageCount 0 _ (by omega)]
    simp [region_of, SPA_REGION]
  · simp only [damage_do_while_eq frame 0 d0 h0 slots hcap, hpos, if_false]

theorem enqueue_with_damage (cast : ScreenCast) (pwBuf : pw_buffer)
    (slots written : List spa_region) (hb : cast.currentFrame.pwBuffer = some pwBuf)
    (hs : pwBuf.damage = some slots) (hw : write_damage cast.currentFrame slots = some written) :
    ∃ cast1 queued, xdpd_pwr_enqueue_buffer cast = some cast1 ∧
      cast1.calls = cast.calls ++ [Call.pw_stream_queue_buffer queued] ∧
      queued.damage = some written := by
  simp [xdpd_pwr_enqueue_buffer, hb, hs, hw]

/-! ## C3: ten rectangles on four slots -/

/-- C3 (the code at the failing input). With ten recorded rectangles (at x = 0, 10, .., 90,
5 wide) and a damage slot of capacity four, enqueue queues a buffer with four region
entries; the first three all hold rectangle 1 and the fourth holds the box spanning x = 0
to 95, which is the bounding box of all ten rectangles and not the union bounding box of
rectangles 4 to 10 (x = 30 to 95); rectangles 2 and 3 are in no entry of their own. -/
theorem C3_ten_on_four_writes_first_rectangle :
    ∃ cast1 queued,
      xdpd_pwr_enqueue_buffer ten_on_four = some cast1 ∧
      cast1.calls = [Call.pw_stream_queue_buffer queued] ∧
      queued.damage = some
        [SPA_REGION 0 0 5 5, SPA_REGION 0 0 5 5, SPA_REGION 0 0 5 5, SPA_REGION 0 0 95 5] ∧
      union_bounding_box (ten_rectangles.drop 3) = some { x := 30, y := 0, width := 65, height := 5 } ∧
      union_bounding_box ten_rectangles = some { x := 0, y := 0, width := 95, height := 5 } ∧
      (queued.damage.bind (fun w => w[3]?)).map rect_of ≠ union_bounding_box (ten_rectangles.drop 3) ∧
      (queued.damage.bind (fun w => w[1]?)).map rect_of ≠ ten_rectangles[1]? := by
  refine ⟨_, _, rfl, rfl, rfl, by decide, by decide, by decide, by decide⟩

/-! ## C4: no damage is lost -/

/-- With `damageCount` at 0 the damage block writes rectangle 1 into every slot. -/
theorem enqueue_uncounted (cast : ScreenCast) (pwBuf : pw_buffer) (slots : List spa_region)
    (d0 : XdpdFrameDamage) (rest : List XdpdFrameDamage)
    (hb : cast.currentFrame.pwBuffer = some pwBuf) (hs : pwBuf.damage = some slots)
    (hcap : slots ≠ []) (hd : cast.currentFrame.damages = d0 :: rest)
    (hc : cast.currentFrame.damageCount = 0) :
    ∃ cast1 queued, xdpd_pwr_enqueue_buffer cast = some cast1 ∧
      cast1.calls = cast.calls ++ [Call.pw_stream_queue_buffer queued] ∧
      queued.damage = some (slots.map (fun _ => region_of d0)) := by
  have hw := write_damage_eq cast.currentFrame slots d0 rest hd (by rw [hc]; exact Nat.zero_le _)
    hcap
  rw [hc, if_neg (Nat.lt_irrefl 0)] at hw
  exact enqueue_with_damage cast pwBuf slots _ hb hs hw

/-- C4 (the code at the failing input). On the example session a buffer whose damage
metadata has one slot is dequeued and the compositor reports the rectangles (0, 0, 5, 5) and
(10, 0, 5, 5); both are recorded, both are in range, and `damageCount` is still 0. The
enqueue of that frame queues the buffer with the single region entry (0, 0, 5, 5), which
does not contain the second rectangle. In general, whenever `damageCount` is 0, every
region entry that an enqueue writes is the first recorded rectangle, whatever else is
recorded. -/
theorem C4_second_rectangle_lost :
    (∃ cast0 cast1 queued,
      run (example_ctx failing_gbm) example_cast two_reports = some cast0 ∧
      cast0.currentFrame.damages =
        [{ x := 0, y := 0, width := 5, height := 5 },
         { x := 10, y := 0, width := 5, height := 5 }] ∧
      (∀ r ∈ cast0.currentFrame.damages, in_range r) ∧
      cast0.currentFrame.damageCount = 0 ∧
      xdpd_pwr_enqueue_buffer cast0 = some cast1 ∧
      cast1.calls = cast0.calls ++ [Call.pw_stream_queue_buffer queued] ∧
      queued.damage = some [SPA_REGION 0 0 5 5] ∧
      ¬ contained_in { x := 10, y := 0, width := 5, height := 5 }
        (rect_of (SPA_REGION 0 0 5 5))) ∧
    (∀ (cast : ScreenCast) (pwBuf : pw_buffer) (slots : List spa_region)
        (d0 : XdpdFrameDamage) (rest : List XdpdFrameDamage),
      cast.currentFrame.pwBuffer = some pwBuf → pwBuf.damage = some slots → slots ≠ [] →
      cast.currentFrame.damages = d0 :: rest → cast.currentFrame.damageCount = 0 →
      ∃ cast1 queued written, xdpd_pwr_enqueue_buffer cast = some cast1 ∧
        cast1.calls = cast.calls ++ [Call.pw_stream_queue_buffer queued] ∧
        queued.damage = some written ∧ written.length = slots.length ∧
        ∀ e ∈ written, e = region_of d0) := by
  constructor
  · refine ⟨_, _, _, rfl, rfl, by decide, rfl, rfl, rfl, rfl, by decide⟩
  · intro cast pwBuf slots d0 rest hb hs hcap hd hc
    obtain ⟨cast1, queued, h1, h2, h3⟩ := enqueue_uncounted cast pwBuf slots d0 rest hb hs hcap hd hc
    refine ⟨cast1, queued, _, h1, h2, h3, by simp, ?_⟩
    intro e he
    obtain ⟨_, _, rfl⟩ := List.mem_map.mp he
    rfl

/-! ## C5: merging rectangles that lie inside the bounding rectangle -/

/-- C5 (amended). For every bounding rectangle `B` with non-negative origin whose right and
bottom edges are below 2^32, and every list of rectangles each contained in `B`, folding
`mergeDamage` over the list starting from `B` returns `B` unchanged; and
`mergeDamage R R = R` for every rectangle `R` whatsoever (of 32-bit width and height). -/
theorem C5_merge_idempotent (B : XdpdFrameDamage) (rs : List XdpdFrameDamage)
    (hB : in_range B) (hrs : ∀ r ∈ rs, contained_in r B) :
    rs.foldl mergeDamage B = B ∧ mergeDamage B B = B ∧
      ∀ R : XdpdFrameDamage, R.width < 4294967296 → R.height < 4294967296 →
        mergeDamage R R = R := by
  refine ⟨?_, mergeDamage_absorb B B hB (by simp [contained_in]), mergeDamage_self⟩
  induction rs with
  | nil => rfl
  | cons r rs ih =>
    rw [List.foldl_cons, mergeDamage_absorb B r hB (hrs r (List.mem_cons_self _ _))]
    exact ih (fun q hq => hrs q (List.mem_cons_of_mem _ hq))

/-- C5 (witness): two rectangles inside the 100 by 100 rectangle at the origin. -/
theorem C5_merge_idempotent_witness :
    in_range { x := 0, y := 0, width := 100, height := 100 } ∧
    (∀ r ∈ [({ x := 10, y := 20, width := 5, height := 5 } : XdpdFrameDamage),
        { x := 0, y := 0, width := 100, height := 100 }],
      contained_in r { x := 0, y := 0, width := 100, height := 100 }) ∧
    [({ x := 10, y := 20, width := 5, height := 5 } : XdpdFrameDamage),
        { x := 0, y := 0, width := 100, height := 100 }].foldl mergeDamage
      { x := 0, y := 0, width := 100, height := 100 }
      = { x := 0, y := 0, width := 100, height := 100 } ∧
    mergeDamage { x := 0, y := 0, width := 100, height := 100 }
      { x := 0, y := 0, width := 100, height := 100 }
      = { x := 0, y := 0, width := 100, height := 100 } ∧
    ∀ R : XdpdFrameDamage, R.width < 4294967296 → R.height < 4294967296 →
      mergeDamage R R = R :=
  ⟨by decide, by decide,
    C5_merge_idempotent { x := 0, y := 0, width := 100, height := 100 } _ (by decide) (by decide)⟩

/-- C5 (counterexample). The rectangle (x = -3, width 1) is contained in the rectangle
(x = -5, width 10), yet merging it into that rectangle gives width 3; and the rectangle
(x = 1, width 1) is contained in (x = 1, width 4294967295), whose right edge is 2^32, yet
merging gives width 1. -/
theorem C5_counterexample :
    (contained_in { x := -3, y := 0, width := 1, height := 1 }
        { x := -5, y := 0, width := 10, height := 1 } ∧
      [({ x := -3, y := 0, width := 1, height := 1 } : XdpdFrameDamage)].foldl mergeDamage
        { x := -5, y := 0, width := 10, height := 1 }
        = { x := -5, y := 0, width := 3, height := 1 }) ∧
    (contained_in { x := 1, y := 0, width := 1, height := 1 }
        { x := 1, y := 0, width := 4294967295, height := 1 } ∧
      [({ x := 1, y := 0, width := 1, height := 1 } : XdpdFrameDamage)].foldl mergeDamage
        { x := 1, y := 0, width := 4294967295, height := 1 }
        = { x := 1, y := 0, width := 1, height := 1 }) := by
  refine ⟨⟨by decide, by decide⟩, ⟨by decide, by decide⟩⟩

/-! ## Calls made by the handlers: lemmas -/

theorem try_old_api_calls (ctx : ScreenCastContext) (info : ScreenCopyFrameInfo)
    (modifiers : List Nat) :
    ∀ c ∈ (try_old_api ctx info modifiers).1, c.is_gbm_alloc = true := by
  induction modifiers with
  | nil => simp [try_old_api]
  | cons m rest ih =>
    intro c hc
    by_cases hm : m = DRM_FORMAT_MOD_INVALID ∨ m = DRM_FORMAT_MOD_LINEAR
    · simp only [try_old_api, hm, if_true] at hc
      generalize (if m = DRM_FORMAT_MOD_INVALID then
        (if ctx.forceModLinear = true then GBM_BO_USE_RENDERING ||| GBM_BO_USE_LINEAR
          else GBM_BO_USE_RENDERING) else GBM_BO_USE_RENDERING ||| GBM_BO_USE_LINEAR) = flags at hc
      cases hg : ctx.gbm.gbm_bo_create info.width info.height info.format flags with
      | some bo =>
        simp only [hg, List.mem_singleton] at hc
        subst hc; rfl
      | none =>
        simp only [hg, List.mem_cons] at hc
        rcases hc with rfl | hc
        · rfl
        · exact ih c hc
    · simp only [try_old_api, hm, if_false] at hc
      exact ih c hc

theorem is_queue_of_gbm_alloc (c : Call) (h : c.is_gbm_alloc = true) : c.is_queue = false := by
  cases c <;> simp_all [Call.is_gbm_alloc, Call.is_queue]

theorem allocate_offered_calls (ctx : ScreenCastContext) (info : ScreenCopyFrameInfo)
    (modifiers : List Nat) :
    ∀ c ∈ (allocate_offered ctx info modifiers).1, c.is_gbm_alloc = true := by
  intro c hc
  unfold allocate_offered at hc
  simp only at hc
  split at hc
  · simp only [List.mem_singleton] at hc
    subst hc; rfl
  · rcases List.mem_cons.mp hc with rfl | hc
    · rfl
    · exact try_old_api_calls ctx info modifiers c hc

theorem new_calls0 (P : Call → Prop) (l : List Call) :
    ∃ new, l = l ++ new ∧ ∀ c ∈ new, P c :=
  ⟨[], (List.append_nil l).symm, fun _ hc => absurd hc (List.not_mem_nil _)⟩

theorem new_calls1 (P : Call → Prop) (l a : List Call) (ha : ∀ c ∈ a, P c) :
    ∃ new, l ++ a = l ++ new ∧ ∀ c ∈ new, P c :=
  ⟨a, rfl, ha⟩

theorem new_calls2 (P : Call → Prop) (l a b : List Call) (ha : ∀ c ∈ a, P c)
    (hb : ∀ c ∈ b, P c) : ∃ new, l ++ a ++ b = l ++ new ∧ ∀ c ∈ new, P c :=
  ⟨a ++ b, List.append_assoc l a b, fun c hc =>
    (List.mem_append.mp hc).elim (ha c) (hb c)⟩

theorem new_calls3 (P : Call → Prop) (l a b d : List Call) (ha : ∀ c ∈ a, P c)
    (hb : ∀ c ∈ b, P c) (hd : ∀ c ∈ d, P c) :
    ∃ new, l ++ a ++ b ++ d = l ++ new ∧ ∀ c ∈ new, P c :=
  ⟨a ++ b ++ d, by simp only [List.append_assoc], fun c hc =>
    (List.mem_append.mp hc).elim
      (fun h => (List.mem_append.mp h).elim (ha c) (hb c)) (hd c)⟩

/-- The fields an enqueue leaves alone. -/
theorem enqueue_frame (cast cast1 : ScreenCast) (h : xdpd_pwr_enqueue_buffer cast = some cast1) :
    cast1.frameState = cast.frameState ∧ cast1.avoidDmabufs = cast.avoidDmabufs ∧
      cast1.bufferType = cast.bufferType ∧ cast1.pwrStreamState = cast.pwrStreamState := by
  unfold xdpd_pwr_enqueue_buffer at h
  split at h
  · cases h
    exact ⟨rfl, rfl, rfl, rfl⟩
  · simp only at h
    split at h
    · cases h
    · cases h
      exact ⟨rfl, rfl, rfl, rfl⟩

theorem anonymous_shm_open_calls (f : Nat → shm_open_result) :
    ∀ retries attempt, ∀ c ∈ (anonymous_shm_open f retries attempt).2,
      c = Call.shm_open ∨ c = Call.shm_unlink := by
  intro retries
  induction retries with
  | zero => intro attempt c hc; simp [anonymous_shm_open] at hc
  | succ n ih =>
    intro attempt c hc
    unfold anonymous_shm_open at hc
    split at hc
    · simpa using hc
    · split at hc
      · rcases List.mem_cons.mp hc with rfl | hc
        · exact Or.inl rfl
        · exact ih _ c hc
      · exact Or.inl (by simpa using hc)
    · exact Or.inl (by simpa using hc)

/-- The calls of one `xdpdBufferCreate`: system calls for shared memory; GBM calls and
`close` for a GPU buffer. -/
theorem xdpdBufferCreate_calls (ctx : ScreenCastContext) (world : alloc_world)
    (cast : ScreenCast) (buffer_type : BufferType) (frame_info : ScreenCopyFrameInfo) :
    ∀ c ∈ (xdpdBufferCreate ctx world cast buffer_type frame_info).2,
      c.is_queue = false ∧ (buffer_type = .WL_SHM → c.is_gpu = false) := by
  intro c hc
  cases buffer_type with
  | WL_SHM =>
    have hshm := anonymous_shm_open_calls world.shm_open 100 0
    simp only [xdpdBufferCreate] at hc
    have key : c = Call.shm_open ∨ c = Call.shm_unlink ∨
        (∃ fd size, c = Call.ftruncate fd size) ∨ ∃ fd, c = Call.close fd := by
      repeat' split at hc
      all_goals
        simp only [List.mem_append, List.mem_cons, List.mem_singleton, List.not_mem_nil,
          or_false] at hc
      · rcases hshm c hc with h | h
        · exact Or.inl h
        · exact Or.inr (Or.inl h)
      all_goals
        rcases hc with hc | hc
        · rcases hshm c hc with h | h
          · exact Or.inl h
          · exact Or.inr (Or.inl h)
        · first
          | exact Or.inr (Or.inr (Or.inl ⟨_, _, hc⟩))
          | (rcases hc with hc | hc
             · exact Or.inr (Or.inr (Or.inl ⟨_, _, hc⟩))
             · exact Or.inr (Or.inr (Or.inr ⟨_, hc⟩)))
    rcases key with rfl | rfl | ⟨_, _, rfl⟩ | ⟨_, rfl⟩ <;> exact ⟨rfl, fun _ => rfl⟩
  | DMABUF =>
    refine ⟨?_, fun h => absurd h (by decide)⟩
    simp only [xdpdBufferCreate] at hc
    have key : c.is_gbm_alloc = true ∨ (∃ handle, c = Call.gbm_bo_destroy handle) ∨
        ∃ fd, c = Call.close fd := by
      repeat' split at hc
      all_goals
        simp only [List.mem_append, List.mem_cons, List.mem_singleton, List.not_mem_nil,
          or_false, List.mem_map] at hc
      all_goals
        first
        | (subst hc; exact Or.inl rfl)
        | (rcases hc with rfl | rfl <;> exact Or.inl rfl)
        | (rcases hc with (rfl | rfl) | rfl
           · exact Or.inl rfl
           · exact Or.inl rfl
           · exact Or.inr (Or.inl ⟨_, rfl⟩))
        | (rcases hc with rfl | rfl
           · exact Or.inl rfl
           · exact Or.inr (Or.inl ⟨_, rfl⟩))
        | (rcases hc with ((rfl | rfl) | rfl) | ⟨fd, _, rfl⟩
           · exact Or.inl rfl
           · exact Or.inl rfl
           · exact Or.inr (Or.inl ⟨_, rfl⟩)
           · exact Or.inr (Or.inr ⟨_, rfl⟩))
        | (rcases hc with (rfl | rfl) | ⟨fd, _, rfl⟩
           · exact Or.inl rfl
           · exact Or.inr (Or.inl ⟨_, rfl⟩)
           · exact Or.inr (Or.inr ⟨_, rfl⟩))
    rcases key with h | ⟨_, rfl⟩ | ⟨_, rfl⟩
    · exact is_queue_of_gbm_alloc c h
    · rfl
    · rfl

theorem capture_seq (cast : ScreenCast) :
    (xdpd_wlr_sc_frame_capture cast).seq = cast.seq ∧
      ∃ new, (xdpd_wlr_sc_frame_capture cast).calls = cast.calls ++ new ∧
        ∀ c ∈ new, c.is_queue = false ∧ c.is_gpu = false := by
  unfold xdpd_wlr_sc_frame_capture
  split
  · exact ⟨rfl, new_calls0 _ _⟩
  · split
    · exact ⟨rfl, new_calls0 _ _⟩
    · refine ⟨rfl, new_calls1 _ _ _ ?_⟩
      intro c hc
      rw [List.mem_singleton.mp hc]
      exact ⟨rfl, rfl⟩

theorem frame_capture_seq (ctx : ScreenCastContext) (cast : ScreenCast) :
    (xdpd_wlr_frame_capture ctx cast).seq = cast.seq ∧
      ∃ new, (xdpd_wlr_frame_capture ctx cast).calls = cast.calls ++ new ∧
        ∀ c ∈ new, c.is_queue = false ∧ c.is_gpu = false := by
  unfold xdpd_wlr_frame_capture
  split
  · exact capture_seq cast
  · exact ⟨rfl, new_calls0 _ _⟩

theorem on_process_seq (ctx : ScreenCastContext) (cast : ScreenCast)
    (dequeued : Option pw_buffer)
    (measure_end : fps_limit_state → Nat → fps_limit_state × Nat) :
    (pwr_handle_stream_on_process ctx cast dequeued measure_end).seq = cast.seq ∧
      ∃ new, (pwr_handle_stream_on_process ctx cast dequeued measure_end).calls
          = cast.calls ++ new ∧ ∀ c ∈ new, c.is_queue = false ∧ c.is_gpu = false := by
  have hone : ∀ d : Call, (d.is_queue = false ∧ d.is_gpu = false) →
      ∀ c ∈ [d], c.is_queue = false ∧ c.is_gpu = false := by
    intro d hd c hc
    rw [List.mem_singleton.mp hc]; exact hd
  have hdq : ∀ c : ScreenCast, (xdpd_pwr_dequeue_buffer c dequeued).seq = c.seq ∧
      (xdpd_pwr_dequeue_buffer c dequeued).calls = c.calls ++ [Call.pw_stream_dequeue_buffer] := by
    intro c
    unfold xdpd_pwr_dequeue_buffer
    cases dequeued <;> exact ⟨rfl, rfl⟩
  unfold pwr_handle_stream_on_process
  split
  · exact ⟨rfl, new_calls0 _ _⟩
  · split
    · exact ⟨rfl, new_calls0 _ _⟩
    · simp only
      obtain ⟨hs, hcalls⟩ := hdq cast
      split
      · exact ⟨hs, by rw [hcalls]; exact new_calls1 _ _ _ (hone _ ⟨rfl, rfl⟩)⟩
      · split
        · split
          · refine ⟨hs, ?_⟩
            simp only [hcalls]
            exact new_calls2 _ _ _ _ (hone _ ⟨rfl, rfl⟩) (hone _ ⟨rfl, rfl⟩)
          · obtain ⟨h1, new, h2, h3⟩ := frame_capture_seq ctx
              { xdpd_pwr_dequeue_buffer cast dequeued with
                fps_limit := (measure_end (xdpd_pwr_dequeue_buffer cast dequeued).fps_limit
                  (xdpd_pwr_dequeue_buffer cast dequeued).framerate).1 }
            refine ⟨h1.trans hs, ?_⟩
            rw [h2]
            simp only [hcalls]
            exact new_calls2 _ _ _ _ (hone _ ⟨rfl, rfl⟩) h3
        · obtain ⟨h1, new, h2, h3⟩ := frame_capture_seq ctx (xdpd_pwr_dequeue_buffer cast dequeued)
          refine ⟨h1.trans hs, ?_⟩
          rw [h2, hcalls]
          exact new_calls2 _ _ _ _ (hone _ ⟨rfl, rfl⟩) h3

theorem xdpdBufferDestroy_calls (buffer : XdpdBuffer) :
    ∀ c ∈ xdpdBufferDestroy buffer, c.is_queue = false ∧ c.is_gpu = false := by
  intro c hc
  unfold xdpdBufferDestroy at hc
  simp only [List.mem_append, List.mem_singleton, List.mem_map] at hc
  rcases hc with (rfl | hc) | ⟨fd, _, rfl⟩
  · exact ⟨rfl, rfl⟩
  · split at hc
    · cases hbo : buffer.bo with
      | none => simp [hbo] at hc
      | some bo =>
        simp only [hbo, Option.map_some', Option.toList, List.mem_singleton] at hc
        subst hc
        exact ⟨rfl, rfl⟩
    · exact absurd hc (List.not_mem_nil _)
  · exact ⟨rfl, rfl⟩

theorem remove_buffer_seq (cast : ScreenCast) (buffer : pw_buffer) :
    (pwr_handle_stream_remove_buffer cast buffer).1.seq = cast.seq ∧
      ∃ new, (pwr_handle_stream_remove_buffer cast buffer).1.calls = cast.calls ++ new ∧
        ∀ c ∈ new, c.is_queue = false ∧ c.is_gpu = false := by
  unfold pwr_handle_stream_remove_buffer
  simp only
  cases buffer.user_data with
  | none => split <;> exact ⟨rfl, new_calls0 _ _⟩
  | some x => split <;> exact ⟨rfl, new_calls1 _ _ _ (xdpdBufferDestroy_calls x)⟩

theorem add_buffer_seq (ctx : ScreenCastContext) (world : alloc_world) (cast : ScreenCast)
    (buffer : pw_buffer) (r : ScreenCast × pw_buffer)
    (h : pwr_handle_stream_add_buffer ctx world cast buffer = some r) :
    r.1.seq = cast.seq ∧ r.1.avoidDmabufs = cast.avoidDmabufs ∧
      r.1.bufferType = cast.bufferType ∧
      ∃ new, r.1.calls = cast.calls ++ new ∧
        ∀ c ∈ new, c.is_queue = false ∧ (cast.bufferType = .WL_SHM → c.is_gpu = false) := by
  unfold pwr_handle_stream_add_buffer at h
  simp only at h
  have hc := xdpdBufferCreate_calls ctx world cast cast.bufferType
    (cast.screencopyFrameInfo cast.bufferType)
  repeat' split at h
  all_goals first
    | (exact Option.noConfusion h)
    | (have h2 := Option.some.inj h
       subst h2
       refine ⟨rfl, rfl, rfl, ?_⟩
       first
        | exact new_calls0 _ _
        | exact new_calls1 _ _ _ hc)

theorem weaken_new (P Q : Call → Prop) (hPQ : ∀ c, P c → Q c) {l l1 : List Call}
    (h : ∃ new, l1 = l ++ new ∧ ∀ c ∈ new, P c) : ∃ new, l1 = l ++ new ∧ ∀ c ∈ new, Q c := by
  obtain ⟨new, h1, h2⟩ := h
  exact ⟨new, h1, fun c hc => hPQ c (h2 c hc)⟩

/-- C2 (amended). `xdpd_wlr_sc_frame_capture` does not look at the frame state. For every
session with neither `err` nor `quit` set that is streaming or not initialized, whatever
its frame state, it sets the frame state to Started and issues exactly one capture request
(overlay cursor 0, on the target output); two consecutive calls with no callback in between
issue two capture requests. -/
theorem C2_capture_ignores_frame_state (cast : ScreenCast) (hq : cast.quit = false)
    (he : cast.err = 0) (hs : cast.initialized = false ∨ cast.pwrStreamState = true) :
    xdpd_wlr_sc_frame_capture cast =
      { cast with
        frameState := .XDPD_FRAME_STATE_STARTED
        calls := cast.calls ++ [Call.capture_output 0 cast.target.output] } ∧
    (xdpd_wlr_sc_frame_capture (xdpd_wlr_sc_frame_capture cast)).calls =
      cast.calls ++ [Call.capture_output 0 cast.target.output,
        Call.capture_output 0 cast.target.output] := by
  have h1 : ¬ (cast.quit = true ∨ cast.err ≠ 0) := by simp [hq, he]
  have h2 : ¬ (cast.initialized = true ∧ ¬ cast.pwrStreamState = true) := by
    rcases hs with hs | hs <;> simp [hs]
  have e1 : xdpd_wlr_sc_frame_capture cast =
      { cast with
        frameState := .XDPD_FRAME_STATE_STARTED
        calls := cast.calls ++ [Call.capture_output 0 cast.target.output] } := by
    unfold xdpd_wlr_sc_frame_capture
    rw [if_neg h1, if_neg h2]
  refine ⟨e1, ?_⟩
  rw [e1]
  unfold xdpd_wlr_sc_frame_capture
  rw [if_neg h1, if_neg h2]
  simp

/-- C2 (witness): a streaming session in frame state Started. -/
theorem C2_capture_ignores_frame_state_witness :
    xdpd_wlr_sc_frame_capture { example_cast with frameState := .XDPD_FRAME_STATE_STARTED } =
      { example_cast with
        frameState := .XDPD_FRAME_STATE_STARTED
        calls := [] ++ [Call.capture_output 0 1] } ∧
    (xdpd_wlr_sc_frame_capture (xdpd_wlr_sc_frame_capture
      { example_cast with frameState := .XDPD_FRAME_STATE_STARTED })).calls =
      [] ++ [Call.capture_output 0 1, Call.capture_output 0 1] :=
  C2_capture_ignores_frame_state { example_cast with frameState := .XDPD_FRAME_STATE_STARTED }
    rfl rfl (Or.inr rfl)

/-- C2 (counterexample). On a streaming session whose frame state is Started (not Idle),
a capture call is not a no-op: it issues a capture request, and a second call issues a
second one. -/
theorem C2_counterexample :
    ({ example_cast with frameState := .XDPD_FRAME_STATE_STARTED } : ScreenCast).frameState
      ≠ .XDPD_FRAME_STATE_NONE ∧
    (xdpd_wlr_sc_frame_capture
      { example_cast with frameState := .XDPD_FRAME_STATE_STARTED }).calls
      = [Call.capture_output 0 1] ∧
    (xdpd_wlr_sc_frame_capture (xdpd_wlr_sc_frame_capture
      { example_cast with frameState := .XDPD_FRAME_STATE_STARTED })).calls
      = [Call.capture_output 0 1, Call.capture_output 0 1] :=
  ⟨by decide, rfl, rfl⟩

/-! ## C6: the proposal list -/

theorem build_modifier_list_eq (gbm : gbm_device) (cast : ScreenCast) :
    build_modifier_list gbm cast cast.screencopyFrameInfo_DMABUF.format =
      if cast.formatModifierPairs = [] then (false, [], 0)
      else (true, usable_modifiers gbm cast, (usable_modifiers gbm cast).length) := by
  unfold build_modifier_list wlr_query_dmabuf_modifiers usable_modifiers
  by_cases he : cast.formatModifierPairs = []
  · simp [he]
  · have hne : cast.formatModifierPairs.isEmpty = false := by
      cases hp : cast.formatModifierPairs with
      | nil => exact absurd hp he
      | cons a l => rfl
    simp only [hne, he, if_false, Bool.false_eq_true]
    by_cases h0 : (cast.formatModifierPairs.filter
        (modifier_usable gbm cast.screencopyFrameInfo_DMABUF.format)).length = 0
    · have hnil := List.length_eq_zero.mp h0
      simp [hnil]
    · simp only [if_true, h0, if_false]
      simp [← List.map_take]

theorem shm_proposal_modifier (cast : ScreenCast) : (shm_proposal cast).modifier = none := by
  simp [shm_proposal, build_format, spa_pod.modifier]

theorem dmabuf_proposal_modifier (cast : ScreenCast) (m : Nat) (ms : List Nat) :
    (dmabuf_proposal cast (m :: ms)).modifier =
      some { flags := SPA_POD_PROP_FLAG_MANDATORY ||| SPA_POD_PROP_FLAG_DONT_FIXATE,
             value := .CHOICE_Enum (m :: m :: ms) } := by
  simp [dmabuf_proposal, build_format, spa_pod.modifier, push_modifiers]

/-- C6. `build_formats` returns the GPU-shared proposal followed by the shared-memory
proposal exactly when `avoidDmabufs` is false and at least one entry of
`formatModifierPairs` is usable for the compositor's dma-buf format, and the shared-memory
proposal alone in every other case. The GPU-shared proposal carries the usable modifiers as
a mandatory, not-fixated enumeration (the first one repeated as default); the shared-memory
proposal carries no modifier property. -/
theorem C6_build_formats (gbm : gbm_device) (cast : ScreenCast) :
    (build_formats gbm cast =
      if cast.avoidDmabufs = false ∧ usable_modifiers gbm cast ≠ [] then
        [dmabuf_proposal cast (usable_modifiers gbm cast), shm_proposal cast]
      else [shm_proposal cast]) ∧
    ((build_formats gbm cast).length = 2 ↔
      (cast.avoidDmabufs = false ∧ usable_modifiers gbm cast ≠ [])) ∧
    (shm_proposal cast).modifier = none ∧
    (∀ m ms, usable_modifiers gbm cast = m :: ms →
      (dmabuf_proposal cast (usable_modifiers gbm cast)).modifier =
        some { flags := SPA_POD_PROP_FLAG_MANDATORY ||| SPA_POD_PROP_FLAG_DONT_FIXATE,
               value := .CHOICE_Enum (m :: m :: ms) }) := by
  have main : build_formats gbm cast =
      if cast.avoidDmabufs = false ∧ usable_modifiers gbm cast ≠ [] then
        [dmabuf_proposal cast (usable_modifiers gbm cast), shm_proposal cast]
      else [shm_proposal cast] := by
    unfold build_formats
    simp only [build_modifier_list_eq]
    by_cases he : cast.formatModifierPairs = []
    · have hu : usable_modifiers gbm cast = [] := by simp [usable_modifiers, he]
      simp [he, hu, shm_proposal]
    · simp only [he, if_false]
      by_cases hu : usable_modifiers gbm cast = []
      · simp [hu, shm_proposal]
      · have hpos : 0 < (usable_modifiers gbm cast).length := List.length_pos.mpr hu
        cases ha : cast.avoidDmabufs <;>
          simp [ha, hu, hpos, shm_proposal, dmabuf_proposal]
  refine ⟨main, ?_, shm_proposal_modifier cast, ?_⟩
  · rw [main]
    split <;> simp_all
  · intro m ms h
    rw [h]
    exact dmabuf_proposal_modifier cast m ms

/-! ## C10: the advertised pixel format -/

/-- C10 (amended). For every proposal built by `build_format`: if the format has no usable
alpha channel (`xdpd_format_pw_strip_alpha` gives UNKNOWN) exactly one format id is
advertised; if the format has an alpha channel and the proposal has no modifiers, the
advertised format is the three-way enumerated choice (format, format, alpha-stripped
format); and a proposal with modifiers advertises exactly one format id whatever the
format. -/
theorem C10_build_format_alpha (format : spa_video_format) (width height framerate : Nat)
    (modifiers : List Nat) :
    (xdpd_format_pw_strip_alpha format = .UNKNOWN →
      (build_format format width height framerate modifiers).video_format = some (.Id format)) ∧
    (xdpd_format_pw_strip_alpha format ≠ .UNKNOWN → modifiers = [] →
      (build_format format width height framerate modifiers).video_format =
        some (.CHOICE_ENUM_Id [format, format, xdpd_format_pw_strip_alpha format])) ∧
    (modifiers ≠ [] →
      (build_format format width height framerate modifiers).video_format = some (.Id format)) := by
  refine ⟨?_, ?_, ?_⟩
  · intro h
    simp [build_format, spa_pod.video_format, h]
  · intro h hm
    simp [build_format, spa_pod.video_format, h, hm]
  · intro hm
    have : 0 < modifiers.length := List.length_pos.mpr hm
    simp [build_format, spa_pod.video_format, this]

/-- C10 (counterexample). The GPU-shared proposal built for BGRA, a format with an alpha
channel, with the modifier list [0], advertises the single format id BGRA and not the
three-way choice (BGRA, BGRA, BGRx). -/
theorem C10_counterexample :
    xdpd_format_pw_strip_alpha .BGRA = .BGRx ∧
    (build_format .BGRA 1920 1080 30 [0]).video_format = some (.Id .BGRA) ∧
    (build_format .BGRA 1920 1080 30 [0]).video_format ≠
      some (.CHOICE_ENUM_Id [.BGRA, .BGRA, .BGRx]) :=
  ⟨rfl, rfl, by decide⟩

/-! ## C7 and C9: fixation of an offered modifier list -/

theorem try_old_api_fail (ctx : ScreenCastContext) (info : ScreenCopyFrameInfo)
    (hold : ∀ flags, ctx.gbm.gbm_bo_create info.width info.height info.format flags = none)
    (modifiers : List Nat) : (try_old_api ctx info modifiers).2 = none := by
  induction modifiers with
  | nil => rfl
  | cons m rest ih =>
    unfold try_old_api
    split
    · simp only [hold]
      exact ih
    · exact ih

theorem allocate_offered_fail (ctx : ScreenCastContext) (info : ScreenCopyFrameInfo)
    (modifiers : List Nat)
    (hcomb : ∀ flags, ctx.gbm.gbm_bo_create_with_modifiers2 info.width info.height info.format
      modifiers flags = none)
    (hold : ∀ flags, ctx.gbm.gbm_bo_create info.width info.height info.format flags = none) :
    (allocate_offered ctx info modifiers).2 = none := by
  unfold allocate_offered
  simp only [hcomb]
  exact try_old_api_fail ctx info hold modifiers

/-- C7. When the transport's chosen format carries a modifier list that is not fixated yet
and every GPU allocation attempt fails (the attempt with the whole list and every
`gbm_bo_create`), the param-changed handler returns with `avoidDmabufs` set, having made
only allocation attempts followed by one `pw_stream_update_params` whose list is the
shared-memory proposal alone (a format object without modifier property); no buffer
parameters are published. -/
theorem C7_all_gpu_attempts_fail (ctx : ScreenCastContext) (cast : ScreenCast)
    (param : format_param) (prop : modifier_prop) (dflt : Nat) (modifiers : List Nat)
    (hdenom : param.info.max_framerate.denom ≠ 0)
    (hprop : param.prop_modifier = some prop)
    (hflag : (prop.flags &&& SPA_POD_PROP_FLAG_DONT_FIXATE) > 0)
    (hval : prop.value = .CHOICE_Enum (dflt :: modifiers))
    (hcomb : ∀ flags, ctx.gbm.gbm_bo_create_with_modifiers2
      cast.screencopyFrameInfo_DMABUF.width cast.screencopyFrameInfo_DMABUF.height
      cast.screencopyFrameInfo_DMABUF.format modifiers flags = none)
    (hold : ∀ flags, ctx.gbm.gbm_bo_create
      cast.screencopyFrameInfo_DMABUF.width cast.screencopyFrameInfo_DMABUF.height
      cast.screencopyFrameInfo_DMABUF.format flags = none) :
    ∃ cast1 attempts,
      pwr_handle_stream_param_changed ctx cast SPA_PARAM_Format (some param) = some cast1 ∧
      cast1.avoidDmabufs = true ∧
      cast1.calls = cast.calls ++ attempts ++
        [Call.pw_stream_update_params [shm_proposal cast1]] ∧
      (∀ c ∈ attempts, c.is_gbm_alloc = true) ∧
      (shm_proposal cast1).modifier = none ∧
      (shm_proposal cast1).has_modifier = false := by
  have hfail := allocate_offered_fail ctx cast.screencopyFrameInfo_DMABUF modifiers hcomb hold
  simp only [pwr_handle_stream_param_changed, ne_eq, not_true_eq_false, if_false, hdenom,
    hprop, hflag, if_true, hval, ScreenCast.screencopyFrameInfo, hfail]
  refine ⟨_, (allocate_offered ctx cast.screencopyFrameInfo_DMABUF modifiers).1, rfl, rfl, ?_,
    allocate_offered_calls ctx _ _, shm_proposal_modifier _, ?_⟩
  · simp only [build_formats, Bool.not_true, Bool.false_and, Bool.false_eq_true, if_false,
      shm_proposal]
  · simp [shm_proposal, build_format, spa_pod.has_modifier]

/-- C7 (witness): the offered modifiers are linear and invalid, on a device where no
allocation succeeds. -/
theorem C7_all_gpu_attempts_fail_witness :
    ∃ cast1 attempts,
      pwr_handle_stream_param_changed (example_ctx failing_gbm) example_cast SPA_PARAM_Format
        (some (offered_param [0, 0, 72057594037927935])) = some cast1 ∧
      cast1.avoidDmabufs = true ∧
      cast1.calls = example_cast.calls ++ attempts ++
        [Call.pw_stream_update_params [shm_proposal cast1]] ∧
      (∀ c ∈ attempts, c.is_gbm_alloc = true) ∧
      (shm_proposal cast1).modifier = none ∧
      (shm_proposal cast1).has_modifier = false :=
  C7_all_gpu_attempts_fail (example_ctx failing_gbm) example_cast
    (offered_param [0, 0, 72057594037927935])
    { flags := SPA_POD_PROP_FLAG_MANDATORY ||| SPA_POD_PROP_FLAG_DONT_FIXATE,
      value := .CHOICE_Enum [0, 0, 72057594037927935] }
    0 [0, 72057594037927935] (by decide) rfl (by decide) rfl (fun _ => rfl) (fun _ => rfl)

/-- C9. The transport offers a modifier list that is not fixated yet, with three values
`m1`, `m2`, `m3` after the default. The GBM device allocates with a modifier list exactly
when the list holds an allocatable modifier, and then returns a buffer object whose
modifier is an allocatable member of the list; only `m3` is allocatable. Then the handler
publishes one parameter list, which starts with the proposal `fixate_format` builds for
`m3`: its modifier property is the single value `m3`, flagged mandatory and not flagged
not-fixated. -/
theorem C9_third_modifier_fixated (ctx : ScreenCastContext) (cast : ScreenCast)
    (param : format_param) (prop : modifier_prop) (dflt m1 m2 m3 : Nat)
    (allocatable : Nat → Prop)
    (hdenom : param.info.max_framerate.denom ≠ 0)
    (hprop : param.prop_modifier = some prop)
    (hflag : (prop.flags &&& SPA_POD_PROP_FLAG_DONT_FIXATE) > 0)
    (hval : prop.value = .CHOICE_Enum [dflt, m1, m2, m3])
    (hsome : ∀ w h f mods flags bo,
      ctx.gbm.gbm_bo_create_with_modifiers2 w h f mods flags = some bo →
        bo.modifier ∈ mods ∧ allocatable bo.modifier)
    (hnone : ∀ w h f mods flags,
      ctx.gbm.gbm_bo_create_with_modifiers2 w h f mods flags = none →
        ∀ m ∈ mods, ¬ allocatable m)
    (h1 : ¬ allocatable m1) (h2 : ¬ allocatable m2) (h3 : allocatable m3) :
    ∃ (cast1 : ScreenCast) (bo : gbm_bo) (rest : List spa_pod),
      pwr_handle_stream_param_changed ctx cast SPA_PARAM_Format (some param) = some cast1 ∧
      cast1.avoidDmabufs = cast.avoidDmabufs ∧
      bo.modifier = m3 ∧
      cast1.calls = cast.calls ++
        [Call.gbm_bo_create_with_modifiers2 cast.screencopyFrameInfo_DMABUF.width
            cast.screencopyFrameInfo_DMABUF.height cast.screencopyFrameInfo_DMABUF.format
            [m1, m2, m3] GBM_BO_USE_RENDERING,
          Call.gbm_bo_destroy bo.handle,
          Call.pw_stream_update_params
            (fixate_format
              (xdpd_format_pw_from_drm_fourcc cast.screencopyFrameInfo_DMABUF.format)
              cast.screencopyFrameInfo_DMABUF.width cast.screencopyFrameInfo_DMABUF.height
              cast1.framerate (some m3) :: rest)] ∧
      (fixate_format
          (xdpd_format_pw_from_drm_fourcc cast.screencopyFrameInfo_DMABUF.format)
          cast.screencopyFrameInfo_DMABUF.width cast.screencopyFrameInfo_DMABUF.height
          cast1.framerate (some m3)).modifier =
        some { flags := SPA_POD_PROP_FLAG_MANDATORY, value := .Long m3 } ∧
      SPA_POD_PROP_FLAG_MANDATORY &&& SPA_POD_PROP_FLAG_DONT_FIXATE = 0 := by
  cases hg : ctx.gbm.gbm_bo_create_with_modifiers2 cast.screencopyFrameInfo_DMABUF.width
      cast.screencopyFrameInfo_DMABUF.height cast.screencopyFrameInfo_DMABUF.format
      [m1, m2, m3] GBM_BO_USE_RENDERING with
  | none =>
    exact absurd h3 (hnone _ _ _ _ _ hg m3 (by simp))
  | some bo =>
    obtain ⟨hmem, halloc⟩ := hsome _ _ _ _ _ bo hg
    have hm3 : bo.modifier = m3 := by
      simp only [List.mem_cons, List.mem_singleton, List.not_mem_nil, or_false] at hmem
      rcases hmem with h | h | h
      · exact absurd (h ▸ halloc) h1
      · exact absurd (h ▸ halloc) h2
      · exact h
    simp only [pwr_handle_stream_param_changed, ne_eq, not_true_eq_false, if_false, hdenom,
      hprop, hflag, if_true, hval, ScreenCast.screencopyFrameInfo, allocate_offered, hg,
      fixate_params, hm3]
    generalize build_formats ctx.gbm _ = bf
    refine ⟨_, bo, bf, rfl, rfl, hm3, ?_, ?_, by decide⟩
    · simp only [List.append_assoc, List.singleton_append, List.cons_append, List.nil_append]
    · simp [fixate_format, spa_pod.modifier]

/-- C9 (witness): the offered modifiers are 5, 6 and 7 on a device that allocates with
modifier 7 only. -/
theorem C9_third_modifier_fixated_witness :
    ∃ (cast1 : ScreenCast) (bo : gbm_bo) (rest : List spa_pod),
      pwr_handle_stream_param_changed (example_ctx gbm_only_7) example_cast SPA_PARAM_Format
        (some (offered_param [5, 5, 6, 7])) = some cast1 ∧
      cast1.avoidDmabufs = example_cast.avoidDmabufs ∧
      bo.modifier = 7 ∧
      cast1.calls = example_cast.calls ++
        [Call.gbm_bo_create_with_modifiers2 example_cast.screencopyFrameInfo_DMABUF.width
            example_cast.screencopyFrameInfo_DMABUF.height
            example_cast.screencopyFrameInfo_DMABUF.format
            [5, 6, 7] GBM_BO_USE_RENDERING,
          Call.gbm_bo_destroy bo.handle,
          Call.pw_stream_update_params
            (fixate_format
              (xdpd_format_pw_from_drm_fourcc example_cast.screencopyFrameInfo_DMABUF.format)
              example_cast.screencopyFrameInfo_DMABUF.width
              example_cast.screencopyFrameInfo_DMABUF.height
              cast1.framerate (some 7) :: rest)] ∧
      (fixate_format
          (xdpd_format_pw_from_drm_fourcc example_cast.screencopyFrameInfo_DMABUF.format)
          example_cast.screencopyFrameInfo_DMABUF.width
          example_cast.screencopyFrameInfo_DMABUF.height
          cast1.framerate (some 7)).modifier =
        some { flags := SPA_POD_PROP_FLAG_MANDATORY, value := .Long 7 } ∧
      SPA_POD_PROP_FLAG_MANDATORY &&& SPA_POD_PROP_FLAG_DONT_FIXATE = 0 :=
  C9_third_modifier_fixated (example_ctx gbm_only_7) example_cast (offered_param [5, 5, 6, 7])
    { flags := SPA_POD_PROP_FLAG_MANDATORY ||| SPA_POD_PROP_FLAG_DONT_FIXATE,
      value := .CHOICE_Enum [5, 5, 6, 7] }
    5 5 6 7 (fun m => m = 7) (by decide) rfl (by decide) rfl
    (by
      intro w h f mods flags bo hbo
      simp only [example_ctx, gbm_only_7] at hbo
      split at hbo
      · cases hbo
        rename_i hm
        exact ⟨hm, rfl⟩
      · cases hbo)
    (by
      intro w h f mods flags hnone m hm
      simp only [example_ctx, gbm_only_7] at hnone
      split at hnone
      · cases hnone
      · rename_i h7
        intro h
        exact h7 (h ▸ hm))
    (by decide) (by decide) rfl

/-! ## C8: the degradation to shared memory -/

theorem build_formats_avoid (gbm : gbm_device) (cast : ScreenCast)
    (h : cast.avoidDmabufs = true) : build_formats gbm cast = [shm_proposal cast] := by
  simp [build_formats, h, shm_proposal]

theorem shm_proposal_has_modifier (cast : ScreenCast) :
    (shm_proposal cast).has_modifier = false := by
  simp [shm_proposal, build_format, spa_pod.has_modifier]

theorem enqueue_gpu (cast cast1 : ScreenCast) (h : xdpd_pwr_enqueue_buffer cast = some cast1) :
    ∃ new, cast1.calls = cast.calls ++ new ∧ ∀ c ∈ new, c.is_gpu = false := by
  unfold xdpd_pwr_enqueue_buffer at h
  split at h
  · cases h
    exact new_calls0 _ _
  · simp only at h
    split at h
    · cases h
    · cases h
      refine new_calls1 _ _ _ ?_
      intro c hc
      rw [List.mem_singleton.mp hc]; rfl

theorem capture_flags (cast : ScreenCast) :
    (xdpd_wlr_sc_frame_capture cast).avoidDmabufs = cast.avoidDmabufs ∧
      (xdpd_wlr_sc_frame_capture cast).bufferType = cast.bufferType := by
  unfold xdpd_wlr_sc_frame_capture
  split
  · exact ⟨rfl, rfl⟩
  · split <;> exact ⟨rfl, rfl⟩

theorem frame_capture_flags (ctx : ScreenCastContext) (cast : ScreenCast) :
    (xdpd_wlr_frame_capture ctx cast).avoidDmabufs = cast.avoidDmabufs ∧
      (xdpd_wlr_frame_capture ctx cast).bufferType = cast.bufferType := by
  unfold xdpd_wlr_frame_capture
  split
  · exact capture_flags cast
  · exact ⟨rfl, rfl⟩

theorem on_process_flags (ctx : ScreenCastContext) (cast : ScreenCast)
    (dequeued : Option pw_buffer)
    (measure_end : fps_limit_state → Nat → fps_limit_state × Nat) :
    (pwr_handle_stream_on_process ctx cast dequeued measure_end).avoidDmabufs
        = cast.avoidDmabufs ∧
      (pwr_handle_stream_on_process ctx cast dequeued measure_end).bufferType
        = cast.bufferType := by
  have hdq : (xdpd_pwr_dequeue_buffer cast dequeued).avoidDmabufs = cast.avoidDmabufs ∧
      (xdpd_pwr_dequeue_buffer cast dequeued).bufferType = cast.bufferType := by
    unfold xdpd_pwr_dequeue_buffer
    cases dequeued <;> exact ⟨rfl, rfl⟩
  unfold pwr_handle_stream_on_process
  split
  · exact ⟨rfl, rfl⟩
  · split
    · exact ⟨rfl, rfl⟩
    · simp only
      split
      · exact hdq
      · split
        · split
          · exact hdq
          · obtain ⟨h1, h2⟩ := frame_capture_flags ctx
              { xdpd_pwr_dequeue_buffer cast dequeued with
                fps_limit := (measure_end (xdpd_pwr_dequeue_buffer cast dequeued).fps_limit
                  (xdpd_pwr_dequeue_buffer cast dequeued).framerate).1 }
            exact ⟨h1.trans hdq.1, h2.trans hdq.2⟩
        · obtain ⟨h1, h2⟩ := frame_capture_flags ctx (xdpd_pwr_dequeue_buffer cast dequeued)
          exact ⟨h1.trans hdq.1, h2.trans hdq.2⟩

theorem remove_buffer_flags (cast : ScreenCast) (buffer : pw_buffer) :
    (pwr_handle_stream_remove_buffer cast buffer).1.avoidDmabufs = cast.avoidDmabufs ∧
      (pwr_handle_stream_remove_buffer cast buffer).1.bufferType = cast.bufferType := by
  unfold pwr_handle_stream_remove_buffer
  simp only
  cases buffer.user_data <;> split <;> exact ⟨rfl, rfl⟩

/-- The param-changed handler never clears `avoidDmabufs`. -/
theorem param_changed_avoid (ctx : ScreenCastContext) (cast cast1 : ScreenCast) (id : Nat)
    (param : Option format_param) (ha : cast.avoidDmabufs = true)
    (h : pwr_handle_stream_param_changed ctx cast id param = some cast1) :
    cast1.avoidDmabufs = true := by
  unfold pwr_handle_stream_param_changed at h
  simp only at h
  repeat' split at h
  all_goals first
    | (exact Option.noConfusion h)
    | (have h2 := Option.some.inj h
       subst h2
       first | exact ha | rfl)

/-- The param-changed handler on a format without modifier property. -/
theorem param_changed_no_modifier (ctx : ScreenCastContext) (cast cast1 : ScreenCast)
    (id : Nat) (param : Option format_param)
    (hp : (Event.param_changed id param).no_modifier)
    (hb : cast.bufferType = .WL_SHM)
    (h : pwr_handle_stream_param_changed ctx cast id param = some cast1) :
    cast1.bufferType = .WL_SHM ∧
      ∃ new, cast1.calls = cast.calls ++ new ∧ ∀ c ∈ new, c.is_gpu = false := by
  cases param with
  | none =>
    simp only [pwr_handle_stream_param_changed, Option.some.injEq] at h
    subst h
    exact ⟨hb, new_calls0 _ _⟩
  | some p =>
    have hp2 : p.prop_modifier = none := hp
    simp only [pwr_handle_stream_param_changed, hp2] at h
    split at h
    · cases h
      exact ⟨hb, new_calls0 _ _⟩
    · split at h
      · cases h
      · cases h
        refine ⟨rfl, new_calls1 _ _ _ ?_⟩
        intro c hc
        rw [List.mem_singleton.mp hc]
        simp [Call.is_gpu, buffer_params, build_buffer, spa_pod.has_modifier]

/-- No handler invocation clears `avoidDmabufs`. -/
theorem handle_avoid (ctx : ScreenCastContext) (cast cast1 : ScreenCast) (e : Event)
    (ha : cast.avoidDmabufs = true) (h : handle ctx cast e = some cast1) :
    cast1.avoidDmabufs = true := by
  cases e with
  | param_changed id param => exact param_changed_avoid ctx cast cast1 id param ha h
  | add_buffer buffer world =>
    simp only [handle, Option.map_eq_some'] at h
    obtain ⟨r, hr, rfl⟩ := h
    obtain ⟨_, h2, _⟩ := add_buffer_seq ctx world cast buffer r hr
    exact h2.trans ha
  | remove_buffer buffer =>
    simp only [handle, Option.some.injEq] at h
    subst h
    exact (remove_buffer_flags cast buffer).1.trans ha
  | on_process dequeued measure_end =>
    simp only [handle, Option.some.injEq] at h
    subst h
    exact (on_process_flags ctx cast dequeued measure_end).1.trans ha
  | timer =>
    simp only [handle, Option.some.injEq] at h
    subst h
    exact (frame_capture_flags ctx cast).1.trans ha
  | state_changed old state =>
    simp only [handle, pwr_handle_stream_state_changed] at h
    split at h
    · cases h; exact ha
    · split at h
      · simp only [Option.map_eq_some'] at h
        obtain ⟨c, hc, rfl⟩ := h
        exact (enqueue_frame cast c hc).2.1.trans ha
      · cases h; exact ha
    · cases h; exact ha
  | frame_finish =>
    simp only [handle, frame_finish] at h
    split at h
    · cases h; exact ha
    · split at h
      · cases h; exact ha
      · by_cases hR : cast.frameState = .XDPD_FRAME_STATE_RENEG
        · simp only [hR, if_true, pwr_update_stream_param, reduceCtorEq, if_false] at h
          cases h
          exact ha
        · simp only [hR, if_false] at h
          by_cases hF : cast.frameState = .XDPD_FRAME_STATE_FAILED
          · simp only [hF, if_true] at h
            cases he : xdpd_pwr_enqueue_buffer cast with
            | none => simp [he] at h
            | some c =>
              have hfs : c.frameState = cast.frameState := (enqueue_frame cast c he).1
              simp only [he, hfs, hF, reduceCtorEq, if_false, Option.some.injEq] at h
              subst h
              exact (enqueue_frame cast c he).2.1.trans ha
          · simp only [hF, if_false] at h
            split at h
            · exact (enqueue_frame cast cast1 h).2.1.trans ha
            · cases h; exact ha
  | enqueue => exact (enqueue_frame cast cast1 h).2.1.trans ha
  | frame_buffer format width height stride => cases h; exact ha
  | frame_flags flags => cases h; exact ha
  | frame_ready => cases h; exact ha
  | frame_failed => cases h; exact ha
  | frame_damage x y width height => cases h; exact ha
  | frame_linux_dmabuf format width height => cases h; exact ha
  | frame_buffer_done => cases h; exact ha

/-- With `avoidDmabufs` set and shared memory negotiated, a handler invocation that is not
a param-changed call with a modifier-carrying format keeps shared memory negotiated and
makes no GPU call. -/
theorem handle_gpu (ctx : ScreenCastContext) (cast cast1 : ScreenCast) (e : Event)
    (ha : cast.avoidDmabufs = true) (hb : cast.bufferType = .WL_SHM) (he : e.no_modifier)
    (h : handle ctx cast e = some cast1) :
    cast1.bufferType = .WL_SHM ∧
      ∃ new, cast1.calls = cast.calls ++ new ∧ ∀ c ∈ new, c.is_gpu = false := by
  have triv : ∀ c1 : ScreenCast, c1.bufferType = cast.bufferType → c1.calls = cast.calls →
      c1.bufferType = .WL_SHM ∧
        ∃ new, c1.calls = cast.calls ++ new ∧ ∀ c ∈ new, c.is_gpu = false :=
    fun c1 h1 h2 => ⟨h1.trans hb, ⟨[], by rw [h2, List.append_nil], by simp⟩⟩
  have enq : ∀ c1 : ScreenCast, xdpd_pwr_enqueue_buffer cast = some c1 →
      c1.bufferType = .WL_SHM ∧
        ∃ new, c1.calls = cast.calls ++ new ∧ ∀ c ∈ new, c.is_gpu = false :=
    fun c1 h1 => ⟨(enqueue_frame cast c1 h1).2.2.1.trans hb, enqueue_gpu cast c1 h1⟩
  cases e with
  | param_changed id param => exact param_changed_no_modifier ctx cast cast1 id param he hb h
  | add_buffer buffer world =>
    simp only [handle, Option.map_eq_some'] at h
    obtain ⟨r, hr, rfl⟩ := h
    obtain ⟨_, _, h3, h4⟩ := add_buffer_seq ctx world cast buffer r hr
    exact ⟨h3.trans hb, weaken_new _ _ (fun c hc => hc.2 hb) h4⟩
  | remove_buffer buffer =>
    simp only [handle, Option.some.injEq] at h
    subst h
    exact ⟨(remove_buffer_flags cast buffer).2.trans hb,
      weaken_new _ _ (fun c hc => hc.2) (remove_buffer_seq cast buffer).2⟩
  | on_process dequeued measure_end =>
    simp only [handle, Option.some.injEq] at h
    subst h
    exact ⟨(on_process_flags ctx cast dequeued measure_end).2.trans hb,
      weaken_new _ _ (fun c hc => hc.2) (on_process_seq ctx cast dequeued measure_end).2⟩
  | timer =>
    simp only [handle, Option.some.injEq] at h
    subst h
    exact ⟨(frame_capture_flags ctx cast).2.trans hb,
      weaken_new _ _ (fun c hc => hc.2) (frame_capture_seq ctx cast).2⟩
  | state_changed old state =>
    simp only [handle, pwr_handle_stream_state_changed] at h
    split at h
    · cases h; exact triv _ rfl rfl
    · split at h
      · simp only [Option.map_eq_some'] at h
        obtain ⟨c, hc, rfl⟩ := h
        exact enq c hc
      · cases h; exact triv _ rfl rfl
    · cases h; exact triv _ rfl rfl
  | frame_finish =>
    simp only [handle, frame_finish] at h
    split at h
    · cases h; exact triv _ rfl rfl
    · split at h
      · cases h; exact triv _ rfl rfl
      · by_cases hR : cast.frameState = .XDPD_FRAME_STATE_RENEG
        · simp only [hR, if_true, pwr_update_stream_param, reduceCtorEq, if_false] at h
          cases h
          refine ⟨hb, new_calls1 _ _ _ ?_⟩
          intro c hc
          rw [List.mem_singleton.mp hc]
          simp [Call.is_gpu, build_formats_avoid ctx.gbm cast ha, shm_proposal_has_modifier]
        · simp only [hR, if_false] at h
          by_cases hF : cast.frameState = .XDPD_FRAME_STATE_FAILED
          · simp only [hF, if_true] at h
            cases he : xdpd_pwr_enqueue_buffer cast with
            | none => simp [he] at h
            | some c =>
              have hfs : c.frameState = cast.frameState := (enqueue_frame cast c he).1
              simp only [he, hfs, hF, reduceCtorEq, if_false, Option.some.injEq] at h
              subst h
              exact enq c he
          · simp only [hF, if_false] at h
            split at h
            · exact enq cast1 h
            · cases h; exact triv _ rfl rfl
  | enqueue => exact enq cast1 h
  | frame_buffer format width height stride => cases h; exact triv _ rfl rfl
  | frame_flags flags => cases h; exact triv _ rfl rfl
  | frame_ready => cases h; exact triv _ rfl rfl
  | frame_failed => cases h; exact triv _ rfl rfl
  | frame_damage x y width height => cases h; exact triv _ rfl rfl
  | frame_linux_dmabuf format width height => cases h; exact triv _ rfl rfl
  | frame_buffer_done => cases h; exact triv _ rfl rfl

theorem run_avoid (ctx : ScreenCastContext) (events : List Event) :
    ∀ cast cast1, cast.avoidDmabufs = true → run ctx cast events = some cast1 →
      cast1.avoidDmabufs = true := by
  induction events with
  | nil =>
    intro cast cast1 ha h
    simp only [run, Option.some.injEq] at h
    subst h; exact ha
  | cons e es ih =>
    intro cast cast1 ha h
    simp only [run] at h
    cases hh : handle ctx cast e with
    | none => simp [hh] at h
    | some c =>
      simp only [hh] at h
      exact ih c cast1 (handle_avoid ctx cast c e ha hh) h

theorem run_gpu (ctx : ScreenCastContext) (events : List Event) :
    ∀ cast cast1, cast.avoidDmabufs = true → cast.bufferType = .WL_SHM →
      (∀ e ∈ events, e.no_modifier) → run ctx cast events = some cast1 →
      cast1.bufferType = .WL_SHM ∧
        ∃ new, cast1.calls = cast.calls ++ new ∧ ∀ c ∈ new, c.is_gpu = false := by
  induction events with
  | nil =>
    intro cast cast1 _ hb _ h
    simp only [run, Option.some.injEq] at h
    subst h
    exact ⟨hb, new_calls0 _ _⟩
  | cons e es ih =>
    intro cast cast1 ha hb hev h
    simp only [run] at h
    cases hh : handle ctx cast e with
    | none => simp [hh] at h
    | some c =>
      simp only [hh] at h
      obtain ⟨hb1, new1, hc1, hn1⟩ :=
        handle_gpu ctx cast c e ha hb (hev e (List.mem_cons_self _ _)) hh
      obtain ⟨hb2, new2, hc2, hn2⟩ := ih c cast1 (handle_avoid ctx cast c e ha hh) hb1
        (fun e2 he2 => hev e2 (List.mem_cons_of_mem _ he2)) h
      refine ⟨hb2, new1 ++ new2, by rw [hc2, hc1, List.append_assoc], ?_⟩
      intro x hx
      rcases List.mem_append.mp hx with hx | hx
      · exact hn1 x hx
      · exact hn2 x hx

/-- C8 (amended). From any session state in which `avoidDmabufs` is set, after any run of
handler invocations (param-changed, buffer-pool add and remove, on-process and its timer,
stream state changes, capture callbacks, frame finish, enqueue): the flag is still set and
`build_formats` offers the shared-memory proposal alone. If moreover shared memory is the
negotiated buffer type and no param-changed invocation of the run receives a format that
carries a modifier property, shared memory stays negotiated and none of the calls made
during the run attempts a GPU buffer allocation or publishes a GPU-shared proposal. -/
theorem C8_degradation_one_way (ctx : ScreenCastContext) (cast cast1 : ScreenCast)
    (events : List Event) (ha : cast.avoidDmabufs = true)
    (h : run ctx cast events = some cast1) :
    cast1.avoidDmabufs = true ∧
    build_formats ctx.gbm cast1 = [shm_proposal cast1] ∧
    (shm_proposal cast1).has_modifier = false ∧
    (cast.bufferType = .WL_SHM → (∀ e ∈ events, e.no_modifier) →
      cast1.bufferType = .WL_SHM ∧
        ∃ new, cast1.calls = cast.calls ++ new ∧ ∀ c ∈ new, c.is_gpu = false) := by
  have ha1 := run_avoid ctx events cast cast1 ha h
  exact ⟨ha1, build_formats_avoid ctx.gbm cast1 ha1, shm_proposal_has_modifier cast1,
    fun hb hev => run_gpu ctx events cast cast1 ha hb hev h⟩

/-- C8 (witness): the run `degraded_run` on the degraded example session. -/
theorem C8_degradation_one_way_witness :
    ∃ cast1,
      run (example_ctx gbm_only_7) degraded_cast degraded_run = some cast1 ∧
      cast1.avoidDmabufs = true ∧
      build_formats (example_ctx gbm_only_7).gbm cast1 = [shm_proposal cast1] ∧
      (shm_proposal cast1).has_modifier = false ∧
      cast1.bufferType = .WL_SHM ∧
      ∃ new, cast1.calls = degraded_cast.calls ++ new ∧ ∀ c ∈ new, c.is_gpu = false := by
  have h := C8_degradation_one_way (example_ctx gbm_only_7) degraded_cast _ degraded_run rfl rfl
  exact ⟨_, rfl, h.1, h.2.1, h.2.2.1,
    h.2.2.2 rfl (by
      intro e he
      simp only [degraded_run, List.mem_cons, List.mem_singleton, List.not_mem_nil,
        or_false] at he
      rcases he with rfl | rfl | rfl | rfl | rfl | rfl | rfl | rfl <;> trivial)⟩

/-- C8 (counterexample). On a device where no allocation succeeds, the param-changed
handler sets `avoidDmabufs` on receiving an offered modifier list; a second param-changed
invocation with the same format, in that degraded state, attempts GPU allocations again,
and so does a buffer-pool add (the negotiated buffer type is still `DMABUF`). On a device
that allocates with modifier 7, a param-changed invocation in a degraded state publishes a
proposal carrying the modifier 7. -/
theorem C8_counterexample :
    (∃ c1 c2 c3 new2 new3,
      handle (example_ctx failing_gbm) example_cast
        (.param_changed SPA_PARAM_Format (some (offered_param [0, 0, 72057594037927935])))
        = some c1 ∧
      c1.avoidDmabufs = true ∧
      handle (example_ctx failing_gbm) c1
        (.param_changed SPA_PARAM_Format (some (offered_param [0, 0, 72057594037927935])))
        = some c2 ∧
      c2.calls = c1.calls ++ new2 ∧ new2.any Call.is_gbm_alloc = true ∧
      handle (example_ctx failing_gbm) c1
        (.add_buffer dmabuf_buffer example_world) = some c3 ∧
      c3.calls = c1.calls ++ new3 ∧ new3.any Call.is_gbm_alloc = true) ∧
    (∃ c1 new,
      handle (example_ctx gbm_only_7) degraded_cast
        (.param_changed SPA_PARAM_Format (some (offered_param [7, 7]))) = some c1 ∧
      c1.calls = degraded_cast.calls ++ new ∧ new.any Call.is_gpu = true ∧
      c1.calls.getLast? = some (Call.pw_stream_update_params
        [fixate_format .BGRA 1920 1080 30 (some 7), shm_proposal c1])) :=
  ⟨⟨_, _, _, _, _, rfl, rfl, rfl, rfl, rfl, rfl, rfl, rfl⟩, ⟨_, _, rfl, rfl, rfl, rfl⟩⟩

/-! ## Double-precision arithmetic: lemmas -/

/-- Zero has no binary digit. -/
theorem bit_length_steps_zero (fuel : Nat) : bit_length_steps fuel 0 = 0 := by
  cases fuel <;> simp [bit_length_steps]

/-- With enough halvings, `n` lies below 2 to the number of its digits and, when positive,
at or above 2 to that number less one. -/
theorem bit_length_steps_spec (fuel : Nat) : ∀ n, n ≤ fuel →
    n < 2 ^ bit_length_steps fuel n ∧ (0 < n → 2 ^ (bit_length_steps fuel n - 1) ≤ n) := by
  induction fuel with
  | zero =>
    intro n h
    have h0 : n = 0 := by omega
    subst h0
    simp [bit_length_steps]
  | succ fuel ih =>
    intro n h
    by_cases hn : n = 0
    · subst hn
      simp [bit_length_steps]
    · have hstep : bit_length_steps (fuel + 1) n = bit_length_steps fuel (n / 2) + 1 := by
        simp [bit_length_steps, hn]
      rw [hstep]
      obtain ⟨h1, h2⟩ := ih (n / 2) (by omega)
      constructor
      · rw [pow_succ]
        omega
      · intro _
        simp only [Nat.add_sub_cancel]
        by_cases h0 : n / 2 = 0
        · rw [h0, bit_length_steps_zero]
          simp
          omega
        · have h3 := h2 (by omega)
          cases hs : bit_length_steps fuel (n / 2) with
          | zero =>
            rw [hs] at h1
            simp at h1
            omega
          | succ s =>
            rw [hs] at h3
            simp only [Nat.add_sub_cancel] at h3
            rw [pow_succ]
            omega

/-- A positive `n` with `b` binary digits satisfies `2 ^ (b - 1) <= n < 2 ^ b`. -/
theorem bit_length_spec (n : Nat) (hn : 0 < n) :
    2 ^ (bit_length n - 1) ≤ n ∧ n < 2 ^ bit_length n ∧ 0 < bit_length n := by
  obtain ⟨h1, h2⟩ := bit_length_steps_spec n n (le_refl n)
  refine ⟨h2 hn, h1, ?_⟩
  by_contra hc
  have h0 : bit_length_steps n n = 0 := by
    unfold bit_length at hc
    omega
  rw [h0] at h1
  simp at h1
  omega

/-- A power of two with an integer exponent, as a quotient of two natural powers. -/
theorem two_zpow_split (e : Int) :
    (2 : ℚ) ^ e = ((2 ^ e.toNat : Nat) : ℚ) / ((2 ^ (-e).toNat : Nat) : ℚ) := by
  cases e with
  | ofNat k =>
    cases k with
    | zero => simp
    | succ k =>
      have h1 : (Int.ofNat (k + 1)).toNat = k + 1 := rfl
      have h2 : (-(Int.ofNat (k + 1))).toNat = 0 := rfl
      rw [h1, h2]
      simp
      norm_cast
  | negSucc k =>
    have h1 : (Int.negSucc k).toNat = 0 := rfl
    have h2 : (-(Int.negSucc k)).toNat = k + 1 := rfl
    rw [h1, h2]
    simp [zpow_negSucc]

/-- The exponent of a positive quotient: `2 ^ e <= n / d < 2 ^ (e + 1)`. -/
theorem floor_log2_spec (n d : Nat) (hn : 0 < n) (hd : 0 < d) :
    (2 : ℚ) ^ floor_log2 n d ≤ (n : ℚ) / d ∧ (n : ℚ) / d < (2 : ℚ) ^ (floor_log2 n d + 1) := by
  obtain ⟨ha1, ha2, ha3⟩ := bit_length_spec n hn
  obtain ⟨hb1, hb2, hb3⟩ := bit_length_spec d hd
  have hdq : (0 : ℚ) < d := by exact_mod_cast hd
  have hnq : (0 : ℚ) < n := by exact_mod_cast hn
  have ha1q : (2 : ℚ) ^ ((bit_length n : Int) - 1) ≤ n := by
    have h : ((bit_length n : Int) - 1) = ((bit_length n - 1 : Nat) : Int) := by omega
    rw [h, zpow_natCast]
    exact_mod_cast ha1
  have ha2q : (n : ℚ) < (2 : ℚ) ^ (bit_length n : Int) := by
    rw [zpow_natCast]
    exact_mod_cast ha2
  have hb1q : (2 : ℚ) ^ ((bit_length d : Int) - 1) ≤ d := by
    have h : ((bit_length d : Int) - 1) = ((bit_length d - 1 : Nat) : Int) := by omega
    rw [h, zpow_natCast]
    exact_mod_cast hb1
  have hb2q : (d : ℚ) < (2 : ℚ) ^ (bit_length d : Int) := by
    rw [zpow_natCast]
    exact_mod_cast hb2
  have h2 : (0 : ℚ) < 2 := by norm_num
  have h2ne : (2 : ℚ) ≠ 0 := by norm_num
  -- the bounds on the quotient
  have hup : (n : ℚ) / d < (2 : ℚ) ^ ((bit_length n : Int) - (bit_length d : Int) + 1) := by
    have e1 : (2 : ℚ) ^ ((bit_length n : Int) - (bit_length d : Int) + 1) =
        (2 : ℚ) ^ (bit_length n : Int) / (2 : ℚ) ^ ((bit_length d : Int) - 1) := by
      rw [← zpow_sub₀ h2ne]
      congr 1
      ring
    rw [e1, div_lt_div_iff₀ hdq (zpow_pos h2 _)]
    calc (n : ℚ) * 2 ^ ((bit_length d : Int) - 1) ≤ n * d :=
          mul_le_mul_of_nonneg_left hb1q hnq.le
      _ < 2 ^ (bit_length n : Int) * d := mul_lt_mul_of_pos_right ha2q hdq
  have hlow : (2 : ℚ) ^ ((bit_length n : Int) - (bit_length d : Int) - 1) < (n : ℚ) / d := by
    have e1 : (2 : ℚ) ^ ((bit_length n : Int) - (bit_length d : Int) - 1) =
        (2 : ℚ) ^ ((bit_length n : Int) - 1) / (2 : ℚ) ^ (bit_length d : Int) := by
      rw [← zpow_sub₀ h2ne]
      congr 1
      ring
    rw [e1, div_lt_div_iff₀ (zpow_pos h2 _) hdq]
    calc (2 : ℚ) ^ ((bit_length n : Int) - 1) * d
        < 2 ^ ((bit_length n : Int) - 1) * 2 ^ (bit_length d : Int) :=
          mul_lt_mul_of_pos_left hb2q (zpow_pos h2 _)
      _ ≤ n * 2 ^ (bit_length d : Int) :=
          mul_le_mul_of_nonneg_right ha1q (zpow_pos h2 _).le
  -- the test of the definition
  have htest : (d * 2 ^ ((bit_length n : Int) - (bit_length d : Int)).toNat ≤
      n * 2 ^ (-((bit_length n : Int) - (bit_length d : Int))).toNat) ↔
      (2 : ℚ) ^ ((bit_length n : Int) - (bit_length d : Int)) ≤ (n : ℚ) / d := by
    rw [two_zpow_split, div_le_div_iff₀ (by positivity) hdq]
    constructor
    · intro h
      have h' : ((d * 2 ^ ((bit_length n : Int) - (bit_length d : Int)).toNat : Nat) : ℚ) ≤
          ((n * 2 ^ (-((bit_length n : Int) - (bit_length d : Int))).toNat : Nat) : ℚ) := by
        exact_mod_cast h
      push_cast at h' ⊢
      linarith
    · intro h
      have h' : ((d * 2 ^ ((bit_length n : Int) - (bit_length d : Int)).toNat : Nat) : ℚ) ≤
          ((n * 2 ^ (-((bit_length n : Int) - (bit_length d : Int))).toNat : Nat) : ℚ) := by
        push_cast at h ⊢
        linarith
      exact_mod_cast h'
  unfold floor_log2
  simp only
  split
  · rename_i hc
    exact ⟨htest.mp hc, hup⟩
  · rename_i hc
    have hlt : (n : ℚ) / d < (2 : ℚ) ^ ((bit_length n : Int) - (bit_length d : Int)) := by
      by_contra hcon
      exact hc (htest.mpr (not_lt.mp hcon))
    refine ⟨hlow.le, ?_⟩
    have e : (bit_length n : Int) - (bit_length d : Int) - 1 + 1 =
        (bit_length n : Int) - (bit_length d : Int) := by ring
    rw [e]
    exact hlt

/-- The rounded integer is within one half of the quotient. -/
theorem round_half_even_spec (n d : Nat) (hd : 0 < d) :
    |((round_half_even n d : Nat) : ℚ) - (n : ℚ) / d| ≤ 1 / 2 := by
  have hdq : (0 : ℚ) < d := by exact_mod_cast hd
  have hdiv : (n : ℚ) / d = ((n / d : Nat) : ℚ) + ((n % d : Nat) : ℚ) / d := by
    have h := Nat.div_add_mod n d
    have hq : ((d * (n / d) + n % d : Nat) : ℚ) = (n : ℚ) := by exact_mod_cast h
    rw [← hq]
    push_cast
    field_simp
    ring
  have hr : n % d < d := Nat.mod_lt n hd
  have hrq : ((n % d : Nat) : ℚ) < d := by exact_mod_cast hr
  have hr0 : (0 : ℚ) ≤ ((n % d : Nat) : ℚ) := by positivity
  unfold round_half_even
  simp only
  rw [hdiv]
  by_cases h1 : 2 * (n % d) < d
  · rw [if_pos h1]
    have h1q : 2 * ((n % d : Nat) : ℚ) < d := by exact_mod_cast h1
    have h3 : ((n % d : Nat) : ℚ) / d ≤ 1 / 2 := by
      rw [div_le_iff₀ hdq]
      linarith
    have h4 := div_nonneg hr0 hdq.le
    rw [abs_le]
    constructor <;> linarith
  · rw [if_neg h1]
    by_cases h2 : d < 2 * (n % d)
    · rw [if_pos h2]
      have h2q : (d : ℚ) < 2 * ((n % d : Nat) : ℚ) := by exact_mod_cast h2
      have h3 : 1 / 2 ≤ ((n % d : Nat) : ℚ) / d := by
        rw [le_div_iff₀ hdq]
        linarith
      have h4 : ((n % d : Nat) : ℚ) / d < 1 := by
        rw [div_lt_one hdq]
        exact hrq
      push_cast
      rw [abs_le]
      constructor <;> linarith
    · rw [if_neg h2]
      have heq : 2 * (n % d) = d := by omega
      have heqq : 2 * ((n % d : Nat) : ℚ) = d := by exact_mod_cast heq
      have h3 : ((n % d : Nat) : ℚ) / d = 1 / 2 := by
        rw [div_eq_iff hdq.ne']
        linarith
      rw [h3]
      split
      · rw [abs_le]
        constructor <;> linarith
      · push_cast
        rw [abs_le]
        constructor <;> linarith

/-- The value of a rounded quotient in the normal range: defined, within half a unit in the
last place. -/
theorem round_to_double_spec (n d : Nat) (hn : 0 < n) (hd : 0 < d)
    (hlo : (2 : ℚ) ^ (-1022 : Int) ≤ (n : ℚ) / d) (hhi : (n : ℚ) / d < (2 : ℚ) ^ (1023 : Int)) :
    ∃ r, round_to_double n d = some r ∧ |r.value - (n : ℚ) / d| ≤ (n : ℚ) / d / 2 ^ 53 := by
  obtain ⟨he1, he2⟩ := floor_log2_spec n d hn hd
  have h2 : (1 : ℚ) < 2 := by norm_num
  have h2pos : (0 : ℚ) < 2 := by norm_num
  have hge : -1022 ≤ floor_log2 n d := by
    have h := lt_of_le_of_lt hlo he2
    rw [zpow_lt_zpow_iff_right₀ h2] at h
    omega
  have hle : floor_log2 n d ≤ 1022 := by
    have h := lt_of_le_of_lt he1 hhi
    rw [zpow_lt_zpow_iff_right₀ h2] at h
    omega
  have hdq : (0 : ℚ) < d := by exact_mod_cast hd
  generalize he : floor_log2 n d = e at *
  have hmax : max e (-1022) = e := max_eq_left hge
  have hsd : 0 < d * 2 ^ (e - 52).toNat := by positivity
  have hround := round_half_even_spec (n * 2 ^ (52 - e).toNat) (d * 2 ^ (e - 52).toNat) hsd
  have hneg : (52 - e) = -(e - 52) := by ring
  have hscaled : (((n * 2 ^ (52 - e).toNat : Nat) : ℚ)) / ((d * 2 ^ (e - 52).toNat : Nat) : ℚ) =
      (n : ℚ) / d / (2 : ℚ) ^ (e - 52) := by
    rw [two_zpow_split (e - 52), hneg]
    push_cast
    field_simp
  rw [hscaled] at hround
  refine ⟨{ significand := round_half_even (n * 2 ^ (52 - e).toNat) (d * 2 ^ (e - 52).toNat),
            exponent := e - 52 }, ?_, ?_⟩
  · unfold round_to_double
    simp only [he, hmax]
    rw [if_neg (by omega)]
  · unfold binary64.value
    simp only
    have hp : (0 : ℚ) < (2 : ℚ) ^ (e - 52) := zpow_pos h2pos _
    have hfac : ∀ m : ℚ, m * (2 : ℚ) ^ (e - 52) - (n : ℚ) / d =
        (m - (n : ℚ) / d / (2 : ℚ) ^ (e - 52)) * (2 : ℚ) ^ (e - 52) := by
      intro m
      field_simp
      ring
    rw [hfac, abs_mul, abs_of_pos hp]
    have hpow : (2 : ℚ) ^ (e - 52) = (2 : ℚ) ^ e / 2 ^ 52 := by
      rw [zpow_sub₀ (by norm_num : (2 : ℚ) ≠ 0)]
      norm_num
    calc _ ≤ 1 / 2 * (2 : ℚ) ^ (e - 52) := mul_le_mul_of_nonneg_right hround hp.le
      _ = (2 : ℚ) ^ e / 2 ^ 53 := by rw [hpow]; ring
      _ ≤ (n : ℚ) / d / 2 ^ 53 := by
        apply div_le_div_of_nonneg_right he1
        positivity

/-- The value of a `double` as a quotient of natural numbers. -/
theorem binary64_value_div (x : binary64) :
    x.value =
      ((x.significand * 2 ^ x.exponent.toNat : Nat) : ℚ) / ((2 ^ (-x.exponent).toNat : Nat) : ℚ) := by
  unfold binary64.value
  rw [two_zpow_split x.exponent]
  push_cast
  ring

/-- The integer quotient is the quotient with its fraction discarded. -/
theorem nat_div_bounds (a b : Nat) (hb : 0 < b) :
    ((a / b : Nat) : ℚ) ≤ (a : ℚ) / b ∧ (a : ℚ) / b < ((a / b : Nat) : ℚ) + 1 := by
  have hbq : (0 : ℚ) < b := by exact_mod_cast hb
  refine ⟨Nat.cast_div_le, ?_⟩
  rw [div_lt_iff₀ hbq]
  have h := Nat.lt_mul_div_succ a hb
  have hq : (a : ℚ) < (b : ℚ) * (((a / b : Nat) : ℚ) + 1) := by exact_mod_cast h
  linarith

/-- The conversion to `int64_t` of a value below 2^63 is defined and discards less than 1. -/
theorem double_to_int64_spec (x : binary64) (h : x.value < 9223372036854775808) :
    ∃ t : Nat, double_to_int64 x = some (t : Int) ∧ (t : ℚ) ≤ x.value ∧ x.value < (t : ℚ) + 1 := by
  have hd : 0 < 2 ^ (-x.exponent).toNat := by positivity
  obtain ⟨h1, h2⟩ := nat_div_bounds (x.significand * 2 ^ x.exponent.toNat) _ hd
  rw [← binary64_value_div] at h1 h2
  refine ⟨x.significand * 2 ^ x.exponent.toNat / 2 ^ (-x.exponent).toNat, ?_, h1, h2⟩
  have hlt : ((x.significand * 2 ^ x.exponent.toNat / 2 ^ (-x.exponent).toNat : Nat) : ℚ) <
      ((9223372036854775808 : Nat) : ℚ) := by
    refine lt_of_le_of_lt h1 (lt_of_lt_of_le h ?_)
    norm_num
  have hlt2 : x.significand * 2 ^ x.exponent.toNat / 2 ^ (-x.exponent).toNat <
      9223372036854775808 := by exact_mod_cast hlt
  unfold double_to_int64
  simp only
  rw [if_neg (by omega)]

/-- The period computed by the `double` expression of the source, for a frame rate between
10^-9 and 2^1000: defined, non-negative, and within `1 + X / 2^51` of `X = 10^9 / max_fps`. -/
theorem target_ns_spec (max_fps : ℚ) (hlo : 1 / 1000000000 ≤ max_fps)
    (hhi : max_fps ≤ 2 ^ 1000) :
    ∃ T : Int, target_ns max_fps = some T ∧ 0 ≤ T ∧
      |(T : ℚ) - 1000000000 / max_fps| ≤ 1 + 1000000000 / max_fps / 2 ^ 51 := by
  have hpos : 0 < max_fps := lt_of_lt_of_le (by norm_num) hlo
  have hnum : 0 < max_fps.num := Rat.num_pos.mpr hpos
  have hden : 0 < max_fps.den := max_fps.den_pos
  have hnat : 0 < max_fps.num.natAbs := Int.natAbs_pos.mpr hnum.ne'
  have hx : ((max_fps.den : Nat) : ℚ) / ((max_fps.num.natAbs : Nat) : ℚ) = 1 / max_fps := by
    have h1 : ((max_fps.num.natAbs : Nat) : ℚ) = ((max_fps.num : Int) : ℚ) := by
      rw [← Int.cast_natCast, Int.natAbs_of_nonneg hnum.le]
    rw [h1, one_div]
    conv_rhs => rw [← Rat.num_div_den max_fps]
    rw [inv_div]
  -- the quotient
  have hxlo : (1 : ℚ) / 2 ^ 1000 ≤ 1 / max_fps := one_div_le_one_div_of_le hpos hhi
  have hxhi : 1 / max_fps ≤ 1000000000 := by
    rw [div_le_iff₀ hpos]
    have := mul_le_mul_of_nonneg_left hlo (by norm_num : (0 : ℚ) ≤ 1000000000)
    linarith only [this]
  have hX : 1000000000 / max_fps = 1000000000 * (1 / max_fps) := by ring
  rw [hX]
  obtain ⟨r1, hr1, herr1⟩ := round_to_double_spec max_fps.den max_fps.num.natAbs hden hnat
    (by rw [hx]; refine le_trans ?_ hxlo; norm_num)
    (by rw [hx]; refine lt_of_le_of_lt hxhi ?_; norm_num)
  rw [hx] at herr1
  generalize 1 / max_fps = x at *
  clear hx hX hlo hhi
  have hxpos : (0 : ℚ) < x := lt_of_lt_of_le (by positivity) hxlo
  obtain ⟨herr1a, herr1b⟩ := abs_le.mp herr1
  have hx53 : x / 2 ^ 53 = x * (1 / 9007199254740992) := by norm_num [div_eq_mul_inv]
  rw [hx53] at herr1a herr1b
  have hv1lo : x * (1 / 2) ≤ r1.value := by linarith only [herr1a, hxpos]
  have hv1hi : r1.value ≤ x * 2 := by linarith only [herr1b, hxpos]
  have hv1pos : 0 < r1.value := by linarith only [hv1lo, hxpos]
  have hsig : 0 < r1.significand := by
    by_contra hc
    have h0 : r1.significand = 0 := by omega
    unfold binary64.value at hv1pos
    rw [h0] at hv1pos
    simp at hv1pos
  -- the product
  have hy : ((r1.significand * 1000000000 * 2 ^ r1.exponent.toNat : Nat) : ℚ) /
      ((2 ^ (-r1.exponent).toNat : Nat) : ℚ) = r1.value * 1000000000 := by
    rw [binary64_value_div]
    push_cast
    ring
  obtain ⟨r2, hr2, herr2⟩ := round_to_double_spec
    (r1.significand * 1000000000 * 2 ^ r1.exponent.toNat) (2 ^ (-r1.exponent).toNat)
    (by positivity) (by positivity)
    (by
      rw [hy]
      have h1 : (2 : ℚ) ^ (-1022 : Int) ≤ 1 / 2 ^ 1000 * (1 / 2) * 1000000000 := by norm_num
      have h2 : (1 : ℚ) / 2 ^ 1000 * (1 / 2) * 1000000000 ≤ x * (1 / 2) * 1000000000 := by
        apply mul_le_mul_of_nonneg_right _ (by norm_num)
        apply mul_le_mul_of_nonneg_right hxlo (by norm_num)
      have h3 : x * (1 / 2) * 1000000000 ≤ r1.value * 1000000000 :=
        mul_le_mul_of_nonneg_right hv1lo (by norm_num)
      exact le_trans h1 (le_trans h2 h3))
    (by
      rw [hy]
      have h1 : (1000000000 : ℚ) * 2 * 1000000000 < 2 ^ (1023 : Int) := by norm_num
      have h2 : r1.value * 1000000000 ≤ 1000000000 * 2 * 1000000000 := by
        linarith only [hv1hi, hxhi]
      exact lt_of_le_of_lt h2 h1)
  rw [hy] at herr2
  clear hxlo
  obtain ⟨herr2a, herr2b⟩ := abs_le.mp herr2
  have hy53 : r1.value * 1000000000 / 2 ^ 53 = r1.value * (1000000000 / 9007199254740992) := by
    norm_num [div_eq_mul_inv]
    ring
  rw [hy53] at herr2a herr2b
  obtain ⟨t, ht, ht1, ht2⟩ := double_to_int64_spec r2 (by
    linarith only [herr2b, hv1hi, hxhi, hv1pos])
  refine ⟨(t : Int), ?_, by positivity, ?_⟩
  · have hT : TIMESPEC_NSEC_PER_SEC.toNat = 1000000000 := rfl
    unfold target_ns
    unfold double_reciprocal double_mul_long
    rw [hr1]
    simp only
    rw [hT, hr2]
    exact ht
  · have hc : (((t : Int) : ℚ)) = (t : ℚ) := by norm_cast
    have h51 : 1000000000 * x / 2 ^ 51 = x * (1000000000 / 2251799813685248) := by
      norm_num [div_eq_mul_inv]
      ring
    rw [hc, h51, abs_le]
    constructor
    · linarith only [herr1a, herr1b, herr2a, herr2b, ht1, ht2, hxpos]
    · linarith only [herr1a, herr1b, herr2a, herr2b, ht1, ht2, hxpos]

/-! ## C11: the frame-rate limiter -/

/-- The measurement window is all that `measure_fps` changes. -/
theorem measure_fps_frame_last_time (state : fps_limit_state) (now : timespec) :
    (measure_fps state now).frame_last_time = state.frame_last_time := by
  unfold measure_fps
  simp only
  split
  · rfl
  · split <;> rfl

/-- The value `fps_limit_measure_end` returns once the period is known. -/
theorem measure_end_of_target (now : timespec) (state : fps_limit_state) (max_fps : ℚ)
    (T : Int) (hpos : 0 < max_fps) (hT : target_ns max_fps = some T)
    (h1 : -9223372036854775808 ≤ T - timespec_diff_ns now state.frame_last_time)
    (h2 : T - timespec_diff_ns now state.frame_last_time ≤ 9223372036854775807) :
    fps_limit_measure_end now state max_fps =
      some (measure_fps state now,
        (max 0 (T - timespec_diff_ns now state.frame_last_time)).toNat) := by
  unfold fps_limit_measure_end
  simp only [not_le.mpr hpos, if_false, hT]
  have h3 : ¬ (T - timespec_diff_ns now state.frame_last_time < -9223372036854775808 ∨
      9223372036854775807 < T - timespec_diff_ns now state.frame_last_time) := by
    omega
  simp only [h3, if_false]
  split
  · rw [max_eq_right (by omega)]
  · rw [max_eq_left (by omega)]
    rfl

/-- C11. For every `max_fps <= 0`, `fps_limit_measure_end` returns exactly 0 with the limiter
state as it was, and `fps_limit_measure_start` leaves the state unchanged. For every
`max_fps > 0` it returns `max(0, T - elapsed_ns)` nanoseconds, never a negative value, where
`T` is the value of `target_ns`, computed from `max_fps` by the `double` expression of the
source, and `elapsed_ns` is the time from the recorded cycle start `frame_last_time` to
`now` (the `int64_t` difference being representable); the cycle start itself is not
changed. For every `max_fps` from 10^-9 to 2^1000 that `T` is defined, non-negative, and is
the period `1 / max_fps` s in nanoseconds: it differs from `X = 10^9 / max_fps` by at most
`1 + X / 2^51` (the discarded fraction and two roundings). For `max_fps = 30` the period is
33333333 ns and, with an elapsed time of less than a millisecond, the value returned lies
within 1 ms of 1000/30 ms. -/
theorem C11_fps_limit_measure_end (now : timespec) (state : fps_limit_state) (max_fps : ℚ) :
    (max_fps ≤ 0 →
      fps_limit_measure_end now state max_fps = some (state, 0) ∧
      fps_limit_measure_start now state max_fps = state) ∧
    (0 < max_fps → ∀ T : Int, target_ns max_fps = some T →
      -9223372036854775808 ≤ T - timespec_diff_ns now state.frame_last_time →
      T - timespec_diff_ns now state.frame_last_time ≤ 9223372036854775807 →
      ∃ state1,
        fps_limit_measure_end now state max_fps =
          some (state1, (max 0 (T - timespec_diff_ns now state.frame_last_time)).toNat) ∧
        state1.frame_last_time = state.frame_last_time) ∧
    (1 / 1000000000 ≤ max_fps → max_fps ≤ 2 ^ 1000 →
      ∃ T : Int, target_ns max_fps = some T ∧ 0 ≤ T ∧
        |(T : ℚ) - 1000000000 / max_fps| ≤ 1 + 1000000000 / max_fps / 2 ^ 51) ∧
    target_ns 30 = some 33333333 ∧
    (max_fps = 30 →
      0 ≤ timespec_diff_ns now state.frame_last_time →
      timespec_diff_ns now state.frame_last_time ≤ 999998 →
      ∃ state1 delay,
        fps_limit_measure_end now state max_fps = some (state1, delay) ∧
        |(delay : ℚ) - 1000000000 / 30| < 1000000) := by
  have h30 : target_ns 30 = some 33333333 := by decide
  refine ⟨?_, ?_, ?_, h30, ?_⟩
  · intro h
    simp [fps_limit_measure_end, fps_limit_measure_start, h]
  · intro h T hT h1 h2
    exact ⟨measure_fps state now, measure_end_of_target now state max_fps T h hT h1 h2,
      measure_fps_frame_last_time state now⟩
  · intro hlo hhi
    exact target_ns_spec max_fps hlo hhi
  · intro h h0 h1
    subst h
    refine ⟨measure_fps state now,
      (max 0 (33333333 - timespec_diff_ns now state.frame_last_time)).toNat,
      measure_end_of_target now state 30 33333333 (by norm_num) h30 (by omega) (by omega), ?_⟩
    have hpos : 0 ≤ 33333333 - timespec_diff_ns now state.frame_last_time := by omega
    rw [max_eq_right hpos]
    have hc2 : (((33333333 - timespec_diff_ns now state.frame_last_time).toNat : ℕ) : ℚ) =
        33333333 - (timespec_diff_ns now state.frame_last_time : ℚ) := by
      have hc : (((33333333 - timespec_diff_ns now state.frame_last_time).toNat : Int)) =
          33333333 - timespec_diff_ns now state.frame_last_time := Int.toNat_of_nonneg hpos
      have hc3 : ((((33333333 - timespec_diff_ns now state.frame_last_time).toNat : Int)) : ℚ) =
          ((33333333 - timespec_diff_ns now state.frame_last_time : Int) : ℚ) := by
        rw [hc]
      push_cast at hc3
      exact hc3
    rw [hc2]
    have e0 : (0 : ℚ) ≤ (timespec_diff_ns now state.frame_last_time : ℚ) := by exact_mod_cast h0
    have e1 : (timespec_diff_ns now state.frame_last_time : ℚ) ≤ 999998 := by exact_mod_cast h1
    rw [abs_lt]
    constructor <;> linarith

/-- C11 at an example: 30 frames per second and 1000 ns elapsed since the cycle start. -/
theorem C11_fps_limit_measure_end_witness :
    ∃ state1 delay,
      fps_limit_measure_end { tv_sec := 10, tv_nsec := 1000 }
        { frame_last_time := { tv_sec := 10, tv_nsec := 0 },
          fps_last_time := { tv_sec := 0, tv_nsec := 0 }, fps_frame_count := 0 } 30 =
        some (state1, delay) ∧
      |(delay : ℚ) - 1000000000 / 30| < 1000000 :=
  (C11_fps_limit_measure_end { tv_sec := 10, tv_nsec := 1000 }
    { frame_last_time := { tv_sec := 10, tv_nsec := 0 },
      fps_last_time := { tv_sec := 0, tv_nsec := 0 }, fps_frame_count := 0 } 30).2.2.2.2
    rfl (by decide) (by decide)

/-! ## Allocation and release: lemmas -/

theorem closed_fds_append (a b : List Call) : closed_fds (a ++ b) = closed_fds a ++ closed_fds b := by
  simp [closed_fds, List.filterMap_append]

theorem destroyed_bos_append (a b : List Call) :
    destroyed_bos (a ++ b) = destroyed_bos a ++ destroyed_bos b := by
  simp [destroyed_bos, List.filterMap_append]

theorem closed_fds_map_close (fds : List Int) : closed_fds (fds.map Call.close) = fds := by
  induction fds with
  | nil => rfl
  | cons fd rest ih =>
    simp only [closed_fds, List.map_cons, List.filterMap_cons] at ih ⊢
    rw [ih]

theorem destroyed_bos_map_close (fds : List Int) : destroyed_bos (fds.map Call.close) = [] := by
  induction fds with
  | nil => rfl
  | cons fd rest ih =>
    simp only [destroyed_bos, List.map_cons, List.filterMap_cons] at ih ⊢
    rw [ih]

/-- The calls of `anonymous_shm_open` close no descriptor and destroy no buffer object; when
it returns a descriptor, the name has been unlinked after the last `shm_open`. -/
theorem anonymous_shm_open_trace (f : Nat → shm_open_result) :
    ∀ retries attempt,
      closed_fds (anonymous_shm_open f retries attempt).2 = [] ∧
      destroyed_bos (anonymous_shm_open f retries attempt).2 = [] ∧
      ((anonymous_shm_open f retries attempt).1 = -1 ∨
        (0 ≤ (anonymous_shm_open f retries attempt).1 ∧
          ∀ before, shm_name_linked before (anonymous_shm_open f retries attempt).2 = false)) := by
  intro retries
  induction retries with
  | zero => intro attempt; simp [anonymous_shm_open, closed_fds, destroyed_bos]
  | succ n ih =>
    intro attempt
    unfold anonymous_shm_open
    split
    · refine ⟨rfl, rfl, Or.inr ⟨by simp, fun before => rfl⟩⟩
    · split
      · obtain ⟨h1, h2, h3⟩ := ih (attempt + 1)
        refine ⟨?_, ?_, ?_⟩
        · simpa [closed_fds] using h1
        · simpa [destroyed_bos] using h2
        · rcases h3 with h3 | ⟨h3, h4⟩
          · exact Or.inl h3
          · exact Or.inr ⟨h3, fun before => by simpa [shm_name_linked] using h4 true⟩
      · exact ⟨rfl, rfl, Or.inl rfl⟩
    · exact ⟨rfl, rfl, Or.inl rfl⟩

theorem shm_name_linked_other (b : List Call)
    (hb : ∀ c ∈ b, c ≠ Call.shm_open ∧ c ≠ Call.shm_unlink) :
    ∀ before, shm_name_linked before b = before := by
  induction b with
  | nil => intro before; rfl
  | cons c rest ih =>
    intro before
    have hc := hb c (List.mem_cons_self _ _)
    have hrest := ih (fun c h => hb c (List.mem_cons_of_mem _ h)) before
    cases c <;> first
      | exact absurd rfl hc.1
      | exact absurd rfl hc.2
      | (simp only [shm_name_linked]; exact hrest)

theorem shm_name_linked_append_other (a b : List Call)
    (hb : ∀ c ∈ b, c ≠ Call.shm_open ∧ c ≠ Call.shm_unlink) :
    ∀ before, shm_name_linked before (a ++ b) = shm_name_linked before a := by
  induction a with
  | nil => intro before; simpa [shm_name_linked] using shm_name_linked_other b hb before
  | cons c rest ih =>
    intro before
    cases c <;> (rw [List.cons_append]; simp only [shm_name_linked]; exact ih _)

/-- The `DMABUF` case of `xdpdBufferCreate` continues from the buffer object of
`created_bo`. -/
theorem xdpdBufferCreate_dmabuf (ctx : ScreenCastContext) (world : alloc_world)
    (cast : ScreenCast) (frame_info : ScreenCopyFrameInfo) :
    ∃ allocs : List Call, closed_fds allocs = [] ∧ destroyed_bos allocs = [] ∧
      xdpdBufferCreate ctx world cast .DMABUF frame_info =
        match created_bo ctx cast frame_info with
        | none => (none, allocs)
        | some bo =>
          if !world.create_params then (none, allocs ++ [.gbm_bo_destroy bo.handle])
          else
            match plane_fds bo (List.range bo.plane_count.toNat) [] with
            | .error fds => (none, allocs ++ [.gbm_bo_destroy bo.handle] ++ fds.map Call.close)
            | .ok fds =>
              match world.create_immed with
              | none => (none, allocs ++ [.gbm_bo_destroy bo.handle] ++ fds.map Call.close)
              | some wl_buffer =>
                (some { buffer_type := .DMABUF, width := frame_info.width,
                        height := frame_info.height, format := frame_info.format,
                        plane_count := bo.plane_count, fd := fds,
                        size := (List.range bo.plane_count.toNat).map (fun _ => 0),
                        stride := (List.range bo.plane_count.toNat).map
                          (fun plane => bo.stride_for_plane.getD plane 0),
                        offset := (List.range bo.plane_count.toNat).map
                          (fun plane => bo.offset.getD plane 0),
                        bo := some bo, buffer := wl_buffer },
                 allocs) := by
  simp only [xdpdBufferCreate, created_bo]
  split_ifs <;> exact ⟨_, by simp [closed_fds], by simp [destroyed_bos], rfl⟩

/-! ## C12: the layout of a shared-memory buffer -/

/-- C12 (amended). For the shared-memory frame information recorded by the buffer callback
from a compositor buffer event (format, width, height, stride), a successful
`xdpdBufferCreate` returns a buffer with exactly one plane whose size is `stride * height`
modulo 2^32 (so `stride * height` itself whenever that is below 2^32), whose stride is the
reported stride and whose offset is 0; and among the calls made, the last one on the
shared-memory name is the `shm_unlink` that follows the successful `shm_open`: the name does
not exist when the call returns, whether or not it existed before. -/
theorem C12_shm_buffer_layout (ctx : ScreenCastContext) (world : alloc_world)
    (cast : ScreenCast) (format width height stride : Nat) (buffer : XdpdBuffer)
    (h : (xdpdBufferCreate ctx world
        (zwlr_screencopy_frame_v1_buffer cast format width height stride) .WL_SHM
        ((zwlr_screencopy_frame_v1_buffer cast format width height stride).screencopyFrameInfo
          .WL_SHM)).1 = some buffer) :
    buffer.plane_count = 1 ∧
    buffer.size = [(stride * height) % 4294967296] ∧
    (stride * height < 4294967296 → buffer.size = [stride * height]) ∧
    buffer.stride = [stride] ∧ buffer.offset = [0] ∧
    ∀ before, shm_name_linked before (xdpdBufferCreate ctx world
        (zwlr_screencopy_frame_v1_buffer cast format width height stride) .WL_SHM
        ((zwlr_screencopy_frame_v1_buffer cast format width height stride).screencopyFrameInfo
          .WL_SHM)).2 = false := by
  have htrace := anonymous_shm_open_trace world.shm_open 100 0
  simp only [xdpdBufferCreate, zwlr_screencopy_frame_v1_buffer,
    ScreenCast.screencopyFrameInfo] at h ⊢
  split at h
  · exact Option.noConfusion h
  · rename_i hfd
    split at h
    · exact Option.noConfusion h
    · rename_i htr
      split at h
      · exact Option.noConfusion h
      · rename_i wl_buffer hwl
        have hb := Option.some.inj h
        subst hb
        simp only [hfd, htr, hwl, if_false]
        refine ⟨trivial, trivial, fun hlt => by rw [Nat.mod_eq_of_lt hlt], trivial, trivial, ?_⟩
        intro before
        rw [shm_name_linked_append_other _ _ (by simp)]
        rcases htrace.2.2 with h1 | ⟨_, h2⟩
        · exact absurd h1 hfd
        · exact h2 before

/-- C12 at an example: the buffer event of a 1920 by 1080 frame with stride 7680. -/
theorem C12_shm_buffer_layout_witness :
    ∃ buffer,
      (xdpdBufferCreate (example_ctx failing_gbm) example_world
        (zwlr_screencopy_frame_v1_buffer example_cast 1 1920 1080 7680) .WL_SHM
        ((zwlr_screencopy_frame_v1_buffer example_cast 1 1920 1080 7680).screencopyFrameInfo
          .WL_SHM)).1 = some buffer ∧
      buffer.plane_count = 1 ∧ buffer.size = [8294400] ∧ buffer.stride = [7680] ∧
      buffer.offset = [0] :=
  ⟨_, rfl,
    (C12_shm_buffer_layout (example_ctx failing_gbm) example_world example_cast 1 1920 1080 7680
      _ rfl).1,
    (C12_shm_buffer_layout (example_ctx failing_gbm) example_world example_cast 1 1920 1080 7680
      _ rfl).2.2.1 (by decide),
    (C12_shm_buffer_layout (example_ctx failing_gbm) example_world example_cast 1 1920 1080 7680
      _ rfl).2.2.2.1,
    (C12_shm_buffer_layout (example_ctx failing_gbm) example_world example_cast 1 1920 1080 7680
      _ rfl).2.2.2.2.1⟩

/-- C12 as stated fails: for the buffer event with stride 4294967295 and height 5 the
callback records the size 4294967291 (the product modulo 2^32), and the allocated buffer
reports that size and not `stride * height` = 21474836475. (In `import_wl_shm_buffer` the
stride arrives as the `int` -1 and the pool size is -5: no signed overflow occurs.) -/
theorem C12_counterexample :
    ∃ buffer,
      (xdpdBufferCreate (example_ctx failing_gbm) example_world
        (zwlr_screencopy_frame_v1_buffer example_cast 1 1 5 4294967295) .WL_SHM
        ((zwlr_screencopy_frame_v1_buffer example_cast 1 1 5 4294967295).screencopyFrameInfo
          .WL_SHM)).1 = some buffer ∧
      buffer.stride = [4294967295] ∧ buffer.height = 5 ∧
      buffer.size = [4294967291] ∧ buffer.size ≠ [4294967295 * 5] :=
  ⟨_, rfl, rfl, rfl, rfl, by decide⟩

/-! ## C13: a failed allocation releases what it obtained -/

/-- C13. On every path where `xdpdBufferCreate` returns null, for either buffer type, the
descriptors closed by the call are exactly the descriptors it obtained (the shared-memory
descriptor, or the plane descriptors handed out by `gbm_bo_get_fd_for_plane`), each closed
once, and the buffer objects destroyed are exactly the buffer object it created, if
any. -/
theorem C13_failed_create_releases (ctx : ScreenCastContext) (world : alloc_world)
    (cast : ScreenCast) (buffer_type : BufferType) (frame_info : ScreenCopyFrameInfo)
    (h : (xdpdBufferCreate ctx world cast buffer_type frame_info).1 = none) :
    closed_fds (xdpdBufferCreate ctx world cast buffer_type frame_info).2 =
      opened_fds ctx world cast buffer_type frame_info ∧
    destroyed_bos (xdpdBufferCreate ctx world cast buffer_type frame_info).2 =
      created_bos ctx cast buffer_type frame_info := by
  cases buffer_type with
  | WL_SHM =>
    obtain ⟨hc, hd, _⟩ := anonymous_shm_open_trace world.shm_open 100 0
    simp only [xdpdBufferCreate, opened_fds, created_bos] at h ⊢
    by_cases hfd : (anonymous_shm_open world.shm_open 100 0).1 = -1
    · simp only [hfd, if_true]
      exact ⟨hc, hd⟩
    · simp only [hfd, if_false] at h ⊢
      by_cases htr : world.ftruncate < 0
      · simp only [htr, if_true]
        rw [closed_fds_append, destroyed_bos_append, hc, hd]
        exact ⟨rfl, rfl⟩
      · simp only [htr, if_false] at h ⊢
        cases hwl : world.wl_shm_pool_create_buffer with
        | none =>
          simp only []
          rw [closed_fds_append, destroyed_bos_append, hc, hd]
          exact ⟨rfl, rfl⟩
        | some wl_buffer =>
          rw [hwl] at h
          exact Option.noConfusion h
  | DMABUF =>
    obtain ⟨allocs, hc, hd, heq⟩ := xdpdBufferCreate_dmabuf ctx world cast frame_info
    rw [heq] at h ⊢
    simp only [opened_fds, created_bos]
    cases hbo : created_bo ctx cast frame_info with
    | none => exact ⟨hc, hd⟩
    | some bo =>
      rw [hbo] at h
      simp only [] at h ⊢
      cases hcp : world.create_params with
      | false =>
        simp only [hcp, Bool.not_false, if_true]
        rw [closed_fds_append, destroyed_bos_append, hc, hd]
        exact ⟨rfl, rfl⟩
      | true =>
        simp only [hcp, Bool.not_true, Bool.false_eq_true, if_false] at h ⊢
        cases hfds : plane_fds bo (List.range bo.plane_count.toNat) [] with
        | error fds =>
          simp only []
          rw [closed_fds_append, destroyed_bos_append, closed_fds_append, destroyed_bos_append,
            hc, hd, closed_fds_map_close, destroyed_bos_map_close]
          exact ⟨rfl, rfl⟩
        | ok fds =>
          rw [hfds] at h
          simp only [] at h ⊢
          cases hwl : world.create_immed with
          | none =>
            simp only []
            rw [closed_fds_append, destroyed_bos_append, closed_fds_append,
              destroyed_bos_append, hc, hd, closed_fds_map_close, destroyed_bos_map_close]
            exact ⟨rfl, rfl⟩
          | some wl_buffer =>
            rw [hwl] at h
            exact Option.noConfusion h

/-- C13 at an example: a buffer object of two planes is created, both plane descriptors are
obtained, and the import into a `wl_buffer` fails. -/
theorem C13_failed_create_releases_witness :
    (xdpdBufferCreate (example_ctx two_plane_gbm) import_fails example_cast .DMABUF
      example_cast.screencopyFrameInfo_DMABUF).1 = none ∧
    closed_fds (xdpdBufferCreate (example_ctx two_plane_gbm) import_fails example_cast .DMABUF
      example_cast.screencopyFrameInfo_DMABUF).2 = [7, 8] ∧
    destroyed_bos (xdpdBufferCreate (example_ctx two_plane_gbm) import_fails example_cast
      .DMABUF example_cast.screencopyFrameInfo_DMABUF).2 = [3] :=
  ⟨rfl, C13_failed_create_releases (example_ctx two_plane_gbm) import_fails example_cast
    .DMABUF example_cast.screencopyFrameInfo_DMABUF rfl⟩

/-! ## C14: release of a buffer -/

theorem plane_fds_length (bo : gbm_bo) :
    ∀ planes acc fds, plane_fds bo planes acc = .ok fds →
      fds.length = acc.length + planes.length := by
  intro planes
  induction planes with
  | nil =>
    intro acc fds h
    simp only [plane_fds] at h
    cases h
    rfl
  | cons plane rest ih =>
    intro acc fds h
    simp only [plane_fds] at h
    split at h
    · cases h
    · have := ih _ _ h
      simp only [List.length_append, List.length_singleton, List.length_cons,
        List.length_nil] at this ⊢
      omega

/-- A buffer made by `xdpdBufferCreate` has the requested type, one descriptor per plane,
and a buffer object if it is a `DMABUF` buffer. -/
theorem xdpdBufferCreate_buffer (ctx : ScreenCastContext) (world : alloc_world)
    (cast : ScreenCast) (buffer_type : BufferType) (frame_info : ScreenCopyFrameInfo)
    (buffer : XdpdBuffer)
    (h : (xdpdBufferCreate ctx world cast buffer_type frame_info).1 = some buffer) :
    buffer.buffer_type = buffer_type ∧ buffer.fd.length = buffer.plane_count.toNat ∧
      (buffer.buffer_type = .DMABUF → buffer.bo.isSome = true) := by
  cases buffer_type with
  | WL_SHM =>
    simp only [xdpdBufferCreate] at h
    split at h
    · exact Option.noConfusion h
    · split at h
      · exact Option.noConfusion h
      · split at h
        · exact Option.noConfusion h
        · have hb := Option.some.inj h
          subst hb
          exact ⟨rfl, rfl, fun hh => BufferType.noConfusion hh⟩
  | DMABUF =>
    obtain ⟨allocs, _, _, heq⟩ := xdpdBufferCreate_dmabuf ctx world cast frame_info
    rw [heq] at h
    cases hbo : created_bo ctx cast frame_info with
    | none => rw [hbo] at h; exact Option.noConfusion h
    | some bo =>
      rw [hbo] at h
      cases hcp : world.create_params with
      | false =>
        simp only [hcp, Bool.not_false, if_true] at h
        exact Option.noConfusion h
      | true =>
        simp only [hcp, Bool.not_true, Bool.false_eq_true, if_false] at h
        cases hfds : plane_fds bo (List.range bo.plane_count.toNat) [] with
        | error fds => rw [hfds] at h; exact Option.noConfusion h
        | ok fds =>
          rw [hfds] at h
          cases hwl : world.create_immed with
          | none => rw [hwl] at h; exact Option.noConfusion h
          | some wl_buffer =>
            rw [hwl] at h
            have hb := Option.some.inj h
            subst hb
            have hl := plane_fds_length _ _ _ _ hfds
            simp only [List.length_nil, List.length_range, Nat.zero_add] at hl
            exact ⟨rfl, hl, fun _ => rfl⟩

/-- C14. `xdpdBufferDestroy` of a buffer (one that has its buffer object if it is a `DMABUF`
buffer, as every buffer made by `xdpdBufferCreate` has) closes the plane descriptors
`fd[0]`, .., `fd[plane_count - 1]` once each, in this order, and no other descriptor; it
destroys the buffer object of the buffer, once, when the buffer type is `DMABUF`, and no
buffer object otherwise. -/
theorem C14_destroy_releases (buffer : XdpdBuffer)
    (hbo : buffer.buffer_type = .DMABUF → buffer.bo.isSome = true) :
    closed_fds (xdpdBufferDestroy buffer) = buffer.fd.take buffer.plane_count.toNat ∧
    (buffer.buffer_type = .DMABUF →
      ∃ bo, buffer.bo = some bo ∧ destroyed_bos (xdpdBufferDestroy buffer) = [bo.handle]) ∧
    (∀ bo, buffer.buffer_type = .DMABUF → buffer.bo = some bo →
      destroyed_bos (xdpdBufferDestroy buffer) = [bo.handle]) ∧
    (buffer.buffer_type ≠ .DMABUF → destroyed_bos (xdpdBufferDestroy buffer) = []) ∧
    ((∃ handle, Call.gbm_bo_destroy handle ∈ xdpdBufferDestroy buffer) ↔
      buffer.buffer_type = .DMABUF) := by
  unfold xdpdBufferDestroy
  by_cases ht : buffer.buffer_type = .DMABUF
  · obtain ⟨bo, hsome⟩ := Option.isSome_iff_exists.mp (hbo ht)
    simp only [ht, if_true, hsome, Option.map_some', Option.toList_some, ne_eq,
      not_true_eq_false, false_implies, true_implies, iff_true, true_and]
    rw [closed_fds_append, closed_fds_append, destroyed_bos_append, destroyed_bos_append,
      closed_fds_map_close, destroyed_bos_map_close]
    refine ⟨rfl, ⟨bo, rfl, rfl⟩, ?_, ⟨bo.handle, ?_⟩⟩
    · intro bo2 h2
      cases h2
      rfl
    · simp
  · simp only [ht, if_false, List.append_nil]
    rw [closed_fds_append, destroyed_bos_append, closed_fds_map_close, destroyed_bos_map_close]
    refine ⟨rfl, fun hh => hh.elim, fun _ hh => hh.elim, fun _ => rfl, ?_⟩
    constructor
    · rintro ⟨handle, hmem⟩
      rcases List.mem_append.mp hmem with hmem | hmem
      · simp at hmem
      · obtain ⟨fd, _, hfd⟩ := List.mem_map.mp hmem
        exact Call.noConfusion hfd
    · intro hh
      exact hh.elim

/-- C14 at an example: the release of a `DMABUF` buffer of two planes closes the
descriptors 7 and 8 and destroys the buffer object 3. -/
theorem C14_destroy_releases_witness :
    (xdpdBufferCreate (example_ctx two_plane_gbm) example_world example_cast .DMABUF
      example_cast.screencopyFrameInfo_DMABUF).1 = some two_plane_buffer ∧
    closed_fds (xdpdBufferDestroy two_plane_buffer) = [7, 8] ∧
    destroyed_bos (xdpdBufferDestroy two_plane_buffer) = [3] :=
  ⟨rfl, (C14_destroy_releases two_plane_buffer (fun _ => rfl)).1,
    (C14_destroy_releases two_plane_buffer (fun _ => rfl)).2.2.1 _ rfl rfl⟩

/-! ## C15: the three cases of a capture request -/

/-- C15 (amended). `xdpd_wlr_sc_frame_capture` returns the session as it was, with no
capture request, when `quit` or `err` is set. With neither set, on a session that is
initialized and whose transport is not streaming, it issues no capture request and sets
the frame state to Idle (`XDPD_FRAME_STATE_NONE`). In the remaining case (the transport is
streaming, or the session is not initialized) it sets the frame state to Started and issues
exactly one capture request, for the output of the target. -/
theorem C15_request_capture (cast : ScreenCast) :
    (cast.quit = true ∨ cast.err ≠ 0 → xdpd_wlr_sc_frame_capture cast = cast) ∧
    (cast.quit = false → cast.err = 0 → cast.initialized = true →
      cast.pwrStreamState = false →
      xdpd_wlr_sc_frame_capture cast = { cast with frameState := .XDPD_FRAME_STATE_NONE }) ∧
    (cast.quit = false → cast.err = 0 →
      cast.pwrStreamState = true ∨ cast.initialized = false →
      (xdpd_wlr_sc_frame_capture cast).frameState = .XDPD_FRAME_STATE_STARTED ∧
      (xdpd_wlr_sc_frame_capture cast).calls =
        cast.calls ++ [Call.capture_output 0 cast.target.output]) := by
  refine ⟨?_, ?_, ?_⟩
  · intro h
    unfold xdpd_wlr_sc_frame_capture
    rw [if_pos h]
  · intro hq he hi hs
    simp [xdpd_wlr_sc_frame_capture, hq, he, hi, hs]
  · intro hq he h
    unfold xdpd_wlr_sc_frame_capture
    have h1 : ¬ (cast.quit = true ∨ cast.err ≠ 0) := by simp [hq, he]
    have h2 : ¬ (cast.initialized = true ∧ ¬ cast.pwrStreamState = true) := by
      rcases h with h | h <;> simp [h]
    rw [if_neg h1, if_neg h2]
    exact ⟨rfl, rfl⟩

/-- C15 at examples: a session with `quit` set, an initialized session that is not
streaming, and a streaming session. -/
theorem C15_request_capture_witness :
    xdpd_wlr_sc_frame_capture quit_cast = quit_cast ∧
    xdpd_wlr_sc_frame_capture paused_cast =
      { paused_cast with frameState := xdpd_frame_state.XDPD_FRAME_STATE_NONE } ∧
    (xdpd_wlr_sc_frame_capture example_cast).calls = [Call.capture_output 0 1] :=
  ⟨(C15_request_capture quit_cast).1 (Or.inl rfl),
    (C15_request_capture paused_cast).2.1 rfl rfl rfl rfl,
    ((C15_request_capture example_cast).2.2 rfl rfl (Or.inl rfl)).2⟩

/-- C15 as stated fails: on a session with neither `err` nor `quit` set whose transport is
not streaming and that is not initialized, the call issues a capture request and sets the
frame state to Started. -/
theorem C15_counterexample :
    uninitialized_cast.err = 0 ∧ uninitialized_cast.quit = false ∧
    uninitialized_cast.pwrStreamState = false ∧
    (xdpd_wlr_sc_frame_capture uninitialized_cast).calls = [Call.capture_output 0 1] ∧
    (xdpd_wlr_sc_frame_capture uninitialized_cast).frameState =
      xdpd_frame_state.XDPD_FRAME_STATE_STARTED := by
  refine ⟨rfl, rfl, rfl, ?_, ?_⟩ <;> decide

/-! ## Enqueue: what is queued and what is left of the frame -/

theorem write_damage_defined (frame : XdpdFrame) (slots : List spa_region) (hs : slots ≠ [])
    (hd : frame.damages ≠ []) (hc : frame.damageCount ≤ frame.damages.length) :
    ∃ written, write_damage frame slots = some written := by
  cases hdam : frame.damages with
  | nil => exact absurd hdam hd
  | cons d0 rest => exact ⟨_, write_damage_eq frame slots d0 rest hdam hc hs⟩

/-- An enqueue without a buffer drops the frame: nothing is queued and only the buffer
references of the frame are written. -/
theorem enqueue_drop (cast : ScreenCast) (hb : cast.currentFrame.pwBuffer = none) :
    xdpd_pwr_enqueue_buffer cast =
      some { cast with
        currentFrame := { cast.currentFrame with xdpdBuffer := none, pwBuffer := none } } := by
  simp only [xdpd_pwr_enqueue_buffer, hb]

/-- An enqueue with a buffer, where the damage block is defined: the buffer is queued, with
the corruption flags of the test; `err` becomes 1 for a y-inverted frame. -/
theorem enqueue_queue (cast : ScreenCast) (pwBuf : pw_buffer)
    (hb : cast.currentFrame.pwBuffer = some pwBuf) (hdef : damage_block_defined cast) :
    ∃ cast1 queued, xdpd_pwr_enqueue_buffer cast = some cast1 ∧
      cast1.calls = cast.calls ++ [Call.pw_stream_queue_buffer queued] ∧
      queued.id = pwBuf.id ∧
      queued.header = pwBuf.header.map (fun h =>
        { h with pts := frame_pts cast.currentFrame,
                 flags := if frame_corrupt cast then SPA_META_HEADER_FLAG_CORRUPTED else 0,
                 seq := cast.seq,
                 dts_offset := 0 }) ∧
      queued.datas = pwBuf.datas.map (fun d =>
        { d with chunk := { d.chunk with flags :=
            (if frame_corrupt cast then SPA_CHUNK_FLAG_CORRUPTED else SPA_CHUNK_FLAG_NONE) } }) ∧
      cast1.err = (if cast.currentFrame.yInverted then 1 else cast.err) ∧
      cast1.quit = cast.quit ∧ cast1.frameState = cast.frameState ∧
      cast1.pwrStreamState = cast.pwrStreamState ∧
      cast1.initialized = cast.initialized ∧ cast1.target = cast.target ∧
      cast1.currentFrame =
        { cast.currentFrame with xdpdBuffer := none, pwBuffer := none } := by
  have hw : ∃ damage : Option (List spa_region),
      (match pwBuf.damage with
        | none => some none
        | some slots => (write_damage cast.currentFrame slots).map some) = some damage := by
    cases hdm : pwBuf.damage with
    | none => exact ⟨none, rfl⟩
    | some slots =>
      obtain ⟨h1, h2, h3⟩ := hdef pwBuf slots hb hdm
      obtain ⟨written, hwr⟩ := write_damage_defined cast.currentFrame slots h1 h2 h3
      exact ⟨some written, by simp [hwr]⟩
  obtain ⟨damage, hdamage⟩ := hw
  have hcorr : (decide (cast.frameState ≠ .XDPD_FRAME_STATE_SUCCESS) ||
      cast.currentFrame.yInverted) = decide (frame_corrupt cast) := by
    rw [Bool.eq_iff_iff]
    simp [frame_corrupt]
  simp only [xdpd_pwr_enqueue_buffer, hb, hdamage, hcorr]
  refine ⟨_, _, rfl, rfl, rfl, ?_, ?_, rfl, rfl, rfl, rfl, rfl, rfl, rfl⟩
  · simp only [decide_eq_true_eq]
  · simp only [decide_eq_true_eq]

/-- With no rectangle recorded the damage block has no defined result: its first statement
after the zero-fill reads `damages[0]`. -/
theorem write_damage_unrecorded (frame : XdpdFrame) (slots : List spa_region)
    (hd : frame.damages = []) : write_damage frame slots = none := by
  have h : damage_do_while frame 0 slots = none := by
    cases slots with
    | nil => rfl
    | cons s rest =>
      cases rest with
      | nil => simp [damage_do_while, damage_slot, hd]
      | cons s2 rest2 => simp [damage_do_while, damage_slot, hd]
  unfold write_damage
  simp only [h]

/-- An enqueue of a buffer with damage metadata while no rectangle is recorded has no
defined result. -/
theorem enqueue_unrecorded (cast : ScreenCast) (pwBuf : pw_buffer) (slots : List spa_region)
    (hb : cast.currentFrame.pwBuffer = some pwBuf) (hs : pwBuf.damage = some slots)
    (hd : cast.currentFrame.damages = []) : xdpd_pwr_enqueue_buffer cast = none := by
  simp [xdpd_pwr_enqueue_buffer, hb, hs, write_damage_unrecorded cast.currentFrame slots hd]

/-- The corruption flags of the buffer that an enqueue queues, where the damage block is
defined. -/
theorem enqueue_flags (cast : ScreenCast) (pwBuf : pw_buffer)
    (hb : cast.currentFrame.pwBuffer = some pwBuf) (hdef : damage_block_defined cast) :
    ∃ cast1 queued, xdpd_pwr_enqueue_buffer cast = some cast1 ∧
      cast1.calls = cast.calls ++ [Call.pw_stream_queue_buffer queued] ∧
      queued.id = pwBuf.id ∧ queued.header.isSome = pwBuf.header.isSome ∧
      (∀ h, queued.header = some h →
        (h.flags = SPA_META_HEADER_FLAG_CORRUPTED ↔ frame_corrupt cast) ∧
        (h.flags = 0 ↔ ¬ frame_corrupt cast)) ∧
      queued.datas.length = pwBuf.datas.length ∧
      (∀ d ∈ queued.datas,
        (d.chunk.flags = SPA_CHUNK_FLAG_CORRUPTED ↔ frame_corrupt cast) ∧
        (d.chunk.flags = SPA_CHUNK_FLAG_NONE ↔ ¬ frame_corrupt cast)) ∧
      (cast.currentFrame.yInverted = true → frame_corrupt cast) := by
  obtain ⟨cast1, queued, h, hcalls, hid, hheader, hdatas, _⟩ := enqueue_queue cast pwBuf hb hdef
  refine ⟨cast1, queued, h, hcalls, hid, ?_, ?_, ?_, ?_, fun hy => Or.inr hy⟩
  · rw [hheader]
    cases pwBuf.header <;> rfl
  · intro hd hq
    rw [hheader] at hq
    cases hh : pwBuf.header with
    | none => rw [hh] at hq; exact Option.noConfusion hq
    | some h0 =>
      rw [hh] at hq
      have hq2 := Option.some.inj hq
      subst hq2
      by_cases hc : frame_corrupt cast
      · simp [hc, SPA_META_HEADER_FLAG_CORRUPTED]
      · simp [hc, SPA_META_HEADER_FLAG_CORRUPTED]
  · rw [hdatas, List.length_map]
  · intro d hd
    rw [hdatas] at hd
    obtain ⟨d0, _, hd0⟩ := List.mem_map.mp hd
    subst hd0
    by_cases hc : frame_corrupt cast
    · simp [hc, SPA_CHUNK_FLAG_CORRUPTED, SPA_CHUNK_FLAG_NONE]
    · simp [hc, SPA_CHUNK_FLAG_CORRUPTED, SPA_CHUNK_FLAG_NONE]

/-- C17 (the code at the failing input). A frame whose capture failed before any damage was
reported holds a buffer with damage metadata (and the `XdpdBuffer` of that buffer); its
enqueue has no defined result, since the damage block reads `damages[0]` of the empty list
before the flags are written and the buffer is queued. So has every enqueue of a buffer
with damage metadata while no rectangle is recorded, and so has the run in which the
transport pauses the stream between the capture request and the first damage report.
Everywhere else (the frame holding its `XdpdBuffer`, the damage block staying inside its
arrays) the enqueue queues the buffer, flagged corrupted if and only if the frame state is
not Succeeded or the frame is y-inverted: the header, when the buffer has header metadata,
gets `SPA_META_HEADER_FLAG_CORRUPTED` in that case and 0 otherwise, and the chunk of every
data plane gets `SPA_CHUNK_FLAG_CORRUPTED` in that case and `SPA_CHUNK_FLAG_NONE`
otherwise; a y-inverted frame is queued as corrupted. -/
theorem C17_damage_read_precedes_queue :
    (unrecorded_frame.currentFrame.pwBuffer = some held_buffer ∧
      held_buffer.damage = some [SPA_REGION 0 0 0 0] ∧
      frame_buffer_held unrecorded_frame ∧
      unrecorded_frame.frameState = xdpd_frame_state.XDPD_FRAME_STATE_FAILED ∧
      unrecorded_frame.currentFrame.damages = [] ∧
      xdpd_pwr_enqueue_buffer unrecorded_frame = none) ∧
    (∀ (cast : ScreenCast) (pwBuf : pw_buffer) (slots : List spa_region),
      cast.currentFrame.pwBuffer = some pwBuf → pwBuf.damage = some slots →
      cast.currentFrame.damages = [] → xdpd_pwr_enqueue_buffer cast = none) ∧
    run (example_ctx failing_gbm) example_cast paused_before_damage = none ∧
    (∀ (cast : ScreenCast) (pwBuf : pw_buffer),
      cast.currentFrame.pwBuffer = some pwBuf → damage_block_defined cast →
      frame_buffer_held cast →
      ∃ cast1 queued, xdpd_pwr_enqueue_buffer cast = some cast1 ∧
        cast1.calls = cast.calls ++ [Call.pw_stream_queue_buffer queued] ∧
        queued.id = pwBuf.id ∧ queued.header.isSome = pwBuf.header.isSome ∧
        (∀ h, queued.header = some h →
          (h.flags = SPA_META_HEADER_FLAG_CORRUPTED ↔ frame_corrupt cast) ∧
          (h.flags = 0 ↔ ¬ frame_corrupt cast)) ∧
        queued.datas.length = pwBuf.datas.length ∧
        (∀ d ∈ queued.datas,
          (d.chunk.flags = SPA_CHUNK_FLAG_CORRUPTED ↔ frame_corrupt cast) ∧
          (d.chunk.flags = SPA_CHUNK_FLAG_NONE ↔ ¬ frame_corrupt cast)) ∧
        (cast.currentFrame.yInverted = true → frame_corrupt cast)) := by
  refine ⟨⟨rfl, rfl, ?_, rfl, rfl, ?_⟩, enqueue_unrecorded, ?_, ?_⟩
  · intro _
    exact Option.noConfusion
  · exact enqueue_unrecorded unrecorded_frame held_buffer _ rfl rfl rfl
  · decide
  · intro cast pwBuf hb hdef _
    exact enqueue_flags cast pwBuf hb hdef

/-! ## C16: frame finalize -/

/-- C18 (amended). When the allocation fails inside `pwr_handle_stream_add_buffer` (the
transport buffer having a data plane), the handler sets `err` to 1 whichever buffer type
the allocation was for, shared memory or dma-buf, and leaves the transport buffer as it
was; the session is then dead: the next `xdpd_wlr_sc_frame_capture` issues no capture
request. -/
theorem C18_failed_allocation_sets_err (ctx : ScreenCastContext) (world : alloc_world)
    (cast : ScreenCast) (buffer : pw_buffer) (hd : buffer.datas ≠ [])
    (hfail : (xdpdBufferCreate ctx world cast cast.bufferType
      (cast.screencopyFrameInfo cast.bufferType)).1 = none) :
    ∃ cast1, pwr_handle_stream_add_buffer ctx world cast buffer = some (cast1, buffer) ∧
      cast1.err = 1 ∧ xdpd_wlr_sc_frame_capture cast1 = cast1 := by
  cases hdatas : buffer.datas with
  | nil => exact absurd hdatas hd
  | cons d0 rest =>
    simp only [pwr_handle_stream_add_buffer, hdatas, hfail]
    split
    · refine ⟨_, rfl, rfl, ?_⟩
      simp [xdpd_wlr_sc_frame_capture]
    · refine ⟨_, rfl, rfl, ?_⟩
      simp [xdpd_wlr_sc_frame_capture]

/-- C18 at an example: a failed shared-memory allocation. -/
theorem C18_failed_allocation_sets_err_witness :
    example_cast.bufferType = .WL_SHM ∧
    ∃ cast1,
      pwr_handle_stream_add_buffer (example_ctx failing_gbm) shm_fails example_cast
        (example_buffer 1) = some (cast1, example_buffer 1) ∧
      cast1.err = 1 ∧ xdpd_wlr_sc_frame_capture cast1 = cast1 :=
  ⟨rfl, C18_failed_allocation_sets_err (example_ctx failing_gbm) shm_fails example_cast
    (example_buffer 1) (by decide) rfl⟩

/-- C18 as stated fails: a failed dma-buf allocation in the add handler sets `err` (it was
0), and the next `xdpd_wlr_sc_frame_capture` issues no capture request. -/
theorem C18_counterexample :
    gpu_cast.bufferType = .DMABUF ∧ gpu_cast.err = 0 ∧ gpu_cast.quit = false ∧
    gpu_cast.pwrStreamState = true ∧
    (xdpdBufferCreate (example_ctx failing_gbm) example_world gpu_cast .DMABUF
      (gpu_cast.screencopyFrameInfo .DMABUF)).1 = none ∧
    (pwr_handle_stream_add_buffer (example_ctx failing_gbm) example_world gpu_cast
      dmabuf_buffer).map (fun r => r.1.err) = some 1 ∧
    (pwr_handle_stream_add_buffer (example_ctx failing_gbm) example_world gpu_cast
      dmabuf_buffer).map (fun r => decide (xdpd_wlr_sc_frame_capture r.1 = r.1)) =
        some true := by
  refine ⟨rfl, rfl, rfl, rfl, rfl, ?_, ?_⟩ <;> decide

/-! ## C19: a corrupted frame and the life of the session -/

/-- The example frames keep the damage block inside its arrays and hold their
`XdpdBuffer`. -/
theorem failed_frame_defined : damage_block_defined failed_frame := by
  intro pwBuf slots h1 h2
  have h3 := Option.some.inj h1
  subst h3
  have h4 := Option.some.inj h2
  subst h4
  exact ⟨by decide, by decide, by decide⟩

theorem inverted_frame_defined : damage_block_defined inverted_frame := by
  intro pwBuf slots h1 h2
  have h3 := Option.some.inj h1
  subst h3
  have h4 := Option.some.inj h2
  subst h4
  exact ⟨by decide, by decide, by decide⟩

theorem failed_frame_held : frame_buffer_held failed_frame := fun _ => Option.noConfusion

theorem inverted_frame_held : frame_buffer_held inverted_frame := fun _ => Option.noConfusion

/-- C19 (amended). For every enqueue whose frame holds its `XdpdBuffer` and whose damage
block stays inside its arrays (both hold of every enqueue without a buffer): the enqueue
returns and does not change `quit`. An enqueue of a frame that is not y-inverted, whatever
its frame state (Failed included), or of a frame without a buffer, leaves `err` unchanged,
so on a streaming session with neither flag set the next `xdpd_wlr_sc_frame_capture` issues
a capture request. An enqueue of a y-inverted frame that has a buffer sets `err` to 1, and
the next `xdpd_wlr_sc_frame_capture` issues no capture request. -/
theorem C19_corrupt_frame_and_err (cast : ScreenCast) (hdef : damage_block_defined cast)
    (_hx : frame_buffer_held cast) :
    ∃ cast1, xdpd_pwr_enqueue_buffer cast = some cast1 ∧ cast1.quit = cast.quit ∧
      (cast.currentFrame.yInverted = false ∨ cast.currentFrame.pwBuffer = none →
        cast1.err = cast.err ∧
        (cast.quit = false → cast.err = 0 → cast.pwrStreamState = true →
          (xdpd_wlr_sc_frame_capture cast1).calls =
            cast1.calls ++ [Call.capture_output 0 cast.target.output])) ∧
      (cast.currentFrame.yInverted = true → cast.currentFrame.pwBuffer ≠ none →
        cast1.err = 1 ∧ xdpd_wlr_sc_frame_capture cast1 = cast1) := by
  cases hb : cast.currentFrame.pwBuffer with
  | none =>
    refine ⟨_, enqueue_drop cast hb, rfl, fun _ => ⟨rfl, ?_⟩, fun _ h => absurd rfl h⟩
    intro hq he hs
    simp [xdpd_wlr_sc_frame_capture, hq, he, hs]
  | some pwBuf =>
    obtain ⟨cast1, queued, h, _, _, _, _, herr, hquit, _, hstream, _, htarget, _⟩ :=
      enqueue_queue cast pwBuf hb hdef
    refine ⟨cast1, h, hquit, ?_, ?_⟩
    · intro hy
      rcases hy with hy | hy
      · rw [hy] at herr
        refine ⟨herr, ?_⟩
        intro hq he hs
        have e1 : cast1.err = 0 := by rw [herr]; simpa using he
        have e2 : cast1.quit = false := by rw [hquit, hq]
        have e3 : cast1.pwrStreamState = true := by rw [hstream, hs]
        simp [xdpd_wlr_sc_frame_capture, e1, e2, e3, htarget]
      · exact Option.noConfusion hy
    · intro hy _
      rw [hy] at herr
      have e1 : cast1.err = 1 := by simpa using herr
      refine ⟨e1, ?_⟩
      simp [xdpd_wlr_sc_frame_capture, e1]

/-- C19 at an example: after the enqueue of a frame whose capture failed, `err` and `quit`
are as before and the next capture request is issued. -/
theorem C19_corrupt_frame_and_err_witness :
    damage_block_defined failed_frame ∧ frame_buffer_held failed_frame ∧
    ∃ cast1, xdpd_pwr_enqueue_buffer failed_frame = some cast1 ∧
      cast1.quit = false ∧ cast1.err = 0 ∧
      (xdpd_wlr_sc_frame_capture cast1).calls = cast1.calls ++ [Call.capture_output 0 1] := by
  obtain ⟨cast1, h, hq, h1, _⟩ :=
    C19_corrupt_frame_and_err failed_frame failed_frame_defined failed_frame_held
  exact ⟨failed_frame_defined, failed_frame_held,
    cast1, h, hq, (h1 (Or.inl rfl)).1, (h1 (Or.inl rfl)).2 rfl rfl rfl⟩

/-- C19 as stated fails: the enqueue of a y-inverted frame (holding its `XdpdBuffer`, with a
recorded rectangle for its damage slot) on a streaming session with neither `err` nor `quit`
set changes `err` from 0 to 1, and the next `xdpd_wlr_sc_frame_capture` issues no capture
request (the only call of the session is the queueing of the buffer). -/
theorem C19_counterexample :
    inverted_frame.err = 0 ∧ inverted_frame.quit = false ∧
    inverted_frame.pwrStreamState = true ∧
    (xdpd_pwr_enqueue_buffer inverted_frame).map (fun c => c.err) = some 1 ∧
    (xdpd_pwr_enqueue_buffer inverted_frame).map
      (fun c => (xdpd_wlr_sc_frame_capture c).calls.map Call.is_queue) = some [true] := by
  refine ⟨rfl, rfl, rfl, ?_, ?_⟩ <;> decide

/-! ## C29: the wl_shm and DRM format converters -/

/-- C29. For every wl_shm format code `w` other than the DRM fourcc values of ARGB8888 and
XRGB8888, converting `w` to a DRM fourcc and back gives `w`; and for every DRM fourcc `f`
other than 0 and 1 (the wl_shm codes of ARGB8888 and XRGB8888), converting `f` to a wl_shm
code and back gives `f`. -/
theorem C29_converters_inverse :
    (∀ w : Nat, w ≠ DRM_FORMAT_ARGB8888 → w ≠ DRM_FORMAT_XRGB8888 →
      xdpd_format_wl_shm_from_drm_fourcc (xdpd_format_drm_fourcc_from_wl_shm w) = w) ∧
    (∀ f : Nat, f ≠ 0 → f ≠ 1 →
      xdpd_format_drm_fourcc_from_wl_shm (xdpd_format_wl_shm_from_drm_fourcc f) = f) := by
  constructor
  · intro w h1 h2
    unfold xdpd_format_drm_fourcc_from_wl_shm
    by_cases h0 : w = 0
    · subst h0
      decide
    · by_cases h01 : w = 1
      · subst h01
        decide
      · simp only [h0, h01, if_false]
        simp only [xdpd_format_wl_shm_from_drm_fourcc, h1, h2, if_false]
  · intro f h0 h1
    unfold xdpd_format_wl_shm_from_drm_fourcc
    by_cases ha : f = DRM_FORMAT_ARGB8888
    · subst ha
      decide
    · by_cases hx : f = DRM_FORMAT_XRGB8888
      · subst hx
        decide
      · simp only [ha, hx, if_false]
        simp only [xdpd_format_drm_fourcc_from_wl_shm, h0, h1, if_false]

/-- C29 at examples: the wl_shm codes 0 and 1, the fourcc of ARGB8888, and the code of NV12,
which both converters leave alone. -/
theorem C29_converters_inverse_witness :
    xdpd_format_wl_shm_from_drm_fourcc (xdpd_format_drm_fourcc_from_wl_shm 0) = 0 ∧
    xdpd_format_wl_shm_from_drm_fourcc (xdpd_format_drm_fourcc_from_wl_shm 1) = 1 ∧
    xdpd_format_drm_fourcc_from_wl_shm
      (xdpd_format_wl_shm_from_drm_fourcc DRM_FORMAT_ARGB8888) = DRM_FORMAT_ARGB8888 ∧
    xdpd_format_drm_fourcc_from_wl_shm
      (xdpd_format_wl_shm_from_drm_fourcc DRM_FORMAT_NV12) = DRM_FORMAT_NV12 :=
  ⟨C29_converters_inverse.1 0 (by decide) (by decide),
    C29_converters_inverse.1 1 (by decide) (by decide),
    C29_converters_inverse.2 DRM_FORMAT_ARGB8888 (by decide) (by decide),
    C29_converters_inverse.2 DRM_FORMAT_NV12 (by decide) (by decide)⟩

/-! ## C30: the format tables and the alpha channel -/

/-- C30. For each of the eight supported DRM fourcc codes with an alpha channel,
`xdpd_format_pw_strip_alpha` of its converted format is the converted format of the
matching fourcc without alpha; for every other supported fourcc the strip of its converted
format is `UNKNOWN`; and `xdpd_format_pw_from_drm_fourcc` is injective on the supported
fourcc codes, none of which converts to `UNKNOWN`. -/
theorem C30_alpha_tables :
    (∀ p ∈ alpha_fourccs,
      xdpd_format_pw_strip_alpha (xdpd_format_pw_from_drm_fourcc p.1) =
        xdpd_format_pw_from_drm_fourcc p.2) ∧
    (∀ f ∈ supported_fourccs, f ∉ alpha_fourccs.map Prod.fst →
      xdpd_format_pw_strip_alpha (xdpd_format_pw_from_drm_fourcc f) = .UNKNOWN) ∧
    (∀ f ∈ supported_fourccs, ∀ g ∈ supported_fourccs,
      xdpd_format_pw_from_drm_fourcc f = xdpd_format_pw_from_drm_fourcc g → f = g) ∧
    (∀ f ∈ supported_fourccs, xdpd_format_pw_from_drm_fourcc f ≠ .UNKNOWN) ∧
    (∀ p ∈ alpha_fourccs, p.1 ∈ supported_fourccs ∧ p.2 ∈ supported_fourccs) := by
  refine ⟨?_, ?_, ?_, ?_, ?_⟩ <;> decide

/-! ## The fields no handler maintains: lemmas -/

theorem measure_end_frame_last_time (now : timespec)
    (state : fps_limit_state) (max_fps : ℚ) (r : fps_limit_state × Nat)
    (h : fps_limit_measure_end now state max_fps = some r) :
    r.1.frame_last_time = state.frame_last_time := by
  unfold fps_limit_measure_end at h
  simp only at h
  repeat' split at h
  all_goals first
    | exact Option.noConfusion h
    | (have h2 := Option.some.inj h
       subst h2
       first | rfl | exact measure_fps_frame_last_time state now)

theorem limiter_call_keeps (now : timespec) (state : fps_limit_state)
    (framerate : Nat) :
    (limiter_call now state framerate).1.frame_last_time =
      state.frame_last_time := by
  unfold limiter_call
  cases h : fps_limit_measure_end now state (framerate : ℚ) with
  | none => rfl
  | some r => exact measure_end_frame_last_time now state _ r h

/-- What an enqueue leaves of the damage record and of the limiter. -/
theorem enqueue_kept (cast cast1 : ScreenCast) (h : xdpd_pwr_enqueue_buffer cast = some cast1) :
    cast1.currentFrame.damageCount = cast.currentFrame.damageCount ∧
      cast1.currentFrame.damages = cast.currentFrame.damages ∧
      cast1.fps_limit = cast.fps_limit := by
  unfold xdpd_pwr_enqueue_buffer at h
  split at h
  · cases h
    exact ⟨rfl, rfl, rfl⟩
  · simp only at h
    split at h
    · cases h
    · cases h
      exact ⟨rfl, rfl, rfl⟩

theorem capture_kept (cast : ScreenCast) :
    (xdpd_wlr_sc_frame_capture cast).currentFrame = cast.currentFrame ∧
      (xdpd_wlr_sc_frame_capture cast).fps_limit = cast.fps_limit := by
  unfold xdpd_wlr_sc_frame_capture
  split
  · exact ⟨rfl, rfl⟩
  · split <;> exact ⟨rfl, rfl⟩

theorem frame_capture_kept (ctx : ScreenCastContext) (cast : ScreenCast) :
    (xdpd_wlr_frame_capture ctx cast).currentFrame = cast.currentFrame ∧
      (xdpd_wlr_frame_capture ctx cast).fps_limit = cast.fps_limit := by
  unfold xdpd_wlr_frame_capture
  split
  · exact capture_kept cast
  · exact ⟨rfl, rfl⟩

theorem dequeue_kept (cast : ScreenCast) (dequeued : Option pw_buffer) :
    (xdpd_pwr_dequeue_buffer cast dequeued).currentFrame.damageCount =
        cast.currentFrame.damageCount ∧
      (xdpd_pwr_dequeue_buffer cast dequeued).currentFrame.damages =
        cast.currentFrame.damages ∧
      (xdpd_pwr_dequeue_buffer cast dequeued).fps_limit = cast.fps_limit ∧
      (xdpd_pwr_dequeue_buffer cast dequeued).framerate = cast.framerate ∧
      (xdpd_pwr_dequeue_buffer cast dequeued).seq = cast.seq ∧
      (xdpd_pwr_dequeue_buffer cast dequeued).currentFrame.pwBuffer = dequeued ∧
      (xdpd_pwr_dequeue_buffer cast dequeued).calls =
        cast.calls ++ [Call.pw_stream_dequeue_buffer] := by
  unfold xdpd_pwr_dequeue_buffer
  cases dequeued <;> exact ⟨rfl, rfl, rfl, rfl, rfl, rfl, rfl⟩

theorem on_process_kept (ctx : ScreenCastContext) (cast : ScreenCast)
    (dequeued : Option pw_buffer)
    (measure_end : fps_limit_state → Nat → fps_limit_state × Nat) :
    (pwr_handle_stream_on_process ctx cast dequeued measure_end).currentFrame.damageCount =
        cast.currentFrame.damageCount ∧
      (pwr_handle_stream_on_process ctx cast dequeued measure_end).currentFrame.damages =
        cast.currentFrame.damages ∧
      ((pwr_handle_stream_on_process ctx cast dequeued measure_end).fps_limit =
          cast.fps_limit ∨
        (pwr_handle_stream_on_process ctx cast dequeued measure_end).fps_limit =
          (measure_end cast.fps_limit cast.framerate).1) := by
  obtain ⟨h1, h2, h3, h4, _⟩ := dequeue_kept cast dequeued
  unfold pwr_handle_stream_on_process
  split
  · exact ⟨rfl, rfl, Or.inl rfl⟩
  · split
    · exact ⟨rfl, rfl, Or.inl rfl⟩
    · simp only
      split
      · exact ⟨h1, h2, Or.inl h3⟩
      · split
        · split
          · exact ⟨h1, h2, Or.inr (by rw [h3, h4])⟩
          · obtain ⟨k1, k2⟩ := frame_capture_kept ctx
              { xdpd_pwr_dequeue_buffer cast dequeued with
                fps_limit := (measure_end (xdpd_pwr_dequeue_buffer cast dequeued).fps_limit
                  (xdpd_pwr_dequeue_buffer cast dequeued).framerate).1 }
            rw [k1, k2]
            exact ⟨h1, h2, Or.inr (by rw [h3, h4])⟩
        · obtain ⟨k1, k2⟩ := frame_capture_kept ctx (xdpd_pwr_dequeue_buffer cast dequeued)
          rw [k1, k2]
          exact ⟨h1, h2, Or.inl h3⟩

theorem param_changed_kept (ctx : ScreenCastContext) (cast cast1 : ScreenCast) (id : Nat)
    (param : Option format_param)
    (h : pwr_handle_stream_param_changed ctx cast id param = some cast1) :
    cast1.currentFrame = cast.currentFrame ∧ cast1.fps_limit = cast.fps_limit := by
  unfold pwr_handle_stream_param_changed at h
  simp only at h
  repeat' split at h
  all_goals first
    | (exact Option.noConfusion h)
    | (have h2 := Option.some.inj h
       subst h2
       exact ⟨rfl, rfl⟩)

theorem add_buffer_kept (ctx : ScreenCastContext) (world : alloc_world) (cast : ScreenCast)
    (buffer : pw_buffer) (r : ScreenCast × pw_buffer)
    (h : pwr_handle_stream_add_buffer ctx world cast buffer = some r) :
    r.1.currentFrame = cast.currentFrame ∧ r.1.fps_limit = cast.fps_limit := by
  unfold pwr_handle_stream_add_buffer at h
  simp only at h
  repeat' split at h
  all_goals first
    | (exact Option.noConfusion h)
    | (have h2 := Option.some.inj h
       subst h2
       exact ⟨rfl, rfl⟩)

theorem remove_buffer_kept (cast : ScreenCast) (buffer : pw_buffer) :
    (pwr_handle_stream_remove_buffer cast buffer).1.currentFrame.damageCount =
        cast.currentFrame.damageCount ∧
      (pwr_handle_stream_remove_buffer cast buffer).1.currentFrame.damages =
        cast.currentFrame.damages ∧
      (pwr_handle_stream_remove_buffer cast buffer).1.fps_limit = cast.fps_limit := by
  unfold pwr_handle_stream_remove_buffer
  simp only
  cases buffer.user_data with
  | none => split <;> exact ⟨rfl, rfl, rfl⟩
  | some x => split <;> exact ⟨rfl, rfl, rfl⟩

/-- What one handler invocation does to the damage record and to the cycle start: the
count is left alone, the list is left alone or (damage callback) gets the reported
rectangle appended, and the cycle start is left alone. -/
theorem handle_kept (ctx : ScreenCastContext) (cast cast1 : ScreenCast) (e : Event)
    (h : handle ctx cast e = some cast1) :
    cast1.currentFrame.damageCount = cast.currentFrame.damageCount ∧
      (e.keeps_cycle_start →
        cast1.fps_limit.frame_last_time = cast.fps_limit.frame_last_time) ∧
      (cast1.currentFrame.damages = cast.currentFrame.damages ∨
        ∃ x y width height, e = .frame_damage x y width height ∧
          cast1.currentFrame.damages = cast.currentFrame.damages ++
            [{ x := i32 x, y := i32 y, width := width, height := height }]) := by
  cases e with
  | param_changed id param =>
    obtain ⟨h1, h2⟩ := param_changed_kept ctx cast cast1 id param h
    rw [h1, h2]
    exact ⟨rfl, fun _ => rfl, Or.inl rfl⟩
  | add_buffer buffer world =>
    simp only [handle, Option.map_eq_some'] at h
    obtain ⟨r, hr, rfl⟩ := h
    obtain ⟨h1, h2⟩ := add_buffer_kept ctx world cast buffer r hr
    rw [h1, h2]
    exact ⟨rfl, fun _ => rfl, Or.inl rfl⟩
  | remove_buffer buffer =>
    simp only [handle, Option.some.injEq] at h
    subst h
    obtain ⟨h1, h2, h3⟩ := remove_buffer_kept cast buffer
    rw [h3]
    exact ⟨h1, fun _ => rfl, Or.inl h2⟩
  | on_process dequeued measure_end =>
    simp only [handle, Option.some.injEq] at h
    subst h
    obtain ⟨h1, h2, h3⟩ := on_process_kept ctx cast dequeued measure_end
    refine ⟨h1, ?_, Or.inl h2⟩
    intro hk
    rcases h3 with h3 | h3
    · rw [h3]
    · rw [h3]
      exact hk cast.fps_limit cast.framerate
  | timer =>
    simp only [handle, Option.some.injEq] at h
    subst h
    obtain ⟨h1, h2⟩ := frame_capture_kept ctx cast
    rw [h1, h2]
    exact ⟨rfl, fun _ => rfl, Or.inl rfl⟩
  | state_changed old state =>
    simp only [handle, pwr_handle_stream_state_changed] at h
    split at h
    · cases h; exact ⟨rfl, fun _ => rfl, Or.inl rfl⟩
    · split at h
      · simp only [Option.map_eq_some'] at h
        obtain ⟨c, hc, rfl⟩ := h
        obtain ⟨h1, h2, h3⟩ := enqueue_kept cast c hc
        exact ⟨h1, fun _ => by rw [← h3], Or.inl h2⟩
      · cases h; exact ⟨rfl, fun _ => rfl, Or.inl rfl⟩
    · cases h; exact ⟨rfl, fun _ => rfl, Or.inl rfl⟩
  | frame_finish =>
    simp only [handle, frame_finish] at h
    split at h
    · cases h; exact ⟨rfl, fun _ => rfl, Or.inl rfl⟩
    · split at h
      · cases h; exact ⟨rfl, fun _ => rfl, Or.inl rfl⟩
      · by_cases hR : cast.frameState = .XDPD_FRAME_STATE_RENEG
        · simp only [hR, if_true, pwr_update_stream_param, reduceCtorEq, if_false] at h
          cases h
          exact ⟨rfl, fun _ => rfl, Or.inl rfl⟩
        · simp only [hR, if_false] at h
          by_cases hF : cast.frameState = .XDPD_FRAME_STATE_FAILED
          · simp only [hF, if_true] at h
            cases he : xdpd_pwr_enqueue_buffer cast with
            | none => simp [he] at h
            | some c =>
              have hfs : c.frameState = cast.frameState := (enqueue_frame cast c he).1
              simp only [he, hfs, hF, reduceCtorEq, if_false, Option.some.injEq] at h
              subst h
              obtain ⟨h1, h2, h3⟩ := enqueue_kept cast c he
              exact ⟨h1, fun _ => by rw [← h3], Or.inl h2⟩
          · simp only [hF, if_false] at h
            split at h
            · obtain ⟨h1, h2, h3⟩ := enqueue_kept cast cast1 h
              exact ⟨h1, fun _ => by rw [← h3], Or.inl h2⟩
            · cases h; exact ⟨rfl, fun _ => rfl, Or.inl rfl⟩
  | enqueue =>
    obtain ⟨h1, h2, h3⟩ := enqueue_kept cast cast1 h
    exact ⟨h1, fun _ => by rw [← h3], Or.inl h2⟩
  | frame_buffer format width height stride => cases h; exact ⟨rfl, fun _ => rfl, Or.inl rfl⟩
  | frame_flags flags => cases h; exact ⟨rfl, fun _ => rfl, Or.inl rfl⟩
  | frame_ready => cases h; exact ⟨rfl, fun _ => rfl, Or.inl rfl⟩
  | frame_failed => cases h; exact ⟨rfl, fun _ => rfl, Or.inl rfl⟩
  | frame_damage x y width height =>
    cases h
    exact ⟨rfl, fun _ => rfl, Or.inr ⟨x, y, width, height, rfl, rfl⟩⟩
  | frame_linux_dmabuf format width height => cases h; exact ⟨rfl, fun _ => rfl, Or.inl rfl⟩
  | frame_buffer_done => cases h; exact ⟨rfl, fun _ => rfl, Or.inl rfl⟩

/-- Over a run of handler invocations the count stays as it was and the list of rectangles
only grows; the cycle start stays as it was when the limiter calls leave it alone. -/
theorem run_kept (ctx : ScreenCastContext) (events : List Event) :
    ∀ cast cast1 : ScreenCast, run ctx cast events = some cast1 →
      cast1.currentFrame.damageCount = cast.currentFrame.damageCount ∧
        cast.currentFrame.damages.length ≤ cast1.currentFrame.damages.length ∧
        ((∀ e ∈ events, e.keeps_cycle_start) →
          cast1.fps_limit.frame_last_time = cast.fps_limit.frame_last_time) := by
  induction events with
  | nil =>
    intro cast cast1 h
    simp only [run, Option.some.injEq] at h
    subst h
    exact ⟨rfl, le_refl _, fun _ => rfl⟩
  | cons e es ih =>
    intro cast cast1 h
    simp only [run] at h
    cases he : handle ctx cast e with
    | none => rw [he] at h; exact Option.noConfusion h
    | some c =>
      rw [he] at h
      obtain ⟨h1, h2, h3⟩ := handle_kept ctx cast c e he
      obtain ⟨k1, k3, k2⟩ := ih c cast1 h
      refine ⟨k1.trans h1, le_trans ?_ k3, ?_⟩
      · rcases h3 with h3 | ⟨_, _, _, _, _, h3⟩
        · rw [h3]
        · rw [h3, List.length_append]
          exact Nat.le_add_right _ _
      · intro hk
        exact (k2 (fun e2 he2 => hk e2 (List.mem_cons_of_mem _ he2))).trans
          (h2 (hk e (List.mem_cons_self _ _)))

/-! ## C26: the cycle start of the limiter -/

/-- C26 (the code as it is). No handler records a cycle start: over every run of handler
invocations whose limiter calls are `fps_limit_measure_end`, `frame_last_time` stays what
it was when the session was made, and the on-process handler passes that limiter state to
`fps_limit_measure_end` once a buffer is dequeued with `seq > 0`. On the example session,
whose `frame_last_time` is zero, the first capture cycle leads to a streaming state with
`seq = 1` and frame rate 30 in which the assertion of `fps_limit_measure_end` is false. -/
theorem C26_cycle_start_never_recorded :
    (∀ (ctx : ScreenCastContext) (events : List Event) (cast cast1 : ScreenCast),
      (∀ e ∈ events, e.keeps_cycle_start) → run ctx cast events = some cast1 →
      cast1.fps_limit.frame_last_time = cast.fps_limit.frame_last_time) ∧
    (∀ (dequeued : Option pw_buffer) (now : timespec),
      (Event.on_process dequeued (limiter_call now)).keeps_cycle_start) ∧
    (∀ (ctx : ScreenCastContext) (cast : ScreenCast) (b : pw_buffer)
        (measure_end : fps_limit_state → Nat → fps_limit_state × Nat),
      cast.pwrStreamState = true → cast.currentFrame.pwBuffer = none → 0 < cast.seq →
      (pwr_handle_stream_on_process ctx cast (some b) measure_end).fps_limit =
        (measure_end cast.fps_limit cast.framerate).1) ∧
    (∃ cast1, run (example_ctx failing_gbm) example_cast first_cycle = some cast1 ∧
      cast1.pwrStreamState = true ∧ cast1.currentFrame.pwBuffer = none ∧
      cast1.seq = 1 ∧ cast1.framerate = 30 ∧ ¬ measure_end_assertion cast1.fps_limit) := by
  refine ⟨?_, ?_, ?_, ?_⟩
  · intro ctx events cast cast1 hk h
    exact (run_kept ctx events cast cast1 h).2.2 hk
  · intro dequeued now state framerate
    exact limiter_call_keeps now state framerate
  · intro ctx cast b measure_end hs hb hseq
    obtain ⟨_, _, h3, h4, h5, h6, _⟩ := dequeue_kept cast (some b)
    unfold pwr_handle_stream_on_process
    simp only [hs, hb, Bool.not_true, Bool.false_eq_true, if_false, Option.isSome_none,
      h6, Option.isNone_some, h5, hseq, if_true, gt_iff_lt]
    split
    · rw [h3, h4]
    · rw [(frame_capture_kept ctx _).2, h3, h4]
  · have hrun : (run (example_ctx failing_gbm) example_cast first_cycle).isSome = true := by
      decide
    obtain ⟨cast1, h1⟩ := Option.isSome_iff_exists.mp hrun
    have hall : (run (example_ctx failing_gbm) example_cast first_cycle).map
        (fun c => (c.pwrStreamState, c.currentFrame.pwBuffer.isNone, c.seq, c.framerate,
          timespec_is_zero c.fps_limit.frame_last_time)) = some (true, true, 1, 30, true) := by
      decide
    rw [h1] at hall
    simp only [Option.map_some', Option.some.injEq, Prod.mk.injEq] at hall
    obtain ⟨a1, a2, a3, a4, a5⟩ := hall
    refine ⟨cast1, h1, a1, ?_, a3, a4, ?_⟩
    · cases hb : cast1.currentFrame.pwBuffer with
      | none => rfl
      | some b => rw [hb] at a2; exact Bool.noConfusion a2
    · unfold measure_end_assertion
      rw [a5]
      decide

/-! ## C27: the damage count and the damage list -/

/-- C27 (the code as it is). The damage callback appends the reported rectangle (x and y
converted to `int32_t`) at the end of `damages` and leaves `damageCount` as it is; over
every run of handler invocations `damageCount` keeps the value it had and the list never
gets shorter. On the example session (count 0, empty list) the count is 0 with one
rectangle in the list after the first cycle, and the second cycle starts with that
rectangle still in the list. -/
theorem C27_damage_count_never_written :
    (∀ (cast : ScreenCast) (x y width height : Nat),
      (zwlr_screencopy_frame_v1_damage cast x y width height).currentFrame.damages =
        cast.currentFrame.damages ++
          [{ x := i32 x, y := i32 y, width := width, height := height }] ∧
      (zwlr_screencopy_frame_v1_damage cast x y width height).currentFrame.damageCount =
        cast.currentFrame.damageCount) ∧
    (∀ (ctx : ScreenCastContext) (events : List Event) (cast cast1 : ScreenCast),
      run ctx cast events = some cast1 →
      cast1.currentFrame.damageCount = cast.currentFrame.damageCount ∧
      cast.currentFrame.damages.length ≤ cast1.currentFrame.damages.length) ∧
    (run (example_ctx failing_gbm) example_cast first_cycle).map
      (fun c => (c.currentFrame.damageCount, c.currentFrame.damages.length)) = some (0, 1) ∧
    (run (example_ctx failing_gbm) example_cast two_cycles).map
      (fun c => (c.frameState, c.currentFrame.damageCount, c.currentFrame.damages.length)) =
        some (.XDPD_FRAME_STATE_STARTED, 0, 1) := by
  refine ⟨fun cast x y width height => ⟨rfl, rfl⟩, ?_, ?_, ?_⟩
  · intro ctx events cast cast1 h
    exact ⟨(run_kept ctx events cast cast1 h).1, (run_kept ctx events cast cast1 h).2.1⟩
  · decide
  · decide

/-! ## C21: the buffer held by the frame -/

theorem is_dequeue_of_gbm_alloc (c : Call) (h : c.is_gbm_alloc = true) :
    c.is_dequeue = false := by
  cases c <;> simp_all [Call.is_gbm_alloc, Call.is_dequeue]

theorem enqueue_no_dequeue (cast cast1 : ScreenCast)
    (h : xdpd_pwr_enqueue_buffer cast = some cast1) :
    ∃ new, cast1.calls = cast.calls ++ new ∧ ∀ c ∈ new, c.is_dequeue = false := by
  unfold xdpd_pwr_enqueue_buffer at h
  split at h
  · cases h
    exact new_calls0 _ _
  · simp only at h
    split at h
    · cases h
    · cases h
      refine new_calls1 _ _ _ ?_
      intro c hc
      rw [List.mem_singleton.mp hc]; rfl

theorem frame_capture_no_dequeue (ctx : ScreenCastContext) (cast : ScreenCast) :
    ∃ new, (xdpd_wlr_frame_capture ctx cast).calls = cast.calls ++ new ∧
      ∀ c ∈ new, c.is_dequeue = false := by
  unfold xdpd_wlr_frame_capture xdpd_wlr_sc_frame_capture
  split
  · split
    · exact new_calls0 _ _
    · split
      · exact new_calls0 _ _
      · refine new_calls1 _ _ _ ?_
        intro c hc
        rw [List.mem_singleton.mp hc]; rfl
  · exact new_calls0 _ _

theorem param_changed_no_dequeue (ctx : ScreenCastContext) (cast cast1 : ScreenCast)
    (id : Nat) (param : Option format_param)
    (h : pwr_handle_stream_param_changed ctx cast id param = some cast1) :
    ∃ new, cast1.calls = cast.calls ++ new ∧ ∀ c ∈ new, c.is_dequeue = false := by
  unfold pwr_handle_stream_param_changed at h
  simp only at h
  have hold : ∀ info modifiers, ∀ c ∈ (allocate_offered ctx info modifiers).1,
      c.is_dequeue = false :=
    fun info modifiers c hc =>
      is_dequeue_of_gbm_alloc c (allocate_offered_calls ctx info modifiers c hc)
  have hone : ∀ d : Call, d.is_dequeue = false → ∀ c ∈ [d], c.is_dequeue = false := by
    intro d hd c hc
    rw [List.mem_singleton.mp hc]; exact hd
  repeat' split at h
  all_goals first
    | (exact Option.noConfusion h)
    | (have h2 := Option.some.inj h
       subst h2
       first
        | exact new_calls0 _ _
        | exact new_calls1 _ _ _ (hone _ rfl)
        | exact new_calls2 _ _ _ _ (hold _ _) (hone _ rfl)
        | exact new_calls3 _ _ _ _ _ (hold _ _) (hone _ rfl) (hone _ rfl))

theorem xdpdBufferCreate_no_dequeue (ctx : ScreenCastContext) (world : alloc_world)
    (cast : ScreenCast) (buffer_type : BufferType) (frame_info : ScreenCopyFrameInfo) :
    ∀ c ∈ (xdpdBufferCreate ctx world cast buffer_type frame_info).2,
      c.is_dequeue = false := by
  intro c hc
  cases buffer_type with
  | WL_SHM =>
    have hshm := anonymous_shm_open_calls world.shm_open 100 0
    simp only [xdpdBufferCreate] at hc
    repeat' split at hc
    all_goals
      simp only [List.mem_append, List.mem_cons, List.mem_singleton, List.not_mem_nil,
        or_false] at hc
    · rcases hshm c hc with h | h <;> (rw [h]; rfl)
    all_goals
      rcases hc with hc | hc
      · rcases hshm c hc with h | h <;> (rw [h]; rfl)
      · first
        | (rw [hc]; rfl)
        | (rcases hc with hc | hc <;> (rw [hc]; rfl))
  | DMABUF =>
    simp only [xdpdBufferCreate] at hc
    repeat' split at hc
    all_goals
      simp only [List.mem_append, List.mem_cons, List.mem_singleton, List.not_mem_nil,
        or_false, List.mem_map] at hc
    all_goals
      first
      | (subst hc; rfl)
      | (rcases hc with rfl | rfl <;> rfl)
      | (rcases hc with (rfl | rfl) | rfl <;> rfl)
      | (rcases hc with ((rfl | rfl) | rfl) | ⟨fd, _, rfl⟩ <;> rfl)

theorem add_buffer_no_dequeue (ctx : ScreenCastContext) (world : alloc_world)
    (cast : ScreenCast) (buffer : pw_buffer) (r : ScreenCast × pw_buffer)
    (h : pwr_handle_stream_add_buffer ctx world cast buffer = some r) :
    ∃ new, r.1.calls = cast.calls ++ new ∧ ∀ c ∈ new, c.is_dequeue = false := by
  unfold pwr_handle_stream_add_buffer at h
  simp only at h
  have hc := xdpdBufferCreate_no_dequeue ctx world cast cast.bufferType
    (cast.screencopyFrameInfo cast.bufferType)
  repeat' split at h
  all_goals first
    | (exact Option.noConfusion h)
    | (have h2 := Option.some.inj h
       subst h2
       first
        | exact new_calls0 _ _
        | exact new_calls1 _ _ _ hc)

theorem xdpdBufferDestroy_no_dequeue (buffer : XdpdBuffer) :
    ∀ c ∈ xdpdBufferDestroy buffer, c.is_dequeue = false := by
  intro c hc
  unfold xdpdBufferDestroy at hc
  simp only [List.mem_append, List.mem_singleton, List.mem_map] at hc
  rcases hc with (rfl | hc) | ⟨fd, _, rfl⟩
  · rfl
  · split at hc
    · cases hbo : buffer.bo with
      | none => simp [hbo] at hc
      | some bo =>
        simp only [hbo, Option.map_some', Option.toList, List.mem_singleton] at hc
        subst hc
        rfl
    · exact absurd hc (List.not_mem_nil _)
  · rfl

theorem remove_buffer_no_dequeue (cast : ScreenCast) (buffer : pw_buffer) :
    ∃ new, (pwr_handle_stream_remove_buffer cast buffer).1.calls = cast.calls ++ new ∧
      ∀ c ∈ new, c.is_dequeue = false := by
  unfold pwr_handle_stream_remove_buffer
  simp only
  cases buffer.user_data with
  | none => split <;> exact new_calls0 _ _
  | some x => split <;> exact new_calls1 _ _ _ (xdpdBufferDestroy_no_dequeue x)

/-- The on-process handler: it returns at once, with no call made, when the transport is
not streaming or the frame holds a buffer; otherwise its first call is the dequeue, made on
the session as it was, and it makes no other dequeue. -/
theorem on_process_dequeue (ctx : ScreenCastContext) (cast : ScreenCast)
    (dequeued : Option pw_buffer)
    (measure_end : fps_limit_state → Nat → fps_limit_state × Nat) :
    ((cast.pwrStreamState = false ∨ cast.currentFrame.pwBuffer ≠ none) ∧
      pwr_handle_stream_on_process ctx cast dequeued measure_end = cast) ∨
    (cast.pwrStreamState = true ∧ cast.currentFrame.pwBuffer = none ∧
      (pwr_handle_stream_on_process ctx cast dequeued measure_end).currentFrame.pwBuffer =
        dequeued ∧
      ∃ rest, (pwr_handle_stream_on_process ctx cast dequeued measure_end).calls =
          (xdpd_pwr_dequeue_buffer cast dequeued).calls ++ rest ∧
        (xdpd_pwr_dequeue_buffer cast dequeued).calls =
          cast.calls ++ [Call.pw_stream_dequeue_buffer] ∧
        ∀ c ∈ rest, c.is_dequeue = false) := by
  obtain ⟨_, _, _, _, _, h6, h7⟩ := dequeue_kept cast dequeued
  have hone : ∀ d : Call, d.is_dequeue = false → ∀ c ∈ [d], c.is_dequeue = false := by
    intro d hd c hc
    rw [List.mem_singleton.mp hc]; exact hd
  unfold pwr_handle_stream_on_process
  cases hs : cast.pwrStreamState with
  | false => exact Or.inl ⟨Or.inl rfl, by simp⟩
  | true =>
    cases hb : cast.currentFrame.pwBuffer with
    | some b => exact Or.inl ⟨Or.inr (by simp), by simp⟩
    | none =>
      refine Or.inr ⟨rfl, rfl, ?_⟩
      simp only [Bool.not_true, Bool.false_eq_true, if_false, Option.isSome_none]
      split
      · exact ⟨h6, [], by simp, h7, fun c hc => absurd hc (List.not_mem_nil _)⟩
      · split
        · split
          · exact ⟨h6, _, rfl, h7, hone _ rfl⟩
          · obtain ⟨new, k1, k2⟩ := frame_capture_no_dequeue ctx
              { xdpd_pwr_dequeue_buffer cast dequeued with
                fps_limit := (measure_end (xdpd_pwr_dequeue_buffer cast dequeued).fps_limit
                  (xdpd_pwr_dequeue_buffer cast dequeued).framerate).1 }
            rw [(frame_capture_kept ctx _).1]
            exact ⟨h6, new, k1, h7, k2⟩
        · obtain ⟨new, k1, k2⟩ := frame_capture_no_dequeue ctx
            (xdpd_pwr_dequeue_buffer cast dequeued)
          rw [(frame_capture_kept ctx _).1]
          exact ⟨h6, new, k1, h7, k2⟩


/-- C21. The frame holds at most one transport buffer (`currentFrame.pwBuffer` is one
pointer), and in every session state, so in every reachable one, a handler invocation
calls `pw_stream_dequeue_buffer` only if it is the on-process handler, as its first call
and once, on a session whose frame holds no buffer: the assertion of
`xdpd_pwr_dequeue_buffer` holds where it is reached. Afterwards the frame holds the buffer
that was dequeued. -/
theorem C21_dequeue_assertion (ctx : ScreenCastContext) (cast cast1 : ScreenCast) (e : Event)
    (h : handle ctx cast e = some cast1) :
    ∃ new, cast1.calls = cast.calls ++ new ∧
      ((∀ c ∈ new, c.is_dequeue = false) ∨
        ∃ dequeued measure_end rest, e = .on_process dequeued measure_end ∧
          cast.pwrStreamState = true ∧ dequeue_assertion cast ∧
          cast1.currentFrame.pwBuffer = dequeued ∧
          new = Call.pw_stream_dequeue_buffer :: rest ∧
          ∀ c ∈ rest, c.is_dequeue = false) := by
  have triv : ∀ c1 : ScreenCast, c1.calls = cast.calls →
      ∃ new, c1.calls = cast.calls ++ new ∧
        ((∀ c ∈ new, c.is_dequeue = false) ∨
          ∃ dequeued measure_end rest, e = .on_process dequeued measure_end ∧
            cast.pwrStreamState = true ∧ dequeue_assertion cast ∧
            c1.currentFrame.pwBuffer = dequeued ∧
            new = Call.pw_stream_dequeue_buffer :: rest ∧
            ∀ c ∈ rest, c.is_dequeue = false) :=
    fun c1 h2 => ⟨[], by rw [h2, List.append_nil],
      Or.inl (fun c hc => absurd hc (List.not_mem_nil _))⟩
  have lift : ∀ c1 : ScreenCast,
      (∃ new, c1.calls = cast.calls ++ new ∧ ∀ c ∈ new, c.is_dequeue = false) →
      ∃ new, c1.calls = cast.calls ++ new ∧
        ((∀ c ∈ new, c.is_dequeue = false) ∨
          ∃ dequeued measure_end rest, e = .on_process dequeued measure_end ∧
            cast.pwrStreamState = true ∧ dequeue_assertion cast ∧
            c1.currentFrame.pwBuffer = dequeued ∧
            new = Call.pw_stream_dequeue_buffer :: rest ∧
            ∀ c ∈ rest, c.is_dequeue = false) :=
    fun c1 ⟨new, h1, h2⟩ => ⟨new, h1, Or.inl h2⟩
  cases e with
  | param_changed id param => exact lift _ (param_changed_no_dequeue ctx cast cast1 id param h)
  | add_buffer buffer world =>
    simp only [handle, Option.map_eq_some'] at h
    obtain ⟨r, hr, rfl⟩ := h
    exact lift _ (add_buffer_no_dequeue ctx world cast buffer r hr)
  | remove_buffer buffer =>
    simp only [handle, Option.some.injEq] at h
    subst h
    exact lift _ (remove_buffer_no_dequeue cast buffer)
  | on_process dequeued measure_end =>
    simp only [handle, Option.some.injEq] at h
    subst h
    rcases on_process_dequeue ctx cast dequeued measure_end with ⟨_, h1⟩ | ⟨h1, h2, h3, rest, h4, h5, h6⟩
    · rw [h1]
      exact ⟨[], by simp, Or.inl (fun c hc => absurd hc (List.not_mem_nil _))⟩
    · refine ⟨Call.pw_stream_dequeue_buffer :: rest, ?_, Or.inr ⟨dequeued, measure_end, rest,
        rfl, h1, h2, h3, rfl, h6⟩⟩
      rw [h4, h5, List.append_assoc, List.singleton_append]
  | timer =>
    simp only [handle, Option.some.injEq] at h
    subst h
    exact lift _ (frame_capture_no_dequeue ctx cast)
  | state_changed old state =>
    simp only [handle, pwr_handle_stream_state_changed] at h
    split at h
    · cases h; exact triv _ rfl
    · split at h
      · simp only [Option.map_eq_some'] at h
        obtain ⟨c, hc, rfl⟩ := h
        exact lift _ (enqueue_no_dequeue cast c hc)
      · cases h; exact triv _ rfl
    · cases h; exact triv _ rfl
  | frame_finish =>
    simp only [handle, frame_finish] at h
    split at h
    · cases h; exact triv _ rfl
    · split at h
      · cases h; exact triv _ rfl
      · by_cases hR : cast.frameState = .XDPD_FRAME_STATE_RENEG
        · simp only [hR, if_true, pwr_update_stream_param, reduceCtorEq, if_false] at h
          cases h
          refine lift _ (new_calls1 _ _ _ ?_)
          intro c hc
          rw [List.mem_singleton.mp hc]; rfl
        · simp only [hR, if_false] at h
          by_cases hF : cast.frameState = .XDPD_FRAME_STATE_FAILED
          · simp only [hF, if_true] at h
            cases he : xdpd_pwr_enqueue_buffer cast with
            | none => simp [he] at h
            | some c =>
              have hfs : c.frameState = cast.frameState := (enqueue_frame cast c he).1
              simp only [he, hfs, hF, reduceCtorEq, if_false, Option.some.injEq] at h
              subst h
              exact lift _ (enqueue_no_dequeue cast c he)
          · simp only [hF, if_false] at h
            split at h
            · exact lift _ (enqueue_no_dequeue cast cast1 h)
            · cases h; exact triv _ rfl
  | enqueue => exact lift _ (enqueue_no_dequeue cast cast1 h)
  | frame_buffer format width height stride => cases h; exact triv _ rfl
  | frame_flags flags => cases h; exact triv _ rfl
  | frame_ready => cases h; exact triv _ rfl
  | frame_failed => cases h; exact triv _ rfl
  | frame_damage x y width height => cases h; exact triv _ rfl
  | frame_linux_dmabuf format width height => cases h; exact triv _ rfl
  | frame_buffer_done => cases h; exact triv _ rfl

/-- C21 at an example: the on-process handler on the example session, whose frame holds
no buffer, dequeues one buffer and requests the capture. -/
theorem C21_dequeue_assertion_witness :
    ∃ cast1 new,
      handle (example_ctx failing_gbm) example_cast
        (.on_process (some (example_buffer 1)) (fun s _ => (s, 0))) = some cast1 ∧
      cast1.calls = example_cast.calls ++ new ∧
      ((∀ c ∈ new, c.is_dequeue = false) ∨
        ∃ dequeued measure_end rest,
          Event.on_process (some (example_buffer 1)) (fun s _ => (s, 0)) =
            .on_process dequeued measure_end ∧
          example_cast.pwrStreamState = true ∧ dequeue_assertion example_cast ∧
          cast1.currentFrame.pwBuffer = dequeued ∧
          new = Call.pw_stream_dequeue_buffer :: rest ∧
          ∀ c ∈ rest, c.is_dequeue = false) :=
  ⟨_, (C21_dequeue_assertion (example_ctx failing_gbm) example_cast _
      (.on_process (some (example_buffer 1)) (fun s _ => (s, 0))) rfl).choose,
    rfl,
    (C21_dequeue_assertion (example_ctx failing_gbm) example_cast _
      (.on_process (some (example_buffer 1)) (fun s _ => (s, 0))) rfl).choose_spec⟩

/-! ## C22: the measurement window and the delay -/

/-- C22. For every frame rate, clock reading and cycle start, two calls of
`fps_limit_measure_end` on limiter states that differ only in the measurement window
(`fps_last_time`, `fps_frame_count`) return the same delay and leave the same
`frame_last_time` (and one has a defined result exactly when the other has). -/
theorem C22_measurement_is_observability (now : timespec)
    (state1 state2 : fps_limit_state) (max_fps : ℚ)
    (h : state1.frame_last_time = state2.frame_last_time) :
    (fps_limit_measure_end now state1 max_fps).map Prod.snd =
        (fps_limit_measure_end now state2 max_fps).map Prod.snd ∧
      (fps_limit_measure_end now state1 max_fps).map
          (fun r => r.1.frame_last_time) =
        (fps_limit_measure_end now state2 max_fps).map
          (fun r => r.1.frame_last_time) := by
  unfold fps_limit_measure_end
  simp only [h]
  split
  · exact ⟨rfl, congrArg some h⟩
  · cases target_ns max_fps with
    | none => exact ⟨rfl, rfl⟩
    | some T =>
      simp only
      split
      · exact ⟨rfl, rfl⟩
      · split
        · refine ⟨rfl, ?_⟩
          simp only [Option.map_some', measure_fps_frame_last_time, h]
        · refine ⟨rfl, ?_⟩
          simp only [Option.map_some', measure_fps_frame_last_time, h]

/-- C22 at an example: a fresh measurement window and one that is 7 s old with 200 frames
counted give the same delay, 33332333 ns, and the same cycle start. -/
theorem C22_measurement_is_observability_witness :
    (fps_limit_measure_end { tv_sec := 10, tv_nsec := 1000 }
        { frame_last_time := { tv_sec := 10, tv_nsec := 0 },
          fps_last_time := { tv_sec := 0, tv_nsec := 0 }, fps_frame_count := 0 } 30).map
        Prod.snd =
      (fps_limit_measure_end { tv_sec := 10, tv_nsec := 1000 }
        { frame_last_time := { tv_sec := 10, tv_nsec := 0 },
          fps_last_time := { tv_sec := 3, tv_nsec := 0 }, fps_frame_count := 200 } 30).map
        Prod.snd ∧
    (fps_limit_measure_end { tv_sec := 10, tv_nsec := 1000 }
        { frame_last_time := { tv_sec := 10, tv_nsec := 0 },
          fps_last_time := { tv_sec := 0, tv_nsec := 0 }, fps_frame_count := 0 } 30).map
        (fun r => r.1.frame_last_time) =
      (fps_limit_measure_end { tv_sec := 10, tv_nsec := 1000 }
        { frame_last_time := { tv_sec := 10, tv_nsec := 0 },
          fps_last_time := { tv_sec := 3, tv_nsec := 0 }, fps_frame_count := 200 } 30).map
        (fun r => r.1.frame_last_time) :=
  C22_measurement_is_observability { tv_sec := 10, tv_nsec := 1000 }
    { frame_last_time := { tv_sec := 10, tv_nsec := 0 },
      fps_last_time := { tv_sec := 0, tv_nsec := 0 }, fps_frame_count := 0 }
    { frame_last_time := { tv_sec := 10, tv_nsec := 0 },
      fps_last_time := { tv_sec := 3, tv_nsec := 0 }, fps_frame_count := 200 } 30 rfl

/-! ## C23: damage rectangles on a block with room for all of them -/

/-- C23 (the code at the failing input). With two recorded rectangles, (0, 0, 5, 5) and
(10, 0, 5, 5), `damageCount` 2 and three region slots, enqueue writes rectangle 1 into the
first two entries and the box (0, 0, 15, 5) spanning both rectangles into the third:
rectangle 2 is in no entry of its own and no entry holds the empty region. With
`damageCount` 0 all three entries hold rectangle 1. -/
theorem C23_two_on_three_writes_first_rectangle :
    (∃ cast1 queued,
      xdpd_pwr_enqueue_buffer two_on_three = some cast1 ∧
      cast1.calls = [Call.pw_stream_queue_buffer queued] ∧
      queued.damage = some [SPA_REGION 0 0 5 5, SPA_REGION 0 0 5 5, SPA_REGION 0 0 15 5] ∧
      queued.damage ≠ some [SPA_REGION 0 0 5 5, SPA_REGION 10 0 5 5, SPA_REGION 0 0 0 0]) ∧
    (∃ cast1 queued,
      xdpd_pwr_enqueue_buffer two_on_three_uncounted = some cast1 ∧
      cast1.calls = [Call.pw_stream_queue_buffer queued] ∧
      queued.damage = some [SPA_REGION 0 0 5 5, SPA_REGION 0 0 5 5, SPA_REGION 0 0 5 5]) := by
  refine ⟨⟨_, _, rfl, rfl, rfl, by decide⟩, ⟨_, _, rfl, rfl, rfl⟩⟩

/-! ## C24: the deferred capture request -/

/-- C24 (the code as it is). When the on-process handler has dequeued a buffer with
`seq > 0` and the limiter returns a positive delay `d`, the handler makes two calls, the
dequeue and one `QTimer::singleShot` whose argument is the number `d`, and no capture
request. That argument is the nanosecond count, and the parameter it is passed to counts
milliseconds: for `d` below 2^31 the timer is armed for `d * 1000000` ns (for the delay
33333333 ns of a 30 Hz cycle, 33333333 ms), not for `d` ns. When the limiter returns 0, or
`seq` is 0, on a session with a screencopy manager and neither `err` nor `quit` set, the
capture request follows the dequeue at once. -/
theorem C24_timer_argument_is_milliseconds :
    (∀ (ctx : ScreenCastContext) (cast : ScreenCast) (b : pw_buffer)
        (measure_end : fps_limit_state → Nat → fps_limit_state × Nat) (d : Nat),
      cast.pwrStreamState = true → cast.currentFrame.pwBuffer = none → 0 < cast.seq →
      (measure_end cast.fps_limit cast.framerate).2 = d → 0 < d →
      (pwr_handle_stream_on_process ctx cast (some b) measure_end).calls =
          cast.calls ++ [Call.pw_stream_dequeue_buffer, Call.QTimer_singleShot d] ∧
        (pwr_handle_stream_on_process ctx cast (some b) measure_end).frameState =
          cast.frameState) ∧
    (∀ d : Nat, 0 < d → d < 2147483648 →
      QTimer_singleShot_interval_ns d = (d : Int) * 1000000 ∧
      QTimer_singleShot_interval_ns d ≠ (d : Int)) ∧
    (∀ (ctx : ScreenCastContext) (cast : ScreenCast) (b : pw_buffer)
        (measure_end : fps_limit_state → Nat → fps_limit_state × Nat),
      cast.pwrStreamState = true → cast.currentFrame.pwBuffer = none →
      ctx.screencopyManager = true → cast.quit = false → cast.err = 0 →
      cast.seq = 0 ∨ (measure_end cast.fps_limit cast.framerate).2 = 0 →
      (pwr_handle_stream_on_process ctx cast (some b) measure_end).calls =
        cast.calls ++ [Call.pw_stream_dequeue_buffer,
          Call.capture_output 0 cast.target.output]) ∧
    (pwr_handle_stream_on_process (example_ctx failing_gbm) second_cycle_cast
        (some (example_buffer 1))
        (limiter_call { tv_sec := 0, tv_nsec := 0 })).calls =
      [Call.pw_stream_dequeue_buffer, Call.QTimer_singleShot 33333333] ∧
    QTimer_singleShot_interval_ns 33333333 = 33333333000000 := by
  refine ⟨?_, ?_, ?_, by decide, by decide⟩
  · intro ctx cast b measure_end d hs hb hseq hd hpos
    unfold pwr_handle_stream_on_process xdpd_pwr_dequeue_buffer
    simp only [hs, hb, Bool.not_true, Bool.false_eq_true, if_false, Option.isSome_none,
      Option.isNone_some, hseq, if_true, gt_iff_lt, hd, hpos]
    simp
  · intro d hpos hlt
    have h1 : QTimer_singleShot_interval_ns d = (d : Int) * 1000000 := by
      have hmod : d % 4294967296 = d := Nat.mod_eq_of_lt (by omega)
      unfold QTimer_singleShot_interval_ns i32
      simp only [hmod]
      rw [if_pos (by omega)]
    refine ⟨h1, ?_⟩
    rw [h1]
    omega
  · intro ctx cast b measure_end hs hb hm hq he h0
    have hcap : ∀ c : ScreenCast, c.quit = false → c.err = 0 → c.pwrStreamState = true →
        (xdpd_wlr_frame_capture ctx c).calls =
          c.calls ++ [Call.capture_output 0 c.target.output] := by
      intro c h1 h2 h3
      simp [xdpd_wlr_frame_capture, xdpd_wlr_sc_frame_capture, hm, h1, h2, h3]
    unfold pwr_handle_stream_on_process xdpd_pwr_dequeue_buffer
    simp only [hs, hb, Bool.not_true, Bool.false_eq_true, if_false, Option.isSome_none,
      Option.isNone_some, gt_iff_lt]
    rcases h0 with h0 | h0
    · simp only [h0, Nat.lt_irrefl, if_false]
      rw [hcap]
      · simp
      · exact hq
      · exact he
      · rfl
    · split
      · simp only [h0, Nat.lt_irrefl, if_false]
        rw [hcap]
        · simp
        · exact hq
        · exact he
        · rfl
      · rw [hcap]
        · simp
        · exact hq
        · exact he
        · rfl

/-! ## C25: the target of a capture request -/

/-- C25 (the code as it is). Every capture request that `xdpd_wlr_sc_frame_capture` issues
names the output of the session's target, and its overlay-cursor argument is the constant
0 whatever the target's `with_cursor` flag: after `SelectSources` with cursor mode
`Embedded`, which sets `with_cursor` on the `ScreenCast` that the session holds, the capture
request still carries overlay cursor 0. -/
theorem C25_overlay_cursor_is_constant :
    (∀ cast : ScreenCast,
      (xdpd_wlr_sc_frame_capture cast).calls = cast.calls ∨
      (xdpd_wlr_sc_frame_capture cast).calls =
        cast.calls ++ [Call.capture_output 0 cast.target.output]) ∧
    (∀ (m_sessions : List Session) (sessionHandle : String) (session : Session)
        (cast : ScreenCast) (types : Option Nat) (output : Nat),
      findSession m_sessions sessionHandle = some session →
      session.data = QVariant.screencast cast →
      (∀ t, types = some t → (t % 4294967296) &&& 1 ≠ 0) →
      SelectSources m_sessions sessionHandle types (some 2)
          (chooser_result.Accepted (some output)) =
        some (some { cast with target := { output := output, with_cursor := true } },
          XDPD_RESPONSE_SUCCESS)) ∧
    embedded_cursor_cast.map (fun c => c.target) =
      some { output := 7, with_cursor := true } ∧
    embedded_cursor_cast.map (fun c => (xdpd_wlr_sc_frame_capture c).calls) =
      some [Call.capture_output 0 7] := by
  refine ⟨?_, ?_, by decide, by decide⟩
  · intro cast
    unfold xdpd_wlr_sc_frame_capture
    split
    · exact Or.inl rfl
    · split
      · exact Or.inl rfl
      · exact Or.inr rfl
  · intro m_sessions sessionHandle session cast types output hf hd ht
    have hv : session.data.value_ScreenCast = some cast := by rw [hd]; rfl
    have hsel : (match types with
        | some t => (t % 4294967296) &&& 1
        | none => 1) ≠ 0 := by
      cases types with
      | none => decide
      | some t => exact ht t rfl
    unfold SelectSources
    rw [hf]
    simp only [hv, hsel, if_false]
    rfl

/-! ## C28: the session lookup -/

theorem created_sessions_handle (creations : List (String × QVariant)) :
    ∀ init : List Session, (∀ s ∈ init, s.handle = "") →
      ∀ s ∈ creations.foldl (fun m_sessions p => (createSession m_sessions p.1 p.2).1) init,
        s.handle = "" := by
  induction creations with
  | nil => intro init h s hs; exact h s hs
  | cons p rest ih =>
    intro init h s hs
    simp only [List.foldl_cons] at hs
    refine ih _ ?_ s hs
    intro s2 hs2
    simp only [createSession, List.mem_append, List.mem_singleton] at hs2
    rcases hs2 with hs2 | hs2
    · exact h s2 hs2
    · rw [hs2]
      rfl

/-- C28 (the code as it is). The session that `createSession(h, d)` makes and appends has
the empty path as `handle()` and the invalid variant as `data()`, whatever `h` and `d`;
so in a context whose sessions were all made by `createSession`, `findSession(h)` returns
null for every non-empty path `h`, also right after `createSession(h, d)`. -/
theorem C28_session_lookup_fails :
    (∀ (m_sessions : List Session) (h : String) (d : QVariant),
      (createSession m_sessions h d).2.handle = "" ∧
      (createSession m_sessions h d).2.data = QVariant.invalid ∧
      (createSession m_sessions h d).1 = m_sessions ++ [(createSession m_sessions h d).2]) ∧
    (∀ (creations : List (String × QVariant)) (h : String) (d : QVariant), h ≠ "" →
      findSession (createSession (created_sessions creations) h d).1 h = none) ∧
    findSession (createSession [] example_handle (QVariant.value 42)).1 example_handle =
      none := by
  have key : ∀ (creations : List (String × QVariant)) (h : String) (d : QVariant), h ≠ "" →
      findSession (createSession (created_sessions creations) h d).1 h = none := by
    intro creations h d hne
    unfold findSession
    rw [List.find?_eq_none]
    intro s hs
    simp only [createSession, List.mem_append, List.mem_singleton] at hs
    have hh : s.handle = "" := by
      rcases hs with hs | hs
      · exact created_sessions_handle creations [] (fun _ h0 => absurd h0 (List.not_mem_nil _))
          s hs
      · rw [hs]
        rfl
    simp only [hh, decide_eq_true_eq]
    exact fun h2 => hne h2.symm
  refine ⟨fun m_sessions h d => ⟨rfl, rfl, rfl⟩, key, ?_⟩
  exact key [] example_handle (QVariant.value 42) (by decide)

/-! ## C20: the values returned by the portal methods -/

/-- Every session that `createSession` calls leave in `m_sessions` has the empty path and
the invalid variant. -/
theorem created_sessions_empty (creations : List (String × QVariant)) :
    ∀ init : List Session, (∀ s ∈ init, s = new_Session "" QVariant.invalid) →
      ∀ s ∈ creations.foldl (fun m_sessions p => (createSession m_sessions p.1 p.2).1) init,
        s = new_Session "" QVariant.invalid := by
  induction creations with
  | nil => intro init h s hs; exact h s hs
  | cons p rest ih =>
    intro init h s hs
    simp only [List.foldl_cons] at hs
    refine ih _ ?_ s hs
    intro s2 hs2
    simp only [createSession, List.mem_append, List.mem_singleton] at hs2
    rcases hs2 with hs2 | hs2
    · exact h s2 hs2
    · rw [hs2]
      rfl

/-- The list `m_sessions` grows by one session with every `createSession` call. -/
theorem created_sessions_length (creations : List (String × QVariant)) :
    ∀ init : List Session,
      (creations.foldl (fun m_sessions p => (createSession m_sessions p.1 p.2).1) init).length =
        init.length + creations.length := by
  induction creations with
  | nil => intro init; rfl
  | cons p rest ih =>
    intro init
    simp only [List.foldl_cons, List.length_cons]
    rw [ih]
    simp only [createSession, List.length_append, List.length_singleton]
    omega

/-- Once a session exists, the empty path finds a session among those that `createSession`
made. -/
theorem findSession_created_some (creations : List (String × QVariant))
    (hne : creations ≠ []) :
    ∃ session, findSession (created_sessions creations) "" = some session := by
  have hlen := created_sessions_length creations []
  have hpos : 0 < creations.length := List.length_pos.mpr hne
  cases hl : created_sessions creations with
  | nil =>
    unfold created_sessions at hl
    rw [hl] at hlen
    simp only [List.length_nil] at hlen
    omega
  | cons s rest =>
    have hs : s = new_Session "" QVariant.invalid :=
      created_sessions_empty creations [] (fun _ h0 => absurd h0 (List.not_mem_nil _)) s
        (by
          have : s ∈ created_sessions creations := by rw [hl]; exact List.mem_cons_self _ _
          exact this)
    refine ⟨s, ?_⟩
    unfold findSession
    rw [List.find?_cons]
    rw [hs]
    rfl

/-- A session found among those that `createSession` made holds no data. -/
theorem findSession_created_data (creations : List (String × QVariant)) (h : String)
    (session : Session) (hf : findSession (created_sessions creations) h = some session) :
    session.data.value_ScreenCast = none := by
  have hmem : session ∈ created_sessions creations := List.mem_of_find?_eq_some hf
  rw [created_sessions_empty creations []
    (fun _ h0 => absurd h0 (List.not_mem_nil _)) session hmem]
  rfl

/-- A path other than the empty one finds no session among those that `createSession`
made. -/
theorem findSession_created_none (creations : List (String × QVariant)) (h : String)
    (hne : h ≠ "") : findSession (created_sessions creations) h = none := by
  unfold findSession
  rw [List.find?_eq_none]
  intro s hs
  rw [created_sessions_empty creations []
    (fun _ h0 => absurd h0 (List.not_mem_nil _)) s hs]
  simp only [new_Session, Session.handle, decide_eq_true_eq]
  exact fun h2 => hne h2.symm

/-- C20 (the code as it is). In a context whose sessions were all made by `createSession`,
`Start` and `SelectSources` have no defined result for every session handle other than
the empty path: `findSession` returns null and `session->data()` is called on it; so right
after `CreateSession` with the example handle. The only value either of them returns there
is 1, and they return it for the empty path once a session exists. Behind the lookup, on a session object
that holds its `ScreenCast`, `SelectSources` returns 0 or 1, and 1 when no source type is
available, the chooser is rejected or the screen is no Wayland screen, and `Start` returns
the node id of the stream just created, or the node id the session had before when the
stream cannot be created. -/
theorem C20_null_session_dereferenced :
    (∀ (creations : List (String × QVariant)) (sessionHandle : String)
        (pw_stream_new types cursor_mode : Option Nat) (chooser : chooser_result),
      sessionHandle ≠ "" →
      Start (created_sessions creations) sessionHandle pw_stream_new = none ∧
      SelectSources (created_sessions creations) sessionHandle types cursor_mode chooser =
        none) ∧
    (∀ (creations : List (String × QVariant)) (sessionHandle : String)
        (pw_stream_new types cursor_mode : Option Nat) (chooser : chooser_result),
      (Start (created_sessions creations) sessionHandle pw_stream_new = none ∨
        Start (created_sessions creations) sessionHandle pw_stream_new =
          some (none, XDPD_RESPONSE_CANCELLED)) ∧
      (SelectSources (created_sessions creations) sessionHandle types cursor_mode chooser =
          none ∨
        SelectSources (created_sessions creations) sessionHandle types cursor_mode chooser =
          some (none, XDPD_RESPONSE_CANCELLED))) ∧
    (∀ (creations : List (String × QVariant)) (pw_stream_new types cursor_mode : Option Nat)
        (chooser : chooser_result), creations ≠ [] →
      Start (created_sessions creations) "" pw_stream_new =
        some (none, XDPD_RESPONSE_CANCELLED) ∧
      SelectSources (created_sessions creations) "" types cursor_mode chooser =
        some (none, XDPD_RESPONSE_CANCELLED)) ∧
    CreateSession true [] example_handle example_cast =
      ([new_Session example_handle (QVariant.screencast example_cast)],
        XDPD_RESPONSE_SUCCESS) ∧
    Start (CreateSession true [] example_handle example_cast).1 example_handle (some 57) =
      none ∧
    SelectSources (CreateSession true [] example_handle example_cast).1 example_handle
      none none (chooser_result.Accepted (some 7)) = none ∧
    (∀ (m_sessions : List Session) (sessionHandle : String) (types cursor_mode : Option Nat)
        (chooser : chooser_result) (r : Option ScreenCast × Nat),
      SelectSources m_sessions sessionHandle types cursor_mode chooser = some r →
      r.2 = XDPD_RESPONSE_SUCCESS ∨ r.2 = XDPD_RESPONSE_CANCELLED) ∧
    (∀ (m_sessions : List Session) (sessionHandle : String) (session : Session)
        (cast : ScreenCast) (types cursor_mode : Option Nat),
      findSession m_sessions sessionHandle = some session →
      session.data = QVariant.screencast cast →
      ((∃ t, types = some t ∧ (t % 4294967296) &&& 1 = 0) →
        ∀ chooser, SelectSources m_sessions sessionHandle types cursor_mode chooser =
          some (some cast, XDPD_RESPONSE_CANCELLED)) ∧
      ((∀ t, types = some t → (t % 4294967296) &&& 1 ≠ 0) →
        SelectSources m_sessions sessionHandle types cursor_mode chooser_result.Rejected =
          some (some cast, XDPD_RESPONSE_CANCELLED) ∧
        SelectSources m_sessions sessionHandle types cursor_mode
            (chooser_result.Accepted none) =
          some (some cast, XDPD_RESPONSE_CANCELLED))) ∧
    (∀ (m_sessions : List Session) (sessionHandle : String) (session : Session)
        (cast : ScreenCast),
      findSession m_sessions sessionHandle = some session →
      session.data = QVariant.screencast cast →
      (∀ node_id, (Start m_sessions sessionHandle (some node_id)).map Prod.snd =
        some node_id) ∧
      (Start m_sessions sessionHandle none).map Prod.snd = some cast.nodeId) := by
  have hnone : ∀ (creations : List (String × QVariant)) (sessionHandle : String)
      (pw_stream_new types cursor_mode : Option Nat) (chooser : chooser_result),
      sessionHandle ≠ "" →
      Start (created_sessions creations) sessionHandle pw_stream_new = none ∧
      SelectSources (created_sessions creations) sessionHandle types cursor_mode chooser =
        none := by
    intro creations sessionHandle pw_stream_new types cursor_mode chooser hne
    have hf := findSession_created_none creations sessionHandle hne
    constructor
    · unfold Start
      rw [hf]
    · unfold SelectSources
      rw [hf]
  refine ⟨hnone, ?_, ?_, rfl, ?_, ?_, ?_, ?_, ?_⟩
  · intro creations sessionHandle pw_stream_new types cursor_mode chooser
    cases hf : findSession (created_sessions creations) sessionHandle with
    | none =>
      constructor
      · left
        unfold Start
        rw [hf]
      · left
        unfold SelectSources
        rw [hf]
    | some session =>
      have hd := findSession_created_data creations sessionHandle session hf
      constructor
      · right
        unfold Start
        rw [hf]
        simp only [hd]
      · right
        unfold SelectSources
        rw [hf]
        simp only [hd]
  · intro creations pw_stream_new types cursor_mode chooser hne
    obtain ⟨session, hf⟩ := findSession_created_some creations hne
    have hd := findSession_created_data creations "" session hf
    constructor
    · unfold Start
      rw [hf]
      simp only [hd]
    · unfold SelectSources
      rw [hf]
      simp only [hd]
  · exact (hnone [(example_handle, QVariant.screencast example_cast)] example_handle
      (some 57) none none chooser_result.Rejected (by decide)).1
  · exact (hnone [(example_handle, QVariant.screencast example_cast)] example_handle
      none none none (chooser_result.Accepted (some 7)) (by decide)).2
  · intro m_sessions sessionHandle types cursor_mode chooser r h
    unfold SelectSources at h
    simp only at h
    repeat' split at h
    all_goals first
      | exact Option.noConfusion h
      | (have h2 := Option.some.inj h
         subst h2
         first | exact Or.inl rfl | exact Or.inr rfl)
  · intro m_sessions sessionHandle session cast types cursor_mode hf hd
    have hv : session.data.value_ScreenCast = some cast := by rw [hd]; rfl
    constructor
    · rintro ⟨t, rfl, ht⟩ chooser
      unfold SelectSources
      rw [hf]
      simp only [hv, ht, if_true]
    · intro ht
      have hsel : (match types with
          | some t => (t % 4294967296) &&& 1
          | none => 1) ≠ 0 := by
        cases types with
        | none => decide
        | some t => exact ht t rfl
      constructor
      · unfold SelectSources
        rw [hf]
        simp only [hv, hsel, if_false]
      · unfold SelectSources
        rw [hf]
        simp only [hv, hsel, if_false]
  · intro m_sessions sessionHandle session cast hf hd
    have hv : session.data.value_ScreenCast = some cast := by rw [hd]; rfl
    constructor
    · intro node_id
      unfold Start
      rw [hf]
      simp only [hv]
      rfl
    · unfold Start
      rw [hf]
      simp only [hv]
      rfl

end Xdpd
